import Mathlib

/-!
# Renderer core, EFB access and presentation: a shallow embedding

The definitions below follow, function by function,

* `Source/Core/VideoCommon/RenderBase.cpp` / `RenderBase.h`
  (`EFBToScaledX`, `EFBToScaledY`, `CalculateTargetScale`, `CalculateTargetSize`,
  `CalculateDrawAspectRatio`, `UpdateDrawRectangle`, `Swap`, the frame-dump helpers),
* `Source/Core/VideoBackends/OGL/Render.cpp` (`ClearEFBCache`, `UpdateEFBCache`, `AccessEFB`,
  `ClearScreen`, `SwapImpl`),
* `Source/Core/VideoBackends/D3D/Render.cpp` and `Source/Core/VideoBackends/Vulkan/Renderer.cpp`
  (`AccessEFB`, `PokeEFB`).

Machine integers are integers with explicit wrap-around: `u32` values are natural numbers
reduced modulo `2 ^ 32`, `int` values are integers brought into `[-2 ^ 31, 2 ^ 31)` by `toS32`.
-/

namespace Dolphin

/-! ## Machine integers -/

/-- The value of a C++ `int` holding the 32-bit two's complement pattern of `n`. -/
def toS32 (n : Int) : Int := (n + 2 ^ 31) % 2 ^ 32 - 2 ^ 31

/-- The value of a `u32` holding the low 32 bits of `n`. -/
def toU32 (n : Int) : Nat := (n % 2 ^ 32).toNat

/-- Reduction of a natural number to `u32`. -/
def u32 (n : Nat) : Nat := n % 2 ^ 32

/-- C++ `a / b` on `int`: truncation towards zero, result stored in an `int`. -/
def sdiv (a b : Int) : Int := toS32 (Int.tdiv a b)

/-- C++ `a % b` on `int`: remainder with the sign of the dividend. -/
def smod (a b : Int) : Int := toS32 (Int.tmod a b)

/-- C++ `a * b` on `int` (two's complement result). -/
def smul (a b : Int) : Int := toS32 (a * b)

/-! ## Data shared by the renderer -/

/-- The `MathUtil::Rectangle<int>` value type (`EFBRectangle`, `TargetRectangle`). -/
structure Rect where
  left : Int
  top : Int
  right : Int
  bottom : Int
deriving DecidableEq, Repr

/-- The `AspectMode` enumeration of the video configuration. -/
inductive AspectMode where
  | Auto
  | AnalogWide
  | Analog
  | Stretch
deriving DecidableEq, Repr

/-- Declarations that the sources use but that live in headers outside the translated files
(`VideoCommon/VideoCommon.h`, `Common/MathUtil.h`): the EFB and XFB dimensions, the value of
`EFB_SCALE_AUTO_INTEGRAL`, the rectangle accessors and the two colour-format round trips. -/
structure Externals where
  EFB_WIDTH : Nat
  EFB_HEIGHT : Nat
  MAX_XFB_WIDTH : Nat
  MAX_XFB_HEIGHT : Nat
  EFB_SCALE_AUTO_INTEGRAL : Int
  GetWidth : Rect → Int
  GetHeight : Rect → Int
  RGBA8ToRGBA6ToRGBA8 : Nat → Nat
  RGBA8ToRGB565ToRGBA8 : Nat → Nat

/-- The part of `g_ActiveConfig` read by the renderer core. -/
structure VideoConfig where
  iEFBScale : Int
  MaxTextureSize : Nat
  aspect_mode : AspectMode
  bCrop : Bool
  bInternalResolutionFrameDumps : Bool

/-- Calls that the renderer core makes to its collaborators during a swap, recorded in the
order in which they happen. -/
inductive Event where
  | waitFrameDumpDone
  | mapReadback
  | dumpFrameData (state : Nat)
  | startWorker
  | signalStart
  | joinWorker
  | swapImpl (texture : Nat) (region : Rect) (ticks : Nat)
  | fpsUpdate
  | dumpCurrentFrame
  | videoCopiedToXFB (update_frame_count : Bool)
deriving DecidableEq, Repr

/-- Members of the `Renderer` base class that the modelled functions read and write, with the
initial values given in `RenderBase.h`; `m_frame_dump_thread` holds whether the worker thread is
joinable, `m_last_frame_state` the tick count from which the frame state was fetched,
`frameCount` is the global frame counter, and `trace` is a ghost field listing the calls made
to collaborators, oldest first. -/
structure Renderer where
  m_backbuffer_width : Int
  m_backbuffer_height : Int
  m_target_width : Int
  m_target_height : Int
  m_target_rectangle : Rect
  m_efb_scale : Nat := 1
  m_aspect_wide : Bool
  m_last_xfb_width : Nat
  m_last_xfb_height : Nat
  m_frame_dump_thread : Bool := false
  m_frame_dump_thread_running : Bool := false
  m_frame_dump_frame_running : Bool := false
  m_frame_dump_config : Option Nat := none
  m_last_frame_state : Nat := 0
  m_last_frame_exported : Bool := false
  m_last_xfb_texture : Option Nat := none
  m_last_xfb_id : Nat := 2 ^ 64 - 1
  m_last_xfb_ticks : Nat := 0
  m_last_xfb_region : Rect := ⟨0, 0, 0, 0⟩
  frameCount : Int := 0
  trace : List Event := []

/-! ## Coordinate transforms (`RenderBase.cpp`) -/

/-- The `Renderer::EFBToScaledX` member: `x * static_cast<int>(m_efb_scale)`. -/
def Renderer.EFBToScaledX (r : Renderer) (x : Int) : Int :=
  smul x (toS32 r.m_efb_scale)

/-- The `Renderer::EFBToScaledY` member: `y * static_cast<int>(m_efb_scale)`. -/
def Renderer.EFBToScaledY (r : Renderer) (y : Int) : Int :=
  smul y (toS32 r.m_efb_scale)

/-- The `Renderer::CalculateTargetScale` member. -/
def Renderer.CalculateTargetScale (r : Renderer) (x y : Int) : Int × Int :=
  (smul x (toS32 r.m_efb_scale), smul y (toS32 r.m_efb_scale))

/-- The scale selected by the first `if` of `Renderer::CalculateTargetSize`, before the
texture-size cap: derived from the window in automatic mode, the configured value otherwise. -/
def Renderer.selectScale (X : Externals) (cfg : VideoConfig) (r : Renderer) : Nat :=
  if cfg.iEFBScale = X.EFB_SCALE_AUTO_INTEGRAL then
    let width : Int :=
      toS32 (toU32 (smul X.EFB_WIDTH (X.GetWidth r.m_target_rectangle)) / r.m_last_xfb_width : Nat)
    let height : Int :=
      toS32 (toU32 (smul X.EFB_HEIGHT (X.GetWidth r.m_target_rectangle)) / r.m_last_xfb_height : Nat)
    toU32 (max (toS32 (sdiv (toS32 (width - 1)) X.EFB_WIDTH + 1))
      (toS32 (sdiv (toS32 (height - 1)) X.EFB_HEIGHT + 1)))
  else
    toU32 cfg.iEFBScale

/-- The cap of `Renderer::CalculateTargetSize`:
`if (max_size < EFB_WIDTH * m_efb_scale) m_efb_scale = max_size / EFB_WIDTH;`. -/
def capScale (X : Externals) (max_size scale : Nat) : Nat :=
  if max_size < u32 (X.EFB_WIDTH * scale) then max_size / X.EFB_WIDTH else scale

/-- The `Renderer::CalculateTargetSize` member: returns whether the target size changed, and the
renderer after the call. -/
def Renderer.CalculateTargetSize (X : Externals) (cfg : VideoConfig) (r : Renderer) :
    Bool × Renderer :=
  let r1 : Renderer := { r with m_efb_scale := r.selectScale X cfg }
  let max_size : Nat := cfg.MaxTextureSize
  let r2 : Renderer := { r1 with m_efb_scale := capScale X max_size r1.m_efb_scale }
  let new_efb : Int × Int := r2.CalculateTargetScale X.EFB_WIDTH X.EFB_HEIGHT
  if new_efb.1 ≠ r2.m_target_width ∨ new_efb.2 ≠ r2.m_target_height then
    (true, { r2 with m_target_width := new_efb.1, m_target_height := new_efb.2 })
  else
    (false, r2)

/-- Concrete values for the missing declarations, used to evaluate the code on examples: a
640x528 EFB, a 720x576 XFB limit, automatic scaling encoded as 0, rectangle extents as absolute
differences, and the identity standing in for the two colour-format round trips. -/
def gcExternals : Externals where
  EFB_WIDTH := 640
  EFB_HEIGHT := 528
  MAX_XFB_WIDTH := 720
  MAX_XFB_HEIGHT := 576
  EFB_SCALE_AUTO_INTEGRAL := 0
  GetWidth := fun rc => |rc.right - rc.left|
  GetHeight := fun rc => |rc.bottom - rc.top|
  RGBA8ToRGBA6ToRGBA8 := fun c => c
  RGBA8ToRGB565ToRGBA8 := fun c => c

/-- A renderer showing a 1280x720 draw rectangle of a 640x480 XFB at native target size. -/
def sampleRenderer : Renderer where
  m_backbuffer_width := 1280
  m_backbuffer_height := 720
  m_target_width := 640
  m_target_height := 528
  m_target_rectangle := ⟨0, 0, 1280, 720⟩
  m_efb_scale := 1
  m_aspect_wide := true
  m_last_xfb_width := 640
  m_last_xfb_height := 480

/-- A configuration in automatic scaling mode with a 16384-texel texture limit. -/
def autoConfig : VideoConfig where
  iEFBScale := 0
  MaxTextureSize := 16384
  aspect_mode := AspectMode.Auto
  bCrop := false
  bInternalResolutionFrameDumps := false

/-! ## Draw rectangle (`RenderBase.cpp`), arithmetic over exact rationals -/

/-- The static helper `AspectToWidescreen`. -/
def AspectToWidescreen (aspect : ℚ) : ℚ := aspect * ((16 / 9) / (4 / 3))

/-- C++ `std::round`: nearest integer, halfway cases away from zero. -/
def cround (q : ℚ) : Int := if 0 ≤ q then ⌊q + 1 / 2⌋ else ⌈q - 1 / 2⌉

/-- C++ `static_cast<int>` of a floating value: truncation towards zero. -/
def ctrunc (q : ℚ) : Int := if 0 ≤ q then ⌊q⌋ else ⌈q⌉

/-- Whether the configuration and the widescreen flag select the 16:9 presentation:
`aspect_mode == AnalogWide || (aspect_mode != Analog && m_aspect_wide)`. -/
def Renderer.wideSelected (cfg : VideoConfig) (r : Renderer) : Bool :=
  decide (cfg.aspect_mode = AspectMode.AnalogWide) ||
    (decide (cfg.aspect_mode ≠ AspectMode.Analog) && r.m_aspect_wide)

/-- The `Renderer::CalculateDrawAspectRatio` member; `viAspect` is the value returned by
`VideoInterface::GetAspectRatio()`. -/
def Renderer.CalculateDrawAspectRatio (cfg : VideoConfig) (viAspect : ℚ) (r : Renderer) : ℚ :=
  if cfg.aspect_mode = AspectMode.Stretch then
    (r.m_backbuffer_width : ℚ) / (r.m_backbuffer_height : ℚ)
  else if r.wideSelected cfg = true then
    AspectToWidescreen viAspect
  else
    viAspect

/-- The crop step of `Renderer::UpdateDrawRectangle`: the pair `(crop_width, crop_height)`
after "crop the picture to a standard aspect ratio". -/
def Renderer.cropSize (cfg : VideoConfig) (viAspect : ℚ) (r : Renderer) : ℚ × ℚ :=
  let crop_width : ℚ := r.CalculateDrawAspectRatio cfg viAspect
  let crop_height : ℚ := 1
  if cfg.bCrop = true ∧ cfg.aspect_mode ≠ AspectMode.Stretch then
    let expected_aspect : ℚ := if r.wideSelected cfg = true then 16 / 9 else 4 / 3
    if crop_width / crop_height ≥ expected_aspect then
      (crop_height * expected_aspect, crop_height)
    else
      (crop_width, crop_width / expected_aspect)
  else
    (crop_width, crop_height)

/-- The pair `(draw_width, draw_height)` of `Renderer::UpdateDrawRectangle` after "scale the
picture to fit the rendering window" and before the rounding to a multiple of 4. -/
def Renderer.scaledDrawSize (cfg : VideoConfig) (viAspect : ℚ) (r : Renderer) : ℚ × ℚ :=
  let win_width : ℚ := r.m_backbuffer_width
  let win_height : ℚ := r.m_backbuffer_height
  let draw_width : ℚ := r.CalculateDrawAspectRatio cfg viAspect
  let draw_height : ℚ := 1
  let crop : ℚ × ℚ := r.cropSize cfg viAspect
  if win_width / win_height ≥ crop.1 / crop.2 then
    (draw_width * (win_height / crop.2), draw_height * (win_height / crop.2))
  else
    (draw_width * (win_width / crop.1), draw_height * (win_width / crop.1))

/-- The rounding statement of `Renderer::UpdateDrawRectangle`:
`std::ceil(d) - static_cast<int>(std::ceil(d)) % 4`. -/
def roundDraw (d : ℚ) : ℚ := (⌈d⌉ : ℚ) - ((Int.tmod ⌈d⌉ 4 : Int) : ℚ)

/-- The `Renderer::UpdateDrawRectangle` member, as far as it determines `m_target_rectangle`
(its first block only writes the aspect-ratio hack factors of the global configuration). -/
def Renderer.UpdateDrawRectangle (cfg : VideoConfig) (viAspect : ℚ) (r : Renderer) : Renderer :=
  let win_width : ℚ := r.m_backbuffer_width
  let win_height : ℚ := r.m_backbuffer_height
  let d : ℚ × ℚ := r.scaledDrawSize cfg viAspect
  let draw_width : ℚ := roundDraw d.1
  let draw_height : ℚ := roundDraw d.2
  let left : Int := cround (win_width / 2 - draw_width / 2)
  let top : Int := cround (win_height / 2 - draw_height / 2)
  { r with
    m_target_rectangle :=
      { left := left, top := top, right := left + ctrunc draw_width,
        bottom := top + ctrunc draw_height } }

/-- A 1279x1000 window showing 4:3 content without cropping. -/
def narrowWindowRenderer : Renderer :=
  { sampleRenderer with m_backbuffer_width := 1279, m_backbuffer_height := 1000 }

/-- A configuration forcing the 4:3 presentation, without cropping. -/
def analogConfig : VideoConfig :=
  { autoConfig with aspect_mode := AspectMode.Analog }

/-! ## Presentation (`RenderBase.cpp`) -/

/-- The XFB cache entry returned by `TextureCacheBase::GetXFBTexture`, as far as `Swap` reads
it: the entry identifier, the texture (by identity) and `texture->GetConfig().GetRect()`. -/
structure XFBEntry where
  id : Nat
  texture : Nat
  rect : Rect
deriving DecidableEq, Repr

/-- What one call of `Renderer::Swap` reads from outside the renderer: `SConfig::bWii`, the
pair returned by `ResetFlushAspectRatioCount()`, the screenshot request flag and the
`m_DumpFrames` setting (read by `IsFrameDumping`), the result of mapping the readback texture,
the texture cache lookup, and the effect of the backend's `SwapImpl` on the renderer. -/
structure SwapEnv where
  bWii : Bool
  flush_count_4_3 : Nat
  flush_count_anamorphic : Nat
  m_screenshot_request : Bool
  m_DumpFrames : Bool
  mapSucceeds : Bool
  GetXFBTexture : Nat → Nat → Nat → Option XFBEntry
  SwapImpl : Renderer → Nat → Rect → Nat → Renderer

/-- The `Renderer::IsFrameDumping` member. -/
def Renderer.IsFrameDumping (env : SwapEnv) : Bool :=
  if env.m_screenshot_request = true then true
  else if env.m_DumpFrames = true then true
  else false

/-- The `Renderer::FinishFrameData` member. -/
def Renderer.FinishFrameData (r : Renderer) : Renderer :=
  if ¬ r.m_frame_dump_frame_running = true then r
  else
    { r with
      trace := r.trace ++ [Event.waitFrameDumpDone]
      m_frame_dump_frame_running := false }

/-- The `Renderer::DumpFrameData` member. -/
def Renderer.DumpFrameData (r : Renderer) (state : Nat) : Renderer :=
  let r : Renderer :=
    { r with m_frame_dump_config := some state, trace := r.trace ++ [Event.dumpFrameData state] }
  let r : Renderer :=
    if ¬ r.m_frame_dump_thread_running = true then
      let r : Renderer :=
        if r.m_frame_dump_thread = true then
          { r with trace := r.trace ++ [Event.joinWorker], m_frame_dump_thread := false }
        else r
      { r with
        m_frame_dump_thread_running := true
        m_frame_dump_thread := true
        trace := r.trace ++ [Event.startWorker] }
    else r
  { r with trace := r.trace ++ [Event.signalStart], m_frame_dump_frame_running := true }

mutual

/-- The `Renderer::FlushFrameDump` member; `none` when the call depth exceeds `fuel`. -/
def Renderer.FlushFrameDump (env : SwapEnv) : Nat → Renderer → Option Renderer
  | 0, _ => none
  | fuel + 1, r =>
    if ¬ r.m_last_frame_exported = true then some r
    else
      let r : Renderer := r.FinishFrameData
      let r : Renderer := { r with trace := r.trace ++ [Event.mapReadback] }
      let r : Renderer :=
        if env.mapSucceeds = true then r.DumpFrameData r.m_last_frame_state else r
      let r : Renderer := { r with m_last_frame_exported := false }
      if ¬ Renderer.IsFrameDumping env = true then Renderer.ShutdownFrameDumping env fuel r
      else some r

/-- The `Renderer::ShutdownFrameDumping` member; `none` when the call depth exceeds `fuel`. -/
def Renderer.ShutdownFrameDumping (env : SwapEnv) : Nat → Renderer → Option Renderer
  | 0, _ => none
  | fuel + 1, r =>
    match Renderer.FlushFrameDump env fuel r with
    | none => none
    | some r =>
      if ¬ r.m_frame_dump_thread_running = true then some r
      else
        let r : Renderer := r.FinishFrameData
        let r : Renderer :=
          { r with
            m_frame_dump_thread_running := false
            trace := r.trace ++ [Event.signalStart] }
        if r.m_frame_dump_thread = true then
          some { r with trace := r.trace ++ [Event.joinWorker], m_frame_dump_thread := false }
        else some r

end

/-- The `Renderer::DumpCurrentFrame` member, on the tracked members: `RenderFrameDump` fills the
dump texture and `QueueFrameDumpReadback` records the frame state of `m_last_xfb_ticks` and sets
`m_last_frame_exported`. -/
def Renderer.DumpCurrentFrame (r : Renderer) : Renderer :=
  { r with
    trace := r.trace ++ [Event.dumpCurrentFrame]
    m_last_frame_state := r.m_last_xfb_ticks
    m_last_frame_exported := true }

/-- The block of `Renderer::Swap` guarded by `xfb_entry && xfb_entry->id != m_last_xfb_id`:
the presentation of a new XFB. The backend's `SwapImpl` can change only the members that are
not private to the base class. -/
def Renderer.presentXFB (env : SwapEnv) (r : Renderer) (xfb_entry : XFBEntry)
    (fbWidth fbStride ticks : Nat) : Renderer :=
  let r : Renderer :=
    { r with
      m_last_xfb_texture := some xfb_entry.texture
      m_last_xfb_id := xfb_entry.id
      m_last_xfb_ticks := ticks }
  let xfb_rect : Rect := xfb_entry.rect
  let xfb_rect : Rect :=
    { xfb_rect with
      right := toS32 (xfb_rect.right - r.EFBToScaledX (toS32 (toU32 (fbStride - fbWidth)))) }
  let r : Renderer := { r with m_last_xfb_region := xfb_rect }
  let b : Renderer := env.SwapImpl r xfb_entry.texture xfb_rect ticks
  let r : Renderer :=
    { r with
      trace := r.trace ++ [Event.swapImpl xfb_entry.texture xfb_rect ticks]
      m_backbuffer_width := b.m_backbuffer_width
      m_backbuffer_height := b.m_backbuffer_height
      m_target_width := b.m_target_width
      m_target_height := b.m_target_height
      m_target_rectangle := b.m_target_rectangle
      m_efb_scale := b.m_efb_scale }
  let r : Renderer := { r with trace := r.trace ++ [Event.fpsUpdate] }
  if Renderer.IsFrameDumping env = true then r.DumpCurrentFrame else r

/-- The `Renderer::Swap` member; `none` when the frame-dump call depth exceeds `fuel`. The
comparison `count > 0.75 * flush_total` is taken exactly, as `4 * count > 3 * flush_total`. -/
def Renderer.Swap (X : Externals) (env : SwapEnv) (fuel : Nat) (r : Renderer)
    (xfbAddr fbWidth fbStride fbHeight ticks : Nat) : Option Renderer :=
  let r : Renderer :=
    if ¬ env.bWii = true then
      let flush_total : Nat := env.flush_count_4_3 + env.flush_count_anamorphic
      if r.m_aspect_wide = true then
        { r with m_aspect_wide := !decide (4 * env.flush_count_4_3 > 3 * flush_total) }
      else
        { r with m_aspect_wide := decide (4 * env.flush_count_anamorphic > 3 * flush_total) }
    else r
  match Renderer.FlushFrameDump env fuel r with
  | none => none
  | some r =>
    let res : Renderer × Bool :=
      if xfbAddr ≠ 0 ∧ fbWidth ≠ 0 ∧ fbStride ≠ 0 ∧ fbHeight ≠ 0 then
        let res : Renderer × Bool :=
          match env.GetXFBTexture xfbAddr fbStride fbHeight with
          | some xfb_entry =>
            if xfb_entry.id ≠ r.m_last_xfb_id then
              (r.presentXFB env xfb_entry fbWidth fbStride ticks, true)
            else (r, false)
          | none => (r, false)
        ({ res.1 with
            m_last_xfb_width :=
              if fbStride < 1 ∨ fbStride > X.MAX_XFB_WIDTH then X.MAX_XFB_WIDTH else fbStride
            m_last_xfb_height :=
              if fbHeight < 1 ∨ fbHeight > X.MAX_XFB_HEIGHT then X.MAX_XFB_HEIGHT
              else fbHeight },
          res.2)
      else (r, false)
    let r : Renderer := res.1
    let update_frame_count : Bool := res.2
    some
      { r with
        frameCount := toS32 (r.frameCount + 1)
        trace := r.trace ++ [Event.videoCopiedToXFB update_frame_count] }

/-- The number of `SwapImpl` calls recorded in a trace. -/
def presentations (t : List Event) : Nat :=
  t.countP (fun e => match e with | Event.swapImpl _ _ _ => true | _ => false)

/-- The number of FPS counter updates recorded in a trace. -/
def fpsUpdates (t : List Event) : Nat :=
  t.countP (fun e => decide (e = Event.fpsUpdate))

/-- What the presentation bookkeeping of a renderer shows: the last presented XFB (identifier,
texture, ticks, region) and the numbers of `SwapImpl` calls and FPS counter updates so far. -/
def Renderer.xfbView (r : Renderer) : Nat × Option Nat × Nat × Rect × Nat × Nat :=
  (r.m_last_xfb_id, r.m_last_xfb_texture, r.m_last_xfb_ticks, r.m_last_xfb_region,
    presentations r.trace, fpsUpdates r.trace)

/-- The condition under which `Swap` presents a frame: the four arguments are non-zero, the
texture cache returns an entry, and its identifier differs from `m_last_xfb_id`. -/
def Renderer.presentsOn (env : SwapEnv) (r : Renderer) (xfbAddr fbWidth fbStride fbHeight : Nat) :
    Prop :=
  xfbAddr ≠ 0 ∧ fbWidth ≠ 0 ∧ fbStride ≠ 0 ∧ fbHeight ≠ 0 ∧
    ∃ e, env.GetXFBTexture xfbAddr fbStride fbHeight = some e ∧ e.id ≠ r.m_last_xfb_id

/-- A swap request resolves to the entry identifier `k`: its four arguments are non-zero and
the texture cache returns an entry with identifier `k`. -/
def SwapEnv.resolvesTo (env : SwapEnv) (xfbAddr fbWidth fbStride fbHeight k : Nat) : Prop :=
  xfbAddr ≠ 0 ∧ fbWidth ≠ 0 ∧ fbStride ≠ 0 ∧ fbHeight ≠ 0 ∧
    ∃ e, env.GetXFBTexture xfbAddr fbStride fbHeight = some e ∧ e.id = k

/-- An environment whose texture cache resolves every XFB to the entry with identifier `id`,
with frame dumping inactive and a backend `SwapImpl` that leaves the renderer as it is. -/
def constantXfbEnv (id : Nat) : SwapEnv where
  bWii := true
  flush_count_4_3 := 0
  flush_count_anamorphic := 0
  m_screenshot_request := false
  m_DumpFrames := false
  mapSucceeds := true
  GetXFBTexture := fun _ _ _ => some { id := id, texture := 1, rect := ⟨0, 0, 640, 480⟩ }
  SwapImpl := fun r _ _ _ => r

/-- One swap of the XFB at address 0x1000 (640 wide, 480 high) whose cache entry has
identifier 5, with enough fuel for the frame-dump calls. -/
def swapSameXfb (r : Renderer) : Option Renderer :=
  r.Swap gcExternals (constantXfbEnv 5) 3 0x1000 640 640 480 100

/-! ## EFB access: shared declarations -/

/-- The `EFBAccessType` enumeration. -/
inductive EFBAccessType where
  | PeekZ
  | PokeZ
  | PeekColor
  | PokeColor
deriving DecidableEq, Repr

/-- The values of `bpmem.zcontrol.pixel_format` that the EFB access code distinguishes:
`PEControl::RGBA6_Z24`, `PEControl::RGB565_Z16`, and every other value of the enumeration. -/
inductive PixelFormat where
  | RGBA6_Z24
  | RGB565_Z16
  | Other
deriving DecidableEq, Repr

/-- The alpha byte (bits 24 to 31) of a 32-bit colour. -/
def alphaByte (c : Nat) : Nat := (c >>> 24) &&& 0xFF

/-- The low 24 bits (red, green, blue) of a 32-bit colour. -/
def low24 (c : Nat) : Nat := c &&& 0xFFFFFF

/-- The colour of `DX11::Renderer::AccessEFB(PeekColor)` just before the alpha-read policy:
the staging texel `val` after the RGBA to BGRA swizzle and the pixel-format emulation. -/
def D3D.peekColorProcessed (X : Externals) (pixel_format : PixelFormat) (val : Nat) : Nat :=
  let val := (val &&& 0xFF00FF00) ||| ((val >>> 16) &&& 0xFF) ||| (u32 (val <<< 16) &&& 0xFF0000)
  let val :=
    if pixel_format = PixelFormat.RGBA6_Z24 then u32 (X.RGBA8ToRGBA6ToRGBA8 val)
    else if pixel_format = PixelFormat.RGB565_Z16 then u32 (X.RGBA8ToRGB565ToRGBA8 val)
    else val
  if pixel_format ≠ PixelFormat.RGBA6_Z24 then val ||| 0xFF000000 else val

/-- The PeekColor branch of `DX11::Renderer::AccessEFB`, from the texel read back through the
staging buffer to the returned value. -/
def D3D.AccessEFB_PeekColor (X : Externals) (pixel_format : PixelFormat) (ReadMode : Nat)
    (val : Nat) : Nat :=
  let val := D3D.peekColorProcessed X pixel_format val
  if ReadMode = 2 then val
  else if ReadMode = 1 then val ||| 0xFF000000
  else val &&& 0x00FFFFFF

/-! ## Vulkan backend (`VideoBackends/Vulkan/Renderer.cpp`) -/

/-- Modelled from the spec: the Vulkan `FramebufferManager` colour store behind `PokeEFBColor`
and `PeekEFBColor` (its implementation file is not among the sources). It holds one 32-bit
texel per EFB coordinate, and a peek returns exactly the texel stored by the last poke there. -/
structure Vulkan.FramebufferManager where
  color : Nat → Nat → Nat

/-- Modelled from the spec: `FramebufferManager::PeekEFBColor` returns the stored texel. -/
def Vulkan.FramebufferManager.PeekEFBColor (fb : Vulkan.FramebufferManager) (x y : Nat) : Nat :=
  fb.color x y

/-- The colour of `Vulkan::Renderer::AccessEFB(PeekColor)` just before the alpha-read policy. -/
def Vulkan.peekColorProcessed (X : Externals) (pixel_format : PixelFormat)
    (fb : Vulkan.FramebufferManager) (x y : Nat) : Nat :=
  let color := fb.PeekEFBColor x y
  let color :=
    (color &&& 0xFF00FF00) ||| ((color >>> 16) &&& 0xFF) ||| (u32 (color <<< 16) &&& 0xFF0000)
  let color :=
    if pixel_format = PixelFormat.RGBA6_Z24 then u32 (X.RGBA8ToRGBA6ToRGBA8 color)
    else if pixel_format = PixelFormat.RGB565_Z16 then u32 (X.RGBA8ToRGB565ToRGBA8 color)
    else color
  if pixel_format ≠ PixelFormat.RGBA6_Z24 then color ||| 0xFF000000 else color

/-- The PeekColor branch of `Vulkan::Renderer::AccessEFB`. -/
def Vulkan.AccessEFB_PeekColor (X : Externals) (pixel_format : PixelFormat) (ReadMode : Nat)
    (fb : Vulkan.FramebufferManager) (x y : Nat) : Nat :=
  let color := Vulkan.peekColorProcessed X pixel_format fb x y
  if ReadMode = 2 then color
  else if ReadMode = 1 then color ||| 0xFF000000
  else color &&& 0x00FFFFFF

/-- The constant `EFB_CACHE_RECT_SIZE`: the cache holds 64x64 blocks. -/
def OGL.EFB_CACHE_RECT_SIZE : Nat := 64

/-- The constant `EFB_CACHE_WIDTH`: tiles per row, rounded up. -/
def OGL.EFB_CACHE_WIDTH (X : Externals) : Nat :=
  u32 (u32 (u32 (X.EFB_WIDTH + OGL.EFB_CACHE_RECT_SIZE) - 1) / OGL.EFB_CACHE_RECT_SIZE)

/-- The constant `EFB_CACHE_HEIGHT`: tile rows, rounded up. -/
def OGL.EFB_CACHE_HEIGHT (X : Externals) : Nat :=
  u32 (u32 (u32 (X.EFB_HEIGHT + OGL.EFB_CACHE_RECT_SIZE) - 1) / OGL.EFB_CACHE_RECT_SIZE)

/-- The file-level EFB cache of the OGL renderer: `s_efbCacheValid[2][..]`,
`s_efbCacheIsCleared` and `s_efbCache[2][..]`, indexed by cache type (0 for PeekZ, 1 for
PeekColor) and tile index. -/
structure OGL.EFBCache where
  s_efbCacheValid : Nat → Nat → Bool
  s_efbCacheIsCleared : Bool
  s_efbCache : Nat → Nat → List Nat

/-- The static initial state: no tile valid, `s_efbCacheIsCleared = false`, empty vectors. -/
def OGL.EFBCache.initial : OGL.EFBCache where
  s_efbCacheValid := fun _ _ => false
  s_efbCacheIsCleared := false
  s_efbCache := fun _ _ => []

/-- The function `ClearEFBCache`. -/
def OGL.ClearEFBCache (c : OGL.EFBCache) : OGL.EFBCache :=
  if ¬ c.s_efbCacheIsCleared = true then
    { c with s_efbCacheIsCleared := true, s_efbCacheValid := fun _ _ => false }
  else
    c

/-- The `OGL::Renderer::ConvertEFBRectangle` member. -/
def OGL.ConvertEFBRectangle (X : Externals) (r : Renderer) (rc : Rect) : Rect where
  left := r.EFBToScaledX rc.left
  top := r.EFBToScaledY (toS32 (X.EFB_HEIGHT - rc.top))
  right := r.EFBToScaledX rc.right
  bottom := r.EFBToScaledY (toS32 (X.EFB_HEIGHT - rc.bottom))

/-- The column `xData` of the readback buffer that `UpdateEFBCache` samples for the EFB column
`xEFB`. -/
def OGL.xDataOf (r : Renderer) (targetPixelRc : Rect) (xEFB : Nat) : Nat :=
  let xPixel : Nat :=
    toU32 (sdiv (toS32 (r.EFBToScaledX (toS32 xEFB) + r.EFBToScaledX (toS32 (u32 (xEFB + 1))))) 2)
  toU32 (xPixel - targetPixelRc.left)

/-- The row `yData` of the readback buffer that `UpdateEFBCache` samples for the EFB row
`yEFB`. -/
def OGL.yDataOf (X : Externals) (r : Renderer) (targetPixelRc : Rect) (yEFB : Nat) : Nat :=
  let yPixel : Nat :=
    toU32 (sdiv (toS32 (r.EFBToScaledY (toS32 (toU32 (X.EFB_HEIGHT - yEFB))) +
      r.EFBToScaledY (toS32 (toU32 (X.EFB_HEIGHT - yEFB - 1))))) 2)
  toU32 (yPixel - targetPixelRc.bottom)

/-- The value that the body of the inner loop of `UpdateEFBCache` stores for the EFB pixel
`(xEFB, yEFB)`: a depth sample converted to 24 bits for PeekZ, the raw word otherwise. `data`
is the readback buffer as 32-bit words and `asFloat` reads such a word as a `float`. -/
def OGL.efbPixelValue (X : Externals) (clamp : Nat → Nat → Nat → Nat) (asFloat : Nat → ℚ)
    (r : Renderer) (type : EFBAccessType) (targetPixelRc : Rect) (data : Nat → Nat)
    (xEFB yEFB : Nat) : Nat :=
  let targetPixelRcWidth : Nat := toU32 (toS32 (targetPixelRc.right - targetPixelRc.left))
  let yData : Nat := OGL.yDataOf X r targetPixelRc yEFB
  let xData : Nat := OGL.xDataOf r targetPixelRc xEFB
  if type = EFBAccessType.PeekZ then
    clamp (toU32 (ctrunc (asFloat (data (u32 (u32 (yData * targetPixelRcWidth) + xData))) *
      16777216))) 0 0xFFFFFF
  else
    data (u32 (u32 (yData * targetPixelRcWidth) + xData))

/-- The two nested loops of `UpdateEFBCache`, writing one tile vector. -/
def OGL.fillTile (pixel : Nat → Nat → Nat) (efbPixelRc : Rect) (vec : List Nat) : List Nat :=
  let efbPixelRcHeight : Nat := toU32 (toS32 (efbPixelRc.bottom - efbPixelRc.top))
  let efbPixelRcWidth : Nat := toU32 (toS32 (efbPixelRc.right - efbPixelRc.left))
  (List.range efbPixelRcHeight).foldl
    (fun (vec : List Nat) (yCache : Nat) =>
      let yEFB : Nat := toU32 (efbPixelRc.top + (yCache : Int))
      (List.range efbPixelRcWidth).foldl
        (fun (vec : List Nat) (xCache : Nat) =>
          let xEFB : Nat := toU32 (efbPixelRc.left + (xCache : Int))
          vec.set (u32 (u32 (yCache * OGL.EFB_CACHE_RECT_SIZE) + xCache)) (pixel xEFB yEFB))
        vec)
    vec

/-- The `OGL::Renderer::UpdateEFBCache` member. -/
def OGL.UpdateEFBCache (X : Externals) (clamp : Nat → Nat → Nat → Nat) (asFloat : Nat → ℚ)
    (r : Renderer) (c : OGL.EFBCache) (type : EFBAccessType) (cacheRectIdx : Nat)
    (efbPixelRc targetPixelRc : Rect) (data : Nat → Nat) : OGL.EFBCache :=
  let cacheType : Nat := if type = EFBAccessType.PeekZ then 0 else 1
  let vec : List Nat :=
    if (c.s_efbCache cacheType cacheRectIdx).length = 0 then
      List.replicate (OGL.EFB_CACHE_RECT_SIZE * OGL.EFB_CACHE_RECT_SIZE) 0
    else
      c.s_efbCache cacheType cacheRectIdx
  let vec : List Nat :=
    OGL.fillTile (OGL.efbPixelValue X clamp asFloat r type targetPixelRc data) efbPixelRc vec
  { s_efbCache := fun t i => if t = cacheType ∧ i = cacheRectIdx then vec else c.s_efbCache t i
    s_efbCacheValid :=
      fun t i => if t = cacheType ∧ i = cacheRectIdx then true else c.s_efbCacheValid t i
    s_efbCacheIsCleared := false }

/-- The tile index computed at the start of `OGL::Renderer::AccessEFB`. -/
def OGL.cacheRectIdxOf (X : Externals) (x y : Nat) : Nat :=
  u32 (u32 ((y / OGL.EFB_CACHE_RECT_SIZE) * OGL.EFB_CACHE_WIDTH X) + x / OGL.EFB_CACHE_RECT_SIZE)

/-- The EFB rectangle chosen by `OGL::Renderer::AccessEFB`: the tile containing the pixel for
a peek, the single pixel otherwise. -/
def OGL.efbPixelRcOf (X : Externals) (type : EFBAccessType) (x y : Nat) : Rect :=
  if type = EFBAccessType.PeekColor ∨ type = EFBAccessType.PeekZ then
    let left : Int := toS32 (u32 ((x / OGL.EFB_CACHE_RECT_SIZE) * OGL.EFB_CACHE_RECT_SIZE))
    let top : Int := toS32 (u32 ((y / OGL.EFB_CACHE_RECT_SIZE) * OGL.EFB_CACHE_RECT_SIZE))
    { left := left
      top := top
      right := toS32 ((min (toU32 (left + OGL.EFB_CACHE_RECT_SIZE)) (u32 X.EFB_WIDTH) : Nat) : Int)
      bottom :=
        toS32 ((min (toU32 (top + OGL.EFB_CACHE_RECT_SIZE)) (u32 X.EFB_HEIGHT) : Nat) : Int) }
  else
    { left := toS32 x, top := toS32 y, right := toS32 (u32 (x + 1)), bottom := toS32 (u32 (y + 1)) }

/-- The offset `yRect * EFB_CACHE_RECT_SIZE + xRect` at which `OGL::Renderer::AccessEFB` reads
the tile vector, with `xRect = x % EFB_CACHE_RECT_SIZE` and `yRect = y % EFB_CACHE_RECT_SIZE`. -/
def OGL.cacheOffsetOf (x y : Nat) : Nat :=
  let xRect : Nat := x % OGL.EFB_CACHE_RECT_SIZE
  let yRect : Nat := y % OGL.EFB_CACHE_RECT_SIZE
  u32 (u32 (yRect * OGL.EFB_CACHE_RECT_SIZE) + xRect)

/-- The colour of `OGL::Renderer::AccessEFB(PeekColor)` just before the alpha-read policy: the
cached word after the pixel-format emulation. -/
def OGL.peekColorProcessed (X : Externals) (pixel_format : PixelFormat) (color : Nat) : Nat :=
  let color :=
    if pixel_format = PixelFormat.RGBA6_Z24 then u32 (X.RGBA8ToRGBA6ToRGBA8 color)
    else if pixel_format = PixelFormat.RGB565_Z16 then u32 (X.RGBA8ToRGB565ToRGBA8 color)
    else color
  if pixel_format ≠ PixelFormat.RGBA6_Z24 then color ||| 0xFF000000 else color

/-- The `OGL::Renderer::AccessEFB` member: the returned value and the cache afterwards.
`glReadPixels left bottom width height` is the readback of the target rectangle, as words. -/
def OGL.AccessEFB (X : Externals) (clamp : Nat → Nat → Nat → Nat) (asFloat : Nat → ℚ)
    (glReadPixels : EFBAccessType → Int → Int → Nat → Nat → Nat → Nat)
    (pixel_format : PixelFormat) (ReadMode : Nat) (r : Renderer) (c : OGL.EFBCache)
    (type : EFBAccessType) (x y : Nat) : Nat × OGL.EFBCache :=
  let cacheRectIdx : Nat := OGL.cacheRectIdxOf X x y
  let efbPixelRc : Rect := OGL.efbPixelRcOf X type x y
  let targetPixelRc : Rect := OGL.ConvertEFBRectangle X r efbPixelRc
  let targetPixelRcWidth : Nat := toU32 (toS32 (targetPixelRc.right - targetPixelRc.left))
  let targetPixelRcHeight : Nat := toU32 (toS32 (targetPixelRc.top - targetPixelRc.bottom))
  match type with
  | EFBAccessType.PeekZ =>
    let c : OGL.EFBCache :=
      if ¬ c.s_efbCacheValid 0 cacheRectIdx = true then
        OGL.UpdateEFBCache X clamp asFloat r c type cacheRectIdx efbPixelRc targetPixelRc
          (glReadPixels type targetPixelRc.left targetPixelRc.bottom targetPixelRcWidth
            targetPixelRcHeight)
      else c
    let z : Nat :=
      (c.s_efbCache 0 cacheRectIdx).getD (OGL.cacheOffsetOf x y) 0
    let z : Nat := if pixel_format = PixelFormat.RGB565_Z16 then z >>> 8 else z
    (z, c)
  | EFBAccessType.PeekColor =>
    let c : OGL.EFBCache :=
      if ¬ c.s_efbCacheValid 1 cacheRectIdx = true then
        OGL.UpdateEFBCache X clamp asFloat r c type cacheRectIdx efbPixelRc targetPixelRc
          (glReadPixels type targetPixelRc.left targetPixelRc.bottom targetPixelRcWidth
            targetPixelRcHeight)
      else c
    let color : Nat :=
      (c.s_efbCache 1 cacheRectIdx).getD (OGL.cacheOffsetOf x y) 0
    let color : Nat := OGL.peekColorProcessed X pixel_format color
    if ReadMode = 2 then (color, c)
    else if ReadMode = 1 then (color ||| 0xFF000000, c)
    else (color &&& 0x00FFFFFF, c)
  | _ => (0, c)

/-- The `OGL::Renderer::SwapImpl` member, on the renderer and the EFB cache: the draw rectangle
is updated, the backbuffer size is refreshed from the window (`window_width`, `window_height`,
both at least 1), the target size is recalculated, the draw rectangle is updated again when the
window or the framebuffer changed (`other_fb_change` stands for the multisample, stencil and
stereo comparisons), and the function ends with `ClearEFBCache()`. -/
def OGL.SwapImpl (X : Externals) (cfg : VideoConfig) (viAspect : ℚ)
    (window_width window_height : Int) (other_fb_change : Bool)
    (r : Renderer) (c : OGL.EFBCache) : Renderer × OGL.EFBCache :=
  let r : Renderer := r.UpdateDrawRectangle cfg viAspect
  let window_resized : Bool :=
    decide (window_width ≠ r.m_backbuffer_width ∨ window_height ≠ r.m_backbuffer_height)
  let r : Renderer :=
    if window_resized = true then
      { r with m_backbuffer_width := window_width, m_backbuffer_height := window_height }
    else r
  let res : Bool × Renderer := r.CalculateTargetSize X cfg
  let target_size_changed : Bool := res.1
  let r : Renderer := res.2
  let fb_needs_update : Bool := target_size_changed || other_fb_change
  let r : Renderer :=
    if window_resized = true ∨ fb_needs_update = true then r.UpdateDrawRectangle cfg viAspect
    else r
  (r, OGL.ClearEFBCache c)

/-- The states of the EFB cache that the program can reach: the static initial state, and any
state obtained from a reachable one by `ClearEFBCache` or `UpdateEFBCache`, the only two
functions that write the cache variables. -/
inductive OGL.Reachable : OGL.EFBCache → Prop where
  | initial : OGL.Reachable OGL.EFBCache.initial
  | clear (c : OGL.EFBCache) : OGL.Reachable c → OGL.Reachable (OGL.ClearEFBCache c)
  | update (X : Externals) (clamp : Nat → Nat → Nat → Nat) (asFloat : Nat → ℚ) (r : Renderer)
      (c : OGL.EFBCache) (type : EFBAccessType) (cacheRectIdx : Nat)
      (efbPixelRc targetPixelRc : Rect) (data : Nat → Nat) :
      OGL.Reachable c →
      OGL.Reachable
        (OGL.UpdateEFBCache X clamp asFloat r c type cacheRectIdx efbPixelRc targetPixelRc data)

/-- The invariant of the EFB cache: when `s_efbCacheIsCleared` is set, no tile is valid. -/
def OGL.ClearedMeansInvalid (c : OGL.EFBCache) : Prop :=
  c.s_efbCacheIsCleared = true → ∀ t i, c.s_efbCacheValid t i = false

/-! ## Frame dumping: trace observations -/

/-- The tail of `Renderer::ShutdownFrameDumping` after its call of `FlushFrameDump`: nothing
when the worker is not running, otherwise wait for the frame in flight, clear the running flag,
signal the start event and join the worker. -/
def Renderer.shutdownTail (r : Renderer) : Renderer :=
  if ¬ r.m_frame_dump_thread_running = true then r
  else
    let r : Renderer := r.FinishFrameData
    let r : Renderer :=
      { r with
        m_frame_dump_thread_running := false
        trace := r.trace ++ [Event.signalStart] }
    if r.m_frame_dump_thread = true then
      { r with trace := r.trace ++ [Event.joinWorker], m_frame_dump_thread := false }
    else r

/-- The part of `Renderer::FlushFrameDump` between its early return and its closing test of
`IsFrameDumping`: finish the frame in flight, map the readback texture, hand the queued frame
to the encoder when the mapping succeeded, and clear `m_last_frame_exported`. -/
def Renderer.flushBody (env : SwapEnv) (r : Renderer) : Renderer :=
  let r : Renderer := r.FinishFrameData
  let r : Renderer := { r with trace := r.trace ++ [Event.mapReadback] }
  let r : Renderer :=
    if env.mapSucceeds = true then r.DumpFrameData r.m_last_frame_state else r
  { r with m_last_frame_exported := false }

/-- The result of `Renderer::FlushFrameDump` when the call depth is not limited. -/
def Renderer.flushResult (env : SwapEnv) (r : Renderer) : Renderer :=
  if ¬ r.m_last_frame_exported = true then r
  else if ¬ Renderer.IsFrameDumping env = true then (r.flushBody env).shutdownTail
  else r.flushBody env

/-- Whether an event is one of the calls made on behalf of the frame dump of an earlier frame:
waiting for the worker, mapping the readback texture, handing a frame to the encoder, starting,
signalling or joining the worker. -/
def Event.isFlushEvent : Event → Bool
  | Event.waitFrameDumpDone => true
  | Event.mapReadback => true
  | Event.dumpFrameData _ => true
  | Event.startWorker => true
  | Event.signalStart => true
  | Event.joinWorker => true
  | _ => false

/-- A trace segment made by flushing the frame dump from renderer `r`: it holds frame-dump
events only, and every frame it hands to the encoder is the frame that was queued in `r`
(`m_last_frame_exported` set, with the frame state `m_last_frame_state`). -/
def Renderer.FlushSegment (r : Renderer) (seg : List Event) : Prop :=
  ∀ e ∈ seg, e.isFlushEvent = true ∧
    ∀ s, e = Event.dumpFrameData s → r.m_last_frame_exported = true ∧ s = r.m_last_frame_state

/-- Scans a trace for the frame in flight: `some b` when no frame was handed to the worker
while another one was in flight, with `b` telling whether a frame is in flight at the end;
`none` when a frame was handed over before the previous one was waited for. -/
def frameInFlight (t : List Event) : Option Bool :=
  t.foldl
    (fun (st : Option Bool) (e : Event) =>
      match st, e with
      | none, _ => none
      | some b, Event.dumpFrameData _ => if b = true then none else some true
      | some _, Event.waitFrameDumpDone => some false
      | some b, _ => some b)
    (some false)

/-- The frame-dump bookkeeping is consistent: no frame was handed over while another one was
in flight, and `m_frame_dump_frame_running` tells whether a frame is in flight. -/
def Renderer.DumpConsistent (r : Renderer) : Prop :=
  frameInFlight r.trace = some r.m_frame_dump_frame_running

/-- The trace of `r'` extends the trace of `r` by events that all satisfy `P`. -/
def Renderer.TraceExt (P : Event → Prop) (r r' : Renderer) : Prop :=
  ∃ seg, r'.trace = r.trace ++ seg ∧ ∀ e ∈ seg, P e

/-- An event that neither hands a frame to the dump worker nor waits for it. -/
def Event.isNeutral : Event → Bool
  | Event.dumpFrameData _ => false
  | Event.waitFrameDumpDone => false
  | _ => true

/-- An environment like `constantXfbEnv` in which frame dumping is active. -/
def dumpingEnv (id : Nat) : SwapEnv :=
  { constantXfbEnv id with m_DumpFrames := true }

/-- The sample renderer with one frame queued for the dump, recorded at tick 7. -/
def pendingRenderer : Renderer :=
  { sampleRenderer with m_last_frame_exported := true, m_last_frame_state := 7 }

/-! ## Textures (`DXTexture.cpp`, `OGLTexture.cpp`, `SWTexture.cpp`) -/

/-- The members of `TextureConfig` (`VideoCommon/TextureConfig.h`) that the texture code reads;
`format` is the numeric value of the `AbstractTextureFormat`. -/
structure TextureConfig where
  width : Nat
  height : Nat
  levels : Nat
  layers : Nat
  format : Nat
  rendertarget : Bool
deriving DecidableEq, Repr

/-- The `StagingTextureType` enumeration. -/
inductive StagingTextureType where
  | Readback
  | Upload
  | Mutable
deriving DecidableEq, Repr

/-- Modelled from the spec: the `_assert_` macro of `Common/Assert.h`, which is not among the
translated files. A condition that does not hold is a programming-contract violation, which
ends the call (`none`); a condition that holds lets the call continue. -/
def _assert_ (condition : Bool) : Option Unit :=
  if condition = true then some () else none

/-- What a `Load` member does, in order: the two `PanicAlert` reports of the OGL backend and
the upload itself. -/
inductive LoadCall where
  | PanicAlertLevels (levels level : Nat)
  | PanicAlertSize (level expected_width expected_height width height : Nat)
  | glTexSubImage (level width height row_length : Nat)
  | UpdateSubresource (level row_length : Nat)
  | assign (buffer_size : Nat)
deriving DecidableEq, Repr

/-- Whether a call is an error report. -/
def LoadCall.isReport : LoadCall → Bool
  | LoadCall.PanicAlertLevels _ _ => true
  | LoadCall.PanicAlertSize _ _ _ _ _ => true
  | _ => false

/-- The expression `std::max(1u, extent >> level)` on `u32` values, for a shift count below
32. -/
def mipExtent (extent level : Nat) : Nat :=
  max 1 (extent >>> level)

/-- The `OGLTexture::Load` member: both checks report and execution continues with the
upload (the compressed and uncompressed upload calls are not distinguished). -/
def OGL.OGLTexture.Load (m_config : TextureConfig) (level width height row_length : Nat)
    (_buffer_size : Nat) : List LoadCall :=
  let calls : List LoadCall :=
    if level ≥ m_config.levels then [LoadCall.PanicAlertLevels m_config.levels level] else []
  let calls : List LoadCall :=
    if width ≠ mipExtent m_config.width level ∨ height ≠ mipExtent m_config.height level then
      calls ++ [LoadCall.PanicAlertSize level (mipExtent m_config.width level)
        (mipExtent m_config.height level) width height]
    else calls
  calls ++ [LoadCall.glTexSubImage level width height row_length]

/-- The `DXTexture::Load` member. -/
def D3D.DXTexture.Load (_m_config : TextureConfig) (level _width _height row_length : Nat)
    (_buffer_size : Nat) : List LoadCall :=
  [LoadCall.UpdateSubresource level row_length]

/-- The `SWTexture::Load` member. -/
def SW.SWTexture.Load (_m_config : TextureConfig) (_level _width _height _row_length : Nat)
    (buffer_size : Nat) : List LoadCall :=
  [LoadCall.assign buffer_size]

/-- A 64x64 texture with one level and one layer. -/
def sampleTextureConfig : TextureConfig where
  width := 64
  height := 64
  levels := 1
  layers := 1
  format := 0
  rendertarget := false

/-! ## D3D texture creation (`DXTexture.cpp`, `D3D/Render.cpp`) -/

/-- The `D3D11_USAGE` values used by the texture code. -/
inductive D3D11_USAGE where
  | DEFAULT
  | DYNAMIC
  | STAGING
deriving DecidableEq, Repr

/-- The members of `CD3D11_TEXTURE2D_DESC` that the texture code sets; `format` is the
texture format before its translation by `GetDXGIFormatForHostFormat`. -/
structure Texture2DDesc where
  format : Nat
  width : Nat
  height : Nat
  arraySize : Nat
  mipLevels : Nat
  shaderResource : Bool
  usage : D3D11_USAGE
  cpuRead : Bool
  cpuWrite : Bool
deriving DecidableEq, Repr

/-- The native device seen by the texture code: `CreateTexture2D` gives the new texture when
the call succeeds and `none` when its `HRESULT` is a failure; `D3DTexture2D_Create` is
`D3DTexture2D::Create` (`D3DTexture.cpp`, not among the translated files), called for render
targets with the width, height, format and layer count, giving the pointer it returns. -/
structure D3D.Device where
  CreateTexture2D : Texture2DDesc → Option Nat
  D3DTexture2D_Create : Nat → Nat → Nat → Nat → Option Nat

/-- A `DXTexture` object: its configuration and the native texture wrapped by `m_texture`,
`none` when the wrapped pointer does not come from a successful allocation. -/
structure D3D.DXTexture where
  m_config : TextureConfig
  m_texture : Option Nat
deriving DecidableEq, Repr

/-- A `DXStagingTexture` object as its constructor leaves it; a null `m_map_pointer` is 0. -/
structure D3D.DXStagingTexture where
  m_type : StagingTextureType
  m_config : TextureConfig
  m_tex : Nat
  m_map_pointer : Nat := 0
  m_map_stride : Nat := 0
  nativeMaps : Nat := 0
  nativeUnmaps : Nat := 0
deriving DecidableEq, Repr

/-- The constructor `DXTexture::DXTexture`, with the number of failures reported by its
`CHECK`. After a failed `CreateTexture2D` the construction goes on and wraps the pointer of
the failed call. -/
def D3D.DXTexture.DXTexture (dev : D3D.Device) (tex_config : TextureConfig) :
    D3D.DXTexture × Nat :=
  if tex_config.rendertarget = true then
    ({ m_config := tex_config
       m_texture := dev.D3DTexture2D_Create tex_config.width tex_config.height tex_config.format
         tex_config.layers }, 0)
  else
    let texdesc : Texture2DDesc :=
      { format := tex_config.format, width := tex_config.width, height := tex_config.height
        arraySize := 1, mipLevels := tex_config.levels, shaderResource := true
        usage := D3D11_USAGE.DEFAULT, cpuRead := false, cpuWrite := false }
    let pTexture : Option Nat := dev.CreateTexture2D texdesc
    let reported : Nat := if pTexture.isSome = true then 0 else 1
    ({ m_config := tex_config, m_texture := pTexture }, reported)

/-- The `DXStagingTexture::Create` function, with the number of failures reported by its
`CHECK`; `none` is the null pointer. -/
def D3D.DXStagingTexture.Create (dev : D3D.Device) (type : StagingTextureType)
    (config : TextureConfig) : Option D3D.DXStagingTexture × Nat :=
  let usage : D3D11_USAGE :=
    if type = StagingTextureType.Readback then D3D11_USAGE.STAGING
    else if type = StagingTextureType.Upload then D3D11_USAGE.DYNAMIC
    else D3D11_USAGE.STAGING
  let cpuRead : Bool :=
    if type = StagingTextureType.Readback then true
    else if type = StagingTextureType.Upload then false
    else true
  let cpuWrite : Bool :=
    if type = StagingTextureType.Readback then false
    else if type = StagingTextureType.Upload then true
    else true
  let desc : Texture2DDesc :=
    { format := config.format, width := config.width, height := config.height
      arraySize := 1, mipLevels := 1, shaderResource := false
      usage := usage, cpuRead := cpuRead, cpuWrite := cpuWrite }
  match dev.CreateTexture2D desc with
  | none => (none, 1)
  | some texture => (some { m_type := type, m_config := config, m_tex := texture }, 0)

/-- The `DX11::Renderer::CreateTexture` member: `std::make_unique<DXTexture>(config)`, which
always gives an object. -/
def D3D.Renderer.CreateTexture (dev : D3D.Device) (config : TextureConfig) :
    Option D3D.DXTexture × Nat :=
  let made : D3D.DXTexture × Nat := D3D.DXTexture.DXTexture dev config
  (some made.1, made.2)

/-- The `DX11::Renderer::CreateStagingTexture` member. -/
def D3D.Renderer.CreateStagingTexture (dev : D3D.Device) (type : StagingTextureType)
    (config : TextureConfig) : Option D3D.DXStagingTexture × Nat :=
  D3D.DXStagingTexture.Create dev type config

/-- A device on which every native allocation fails. -/
def failingDevice : D3D.Device where
  CreateTexture2D := fun _ => none
  D3DTexture2D_Create := fun _ _ _ _ => none

/-- A device on which every native allocation succeeds, with texture 42. -/
def workingDevice : D3D.Device where
  CreateTexture2D := fun _ => some 42
  D3DTexture2D_Create := fun _ _ _ _ => some 42

/-! ## Staging textures: `Map` and `Unmap` -/

/-- What `ID3D11DeviceContext::Map` gives back: whether the `HRESULT` is a success, and the
`pData` and `RowPitch` members of the mapped subresource. -/
structure D3D11_MAPPED where
  succeeded : Bool
  pData : Nat
  RowPitch : Nat
deriving DecidableEq, Repr

/-- The `DXStagingTexture::Map` member, given the answer `sr` that the native map would give
if it is called; `nativeMaps` counts the native calls. -/
def D3D.DXStagingTexture.Map (sr : D3D11_MAPPED) (t : D3D.DXStagingTexture) :
    Bool × D3D.DXStagingTexture :=
  if t.m_map_pointer ≠ 0 then (true, t)
  else
    let t : D3D.DXStagingTexture := { t with nativeMaps := t.nativeMaps + 1 }
    if ¬ sr.succeeded = true then (false, t)
    else (true, { t with m_map_pointer := sr.pData, m_map_stride := sr.RowPitch })

/-- The `DXStagingTexture::Unmap` member; `nativeUnmaps` counts the native calls. -/
def D3D.DXStagingTexture.Unmap (t : D3D.DXStagingTexture) : D3D.DXStagingTexture :=
  if ¬ t.m_map_pointer ≠ 0 then t
  else { t with nativeUnmaps := t.nativeUnmaps + 1, m_map_pointer := 0 }

/-- The members of an `OGLStagingTexture` that `Map` and `Unmap` touch, with counters of the
native map and unmap calls; a null `m_map_pointer` is 0. -/
structure OGL.OGLStagingTexture where
  m_type : StagingTextureType
  m_config : TextureConfig
  m_buffer_name : Nat
  m_buffer_size : Nat
  m_map_pointer : Nat := 0
  m_map_stride : Nat := 0
  nativeMaps : Nat := 0
  nativeUnmaps : Nat := 0
deriving DecidableEq, Repr

/-- The `OGLStagingTexture::Map` member, given the pointer `mapped` that `glMapBufferRange`
would return if it is called. -/
def OGL.OGLStagingTexture.Map (mapped : Nat) (t : OGL.OGLStagingTexture) :
    Bool × OGL.OGLStagingTexture :=
  if t.m_map_pointer ≠ 0 then (true, t)
  else
    let t : OGL.OGLStagingTexture :=
      { t with nativeMaps := t.nativeMaps + 1, m_map_pointer := mapped }
    if ¬ t.m_map_pointer ≠ 0 then (false, t)
    else (true, t)

/-- The `OGLStagingTexture::Unmap` member; `persistent` is the value of
`UsePersistentStagingBuffers()`. -/
def OGL.OGLStagingTexture.Unmap (persistent : Bool) (t : OGL.OGLStagingTexture) :
    OGL.OGLStagingTexture :=
  if ¬ t.m_map_pointer ≠ 0 ∨ persistent = true then t
  else { t with nativeUnmaps := t.nativeUnmaps + 1, m_map_pointer := 0 }

/-- The members of a `SWStagingTexture` that describe its mapping: the constructor points
`m_map_pointer` at the texture's own storage and sets the stride to one row of texels. -/
structure SW.SWStagingTexture where
  m_type : StagingTextureType
  m_config : TextureConfig
  m_map_pointer : Nat
  m_map_stride : Nat
deriving DecidableEq, Repr

/-- The `SWStagingTexture::Map` member. -/
def SW.SWStagingTexture.Map (t : SW.SWStagingTexture) : Bool × SW.SWStagingTexture :=
  (true, t)

/-- The `SWStagingTexture::Unmap` member. -/
def SW.SWStagingTexture.Unmap (t : SW.SWStagingTexture) : SW.SWStagingTexture :=
  t

/-- An unmapped D3D readback staging texture. -/
def sampleDXStaging : D3D.DXStagingTexture where
  m_type := StagingTextureType.Readback
  m_config := sampleTextureConfig
  m_tex := 42

/-- A D3D readback staging texture mapped at pointer 4096 with a stride of 256 bytes. -/
def mappedDXStaging : D3D.DXStagingTexture :=
  { sampleDXStaging with m_map_pointer := 4096, m_map_stride := 256, nativeMaps := 1 }

/-! ## Encoding shader cache (`TextureCacheBase.h`, `PSTextureEncoder.cpp`) -/

/-- A `float` as its comparisons see it: a NaN, an infinity, or a finite value (the two zeros
compare equal and are both the rational 0). -/
inductive F32 where
  | nan
  | negInf
  | num (q : ℚ)
  | posInf
deriving DecidableEq

/-- The `<` of two `float` values: false as soon as one of them is a NaN. -/
def F32.lt : F32 → F32 → Bool
  | F32.nan, _ => false
  | _, F32.nan => false
  | _, F32.negInf => false
  | F32.negInf, _ => true
  | F32.posInf, _ => false
  | F32.num _, F32.posInf => true
  | F32.num p, F32.num q => decide (p < q)

/-- The `EFBCopyParams` record; the two enumerations are held by their numeric values and
`y_scale` is a `float`. -/
structure EFBCopyParams where
  efb_format : Nat
  copy_format : Nat
  depth : Bool
  yuv : Bool
  y_scale : F32
deriving DecidableEq

/-- The `EFBCopyParams::operator<`: the lexicographic comparison of `std::tie` over the five
members, each step being `a < b || (!(b < a) && rest)`. -/
def EFBCopyParams.lt (a rhs : EFBCopyParams) : Bool :=
  decide (a.efb_format < rhs.efb_format) ||
    (!decide (rhs.efb_format < a.efb_format) &&
      (decide (a.copy_format < rhs.copy_format) ||
        (!decide (rhs.copy_format < a.copy_format) &&
          (decide (a.depth < rhs.depth) ||
            (!decide (rhs.depth < a.depth) &&
              (decide (a.yuv < rhs.yuv) ||
                (!decide (rhs.yuv < a.yuv) && a.y_scale.lt rhs.y_scale)))))))

/-- Key equivalence of `std::map<EFBCopyParams, _>`: neither key is less than the other. -/
def EFBCopyParams.equiv (a b : EFBCopyParams) : Bool :=
  !a.lt b && !b.lt a

/-- The `std::map<EFBCopyParams, ID3D11PixelShader*>` member `m_encoding_shaders`, as the list
of its entries; a null shader pointer is `none`. -/
abbrev ShaderMap : Type := List (EFBCopyParams × Option Nat)

/-- The `std::map::find` lookup: the value of the entry whose key is equivalent to `params`. -/
def ShaderMap.find (m : ShaderMap) (params : EFBCopyParams) : Option (Option Nat) :=
  (List.find? (fun e => e.1.equiv params) m).map Prod.snd

/-- The `m[params] = value` assignment of `std::map`: overwrite the entry with an equivalent
key, or add one. -/
def ShaderMap.assign (m : ShaderMap) (params : EFBCopyParams) (value : Option Nat) : ShaderMap :=
  if (ShaderMap.find m params).isSome = true then
    List.map (fun e => if e.1.equiv params = true then (e.1, value) else e) m
  else m ++ [(params, value)]

/-- What the encoder does besides returning a shader: compile attempts, alerts, and failures
reported by `CHECK`, each with the parameters of the call. -/
inductive EncoderEvent where
  | CompilePixelShader (params : EFBCopyParams)
  | PanicAlert (params : EFBCopyParams)
  | CreatePixelShader (params : EFBCopyParams)
  | CheckFailed (params : EFBCopyParams)
deriving DecidableEq

/-- The parameters of the call during which an event happened. -/
def EncoderEvent.params : EncoderEvent → EFBCopyParams
  | EncoderEvent.CompilePixelShader p => p
  | EncoderEvent.PanicAlert p => p
  | EncoderEvent.CreatePixelShader p => p
  | EncoderEvent.CheckFailed p => p

/-- What the worker sees outside the renderer during one iteration of its loop:
whether the build has `HAVE_FFMPEG`, the result of `AVIDump::Start`, the
`m_DumpFramesSilent` setting, whether the first image file exists, and the user's answer to
the overwrite question. -/
structure DumpEnv where
  HAVE_FFMPEG : Bool
  AVIDump_Start : Bool
  m_DumpFramesSilent : Bool
  fileExists : Bool
  AskYesNoT : Bool

/-- What the worker does, in order. -/
inductive WorkerEvent where
  | TextureToPng
  | screenshotCompleted
  | AskYesNoT
  | DumpFrameToAVI
  | DumpFrameToImage (counter : Nat)
  | frameDumpDone
  | StopFrameDumpToAVI
deriving DecidableEq, Repr

/-- The state read and written by `Renderer::RunFrameDumps`: its two locals, the
`m_DumpFrames` setting, the screenshot request flag, the image counter, and the events so
far. -/
structure DumpWorker where
  dump_to_avi : Bool
  frame_dump_started : Bool := false
  m_DumpFrames : Bool
  m_screenshot_request : Bool := false
  m_frame_dump_image_counter : Nat := 0
  events : List WorkerEvent := []
deriving DecidableEq, Repr

/-- The `Renderer::StartFrameDumpToAVI` member, in both build variants. -/
def Renderer.StartFrameDumpToAVI (env : DumpEnv) : Bool :=
  if env.HAVE_FFMPEG = true then env.AVIDump_Start else false

/-- The `Renderer::StartFrameDumpToImage` member: its result and the worker after it. -/
def Renderer.StartFrameDumpToImage (env : DumpEnv) (w : DumpWorker) : Bool × DumpWorker :=
  let w : DumpWorker := { w with m_frame_dump_image_counter := 1 }
  if ¬ env.m_DumpFramesSilent = true then
    if env.fileExists = true then
      let w : DumpWorker := { w with events := w.events ++ [WorkerEvent.AskYesNoT] }
      if ¬ env.AskYesNoT = true then (false, w) else (true, w)
    else (true, w)
  else (true, w)

/-- The start of `Renderer::RunFrameDumps`: the initial values of its locals. -/
def Renderer.RunFrameDumps_init (env : DumpEnv) (bDumpFramesAsImages m_DumpFrames : Bool) :
    DumpWorker :=
  let dump_to_avi : Bool := !bDumpFramesAsImages
  let dump_to_avi : Bool :=
    if ¬ env.HAVE_FFMPEG = true then (if dump_to_avi = true then false else dump_to_avi)
    else dump_to_avi
  { dump_to_avi := dump_to_avi, m_DumpFrames := m_DumpFrames }

/-- One iteration of the loop of `Renderer::RunFrameDumps`, from after the test of
`m_frame_dump_thread_running` to the signalling of `m_frame_dump_done`. -/
def Renderer.RunFrameDumps_iteration (env : DumpEnv) (w : DumpWorker) : DumpWorker :=
  let w : DumpWorker :=
    if w.m_screenshot_request = true then
      { w with
        m_screenshot_request := false
        events := w.events ++ [WorkerEvent.TextureToPng, WorkerEvent.screenshotCompleted] }
    else w
  let w : DumpWorker :=
    if w.m_DumpFrames = true then
      let w : DumpWorker :=
        if ¬ w.frame_dump_started = true then
          let w : DumpWorker :=
            if w.dump_to_avi = true then
              { w with frame_dump_started := Renderer.StartFrameDumpToAVI env }
            else
              let started : Bool × DumpWorker := Renderer.StartFrameDumpToImage env w
              { started.2 with frame_dump_started := started.1 }
          if ¬ w.frame_dump_started = true then { w with m_DumpFrames := false } else w
        else w
      if w.frame_dump_started = true then
        if w.dump_to_avi = true then
          { w with events := w.events ++ [WorkerEvent.DumpFrameToAVI] }
        else
          { w with
            events := w.events ++ [WorkerEvent.DumpFrameToImage w.m_frame_dump_image_counter]
            m_frame_dump_image_counter := w.m_frame_dump_image_counter + 1 }
      else w
    else w
  { w with events := w.events ++ [WorkerEvent.frameDumpDone] }

/-- Whether an event writes a frame of the dump. -/
def WorkerEvent.writesFrame : WorkerEvent → Bool
  | WorkerEvent.DumpFrameToAVI => true
  | WorkerEvent.DumpFrameToImage _ => true
  | _ => false

/-- An environment with image dumping asked for, an existing first image and a user who
declines to overwrite it. -/
def decliningEnv : DumpEnv where
  HAVE_FFMPEG := false
  AVIDump_Start := false
  m_DumpFramesSilent := false
  fileExists := true
  AskYesNoT := false

/-! ## D3D EFB targets (`D3D/FramebufferManager.h`, `D3D/FramebufferManager.cpp`) -/

/-- The `FramebufferManager::Efb` record; pointers are held as numbers. -/
structure D3D.Efb where
  color_tex : Nat
  color_int_rtv : Nat
  color_staging_buf : Nat
  color_read_texture : Nat
  depth_tex : Nat
  depth_staging_buf : Nat
  depth_read_texture : Nat
  color_temp_tex : Nat
  color_temp_int_rtv : Nat
  resolved_color_tex : Nat
  resolved_depth_tex : Nat
  slices : Int
deriving DecidableEq, Repr

/-- The `FramebufferManager::SwapReinterpretTexture` function on `m_efb`. -/
def D3D.FramebufferManager.SwapReinterpretTexture (m_efb : D3D.Efb) : D3D.Efb :=
  let m_efb : D3D.Efb :=
    { m_efb with color_tex := m_efb.color_temp_tex, color_temp_tex := m_efb.color_tex }
  { m_efb with
    color_int_rtv := m_efb.color_temp_int_rtv
    color_temp_int_rtv := m_efb.color_int_rtv }

/-- The pairing of views and textures: with `textureOf` telling which texture a render-target
view was created for, the integer view of each role belongs to the texture of that role. -/
def D3D.Efb.Paired (textureOf : Nat → Nat) (m_efb : D3D.Efb) : Prop :=
  textureOf m_efb.color_int_rtv = m_efb.color_tex ∧
    textureOf m_efb.color_temp_int_rtv = m_efb.color_temp_tex

/-- An EFB state with distinct objects in every member. -/
def sampleEfb : D3D.Efb where
  color_tex := 1
  color_int_rtv := 101
  color_staging_buf := 3
  color_read_texture := 4
  depth_tex := 5
  depth_staging_buf := 6
  depth_read_texture := 7
  color_temp_tex := 2
  color_temp_int_rtv := 102
  resolved_color_tex := 8
  resolved_depth_tex := 9
  slices := 1

/-! ## Texture cache references (`TextureCacheBase.h`) -/

/-- The `references` members of all cache entries: entries are named by their addresses, and
each has the set of the addresses it refers to. -/
abbrev References : Type := Nat → Finset Nat

/-- The `TCacheEntry::CreateReference` member called on entry `this` with `other_entry`. -/
def TCacheEntry.CreateReference (refs : References) (this other_entry : Nat) : References :=
  let refs : References := Function.update refs this (insert other_entry (refs this))
  Function.update refs other_entry (insert this (refs other_entry))

/-- The reference relation is symmetric. -/
def References.Symmetric (refs : References) : Prop :=
  ∀ x y, y ∈ refs x ↔ x ∈ refs y

/-- No entry refers to any other. -/
def noReferences : References :=
  fun _ => ∅

/-! ## Renderer core: observations for the later properties -/

/-- The number of `DumpFrameData` calls recorded in a trace. -/
def dumpCalls (t : List Event) : Nat :=
  t.countP (fun e => match e with
    | Event.dumpFrameData _ => true
    | _ => false)

/-- The members that the frame-dump functions never write: the widescreen flag, the last XFB
size, the scale, the draw rectangle, and the target and backbuffer sizes. -/
def Renderer.geometry (r : Renderer) : Bool × Nat × Nat × Nat × Rect × Int × Int × Int × Int :=
  (r.m_aspect_wide, r.m_last_xfb_width, r.m_last_xfb_height, r.m_efb_scale,
    r.m_target_rectangle, r.m_target_width, r.m_target_height, r.m_backbuffer_width,
    r.m_backbuffer_height)

/-- The value that `Renderer::Swap` gives to `m_aspect_wide` at its start. -/
def Renderer.aspectAfterSwap (env : SwapEnv) (r : Renderer) : Bool :=
  if ¬ env.bWii = true then
    if r.m_aspect_wide = true then
      !decide (4 * env.flush_count_4_3 > 3 * (env.flush_count_4_3 + env.flush_count_anamorphic))
    else
      decide (4 * env.flush_count_anamorphic >
        3 * (env.flush_count_4_3 + env.flush_count_anamorphic))
  else r.m_aspect_wide

/-- The states of the renderer reached from a freshly constructed one, in which
`m_last_xfb_width` and `m_last_xfb_height` have their initial values `MAX_XFB_WIDTH` and
`MAX_XFB_HEIGHT`, by calls of `Swap` that return and calls of `CalculateTargetSize`. -/
inductive Renderer.Reachable (X : Externals) : Renderer → Prop where
  | initial (r : Renderer) : r.m_last_xfb_width = X.MAX_XFB_WIDTH →
      r.m_last_xfb_height = X.MAX_XFB_HEIGHT → Renderer.Reachable X r
  | swap (env : SwapEnv) (fuel : Nat) (r r1 : Renderer)
      (xfbAddr fbWidth fbStride fbHeight ticks : Nat) : Renderer.Reachable X r →
      r.Swap X env fuel xfbAddr fbWidth fbStride fbHeight ticks = some r1 →
      Renderer.Reachable X r1
  | calculateTargetSize (cfg : VideoConfig) (r : Renderer) : Renderer.Reachable X r →
      Renderer.Reachable X (r.CalculateTargetSize X cfg).2

/-- A freshly constructed renderer for `gcExternals`: the sample renderer with the last XFB
size at its initial value, the maximum. -/
def freshRenderer : Renderer :=
  { sampleRenderer with m_last_xfb_width := 720, m_last_xfb_height := 576 }

/-- A game console environment that is not a Wii, with 10 flushes in 4:3 and 90 anamorphic
ones counted in the frame. -/
def anamorphicEnv : SwapEnv :=
  { constantXfbEnv 5 with bWii := false, flush_count_4_3 := 10, flush_count_anamorphic := 90 }

/-! ## Frame-dump render texture (`RenderBase.cpp`) -/

/-- A texture object as the renderer core holds it: its configuration, and a number telling
the objects apart. -/
structure AbstractTexture where
  config : TextureConfig
  id : Nat
deriving DecidableEq, Repr

/-- The allocation step of `Renderer::RenderFrameDump`, on `m_frame_dump_render_texture`:
the pointer after the step, or `none` when the step ends in its assertion. `RGBA8` is the value
of `AbstractTextureFormat::RGBA8` and `CreateTexture` the backend's `CreateTexture`, whose
result is null when it is `none`. -/
def Renderer.RenderFrameDump_allocate (RGBA8 : Nat)
    (CreateTexture : TextureConfig → Option AbstractTexture)
    (m_frame_dump_render_texture : Option AbstractTexture) (target_width target_height : Int) :
    Option AbstractTexture :=
  let recreate : Bool :=
    match m_frame_dump_render_texture with
    | none => true
    | some tex =>
      decide (tex.config.width ≠ toU32 target_width) ||
        decide (tex.config.height = toU32 target_height)
  if recreate = true then do
    let config : TextureConfig :=
      { width := toU32 target_width, height := toU32 target_height, levels := 1, layers := 1
        format := RGBA8, rendertarget := true }
    let m_frame_dump_render_texture : Option AbstractTexture := CreateTexture config
    _assert_ m_frame_dump_render_texture.isSome
    m_frame_dump_render_texture
  else m_frame_dump_render_texture

/-- A backend `CreateTexture` that always succeeds and gives the new object the number 2. -/
def createTexture2 (config : TextureConfig) : Option AbstractTexture :=
  some { config := config, id := 2 }

/-- An existing 640x480 frame-dump render texture, object number 1. -/
def dumpTexture480 : AbstractTexture where
  config := { width := 640, height := 480, levels := 1, layers := 1, format := 4
              rendertarget := true }
  id := 1

/-- An existing 640x528 frame-dump render texture, object number 1. -/
def dumpTexture528 : AbstractTexture where
  config := { width := 640, height := 528, levels := 1, layers := 1, format := 4
              rendertarget := true }
  id := 1

/-! ## Bounding box (`D3D/Render.cpp`, `OGL/Render.cpp`, `Vulkan/Renderer.cpp`) -/

/-- The value of a `u16` holding the low 16 bits of `n`. -/
def toU16 (n : Int) : Nat := (n % 2 ^ 16).toNat

/-- The bounding-box store behind `BBox::Get`/`BBox::Set`, `BoundingBox::Get`/`Set` and
`m_bounding_box` (not among the translated files), taken as giving for each index the value
last set for it. The index is one of 0 to 3 and is held as a natural number. -/
abbrev BBoxStore : Type := Nat → Int

/-- The `DX11::Renderer::BBoxRead` member. -/
def D3D.Renderer.BBoxRead (X : Externals) (r : Renderer) (store : BBoxStore) (index : Nat) :
    Nat :=
  let value : Int := store index
  let value : Int :=
    if index < 2 then sdiv (smul value X.EFB_WIDTH) r.m_target_width
    else sdiv (smul value X.EFB_HEIGHT) r.m_target_height
  let value : Int := if index &&& 1 ≠ 0 then toS32 (value + 1) else value
  toU16 value

/-- The `DX11::Renderer::BBoxWrite` member. -/
def D3D.Renderer.BBoxWrite (X : Externals) (r : Renderer) (store : BBoxStore) (index : Nat)
    (_value : Nat) : BBoxStore :=
  let value : Int := (_value : Int)
  let value : Int := if index &&& 1 ≠ 0 then toS32 (value - 1) else value
  let value : Int :=
    if index < 2 then sdiv (smul value r.m_target_width) X.EFB_WIDTH
    else sdiv (smul value r.m_target_height) X.EFB_HEIGHT
  Function.update store index value

/-- The `Vulkan::Renderer::BBoxRead` member. -/
def Vulkan.Renderer.BBoxRead (X : Externals) (r : Renderer) (store : BBoxStore) (index : Nat) :
    Nat :=
  let value : Int := store index
  let value : Int :=
    if index < 2 then sdiv (smul value X.EFB_WIDTH) r.m_target_width
    else sdiv (smul value X.EFB_HEIGHT) r.m_target_height
  let value : Int := if index &&& 1 ≠ 0 then toS32 (value + 1) else value
  toU16 value

/-- The `Vulkan::Renderer::BBoxWrite` member. -/
def Vulkan.Renderer.BBoxWrite (X : Externals) (r : Renderer) (store : BBoxStore) (index : Nat)
    (value : Nat) : BBoxStore :=
  let scaled_value : Int := (value : Int)
  let scaled_value : Int :=
    if index &&& 1 ≠ 0 then toS32 (scaled_value - 1) else scaled_value
  let scaled_value : Int :=
    if index < 2 then sdiv (smul scaled_value r.m_target_width) X.EFB_WIDTH
    else sdiv (smul scaled_value r.m_target_height) X.EFB_HEIGHT
  Function.update store index scaled_value

/-- The `OGL::Renderer::BBoxRead` member. -/
def OGL.Renderer.BBoxRead (X : Externals) (r : Renderer) (store : BBoxStore) (index : Nat) :
    Nat :=
  let swapped_index : Nat := if index ≥ 2 then index ^^^ 1 else index
  let value : Int := store swapped_index
  let value : Int :=
    if index < 2 then sdiv (smul value X.EFB_WIDTH) r.m_target_width
    else
      let value : Int := sdiv (smul value X.EFB_HEIGHT) r.m_target_height
      toS32 (toS32 (X.EFB_HEIGHT - value) - 1)
  let value : Int := if index &&& 1 ≠ 0 then toS32 (value + 1) else value
  toU16 value

/-- The `OGL::Renderer::BBoxWrite` member. -/
def OGL.Renderer.BBoxWrite (X : Externals) (r : Renderer) (store : BBoxStore) (index : Nat)
    (_value : Nat) : BBoxStore :=
  let value : Int := (_value : Int)
  let value : Int := if index &&& 1 ≠ 0 then toS32 (value - 1) else value
  if index < 2 then
    Function.update store index (sdiv (smul value r.m_target_width) X.EFB_WIDTH)
  else
    let index : Nat := index ^^^ 1
    let value : Int := toS32 (toS32 (X.EFB_HEIGHT - value) - 1)
    Function.update store index (sdiv (smul value r.m_target_height) X.EFB_HEIGHT)

/-- The sample renderer at twice the native size: a 1280x1056 target. -/
def doubleRenderer : Renderer :=
  { sampleRenderer with m_efb_scale := 2, m_target_width := 1280, m_target_height := 1056 }

/-! ## Depth peeks (`D3D/Render.cpp`, `OGL/Render.cpp`, `Vulkan/Renderer.cpp`) -/

/-- Modelled from the spec: `MathUtil::Clamp<u32>` of `Common/MathUtil.h`, which is not among
the translated files: the value `val` limited to the range from `min` to `max`. -/
def MathUtil.Clamp (val min max : Nat) : Nat :=
  Max.max min (Min.min max val)

/-- The PeekZ branch of `DX11::Renderer::AccessEFB`, from the depth `val` read from the
staging buffer; the `float` arithmetic is taken exactly and `static_cast<u32>` as truncation
with wrap-around. -/
def D3D.AccessEFB_PeekZ (pixel_format : PixelFormat) (val : ℚ) : Nat :=
  let val : ℚ := 1 - val
  if pixel_format = PixelFormat.RGB565_Z16 then
    MathUtil.Clamp (toU32 (ctrunc (val * 65536))) 0 0xFFFF
  else
    MathUtil.Clamp (toU32 (ctrunc (val * 16777216))) 0 0xFFFFFF

/-- The PeekZ branch of `Vulkan::Renderer::AccessEFB`; `PeekEFBDepth` is the answer of the
framebuffer manager for the pixel. -/
def Vulkan.AccessEFB_PeekZ (pixel_format : PixelFormat) (PeekEFBDepth : ℚ) : Nat :=
  let depth : ℚ := 1 - PeekEFBDepth
  if pixel_format = PixelFormat.RGB565_Z16 then
    MathUtil.Clamp (toU32 (ctrunc (depth * 65536))) 0 0xFFFF
  else
    MathUtil.Clamp (toU32 (ctrunc (depth * 16777216))) 0 0xFFFFFF

/-- The largest value that a depth peek may return for a pixel format: 16 bits for
`RGB565_Z16`, 24 bits otherwise. -/
def depthLimit (pixel_format : PixelFormat) : Nat :=
  if pixel_format = PixelFormat.RGB565_Z16 then 0xFFFF else 0xFFFFFF

/-- Every word of the depth half of the OGL peek cache is a 24-bit value. -/
def OGL.DepthCacheBounded (c : OGL.EFBCache) : Prop :=
  ∀ i, ∀ v ∈ c.s_efbCache 0 i, v ≤ 0xFFFFFF

/-! ## OGL peek cache: the readback buffer -/

/-- The length of the readback buffer that `OGL::Renderer::AccessEFB` allocates for a tile:
`targetPixelRcWidth * targetPixelRcHeight`, a product of two `u32` values. -/
def OGL.readbackLength (targetPixelRc : Rect) : Nat :=
  let targetPixelRcWidth : Nat := toU32 (toS32 (targetPixelRc.right - targetPixelRc.left))
  let targetPixelRcHeight : Nat := toU32 (toS32 (targetPixelRc.top - targetPixelRc.bottom))
  u32 (targetPixelRcWidth * targetPixelRcHeight)

/-- The index `yData * targetPixelRcWidth + xData` at which `UpdateEFBCache` reads the
readback buffer for the EFB pixel `(xEFB, yEFB)`. -/
def OGL.readbackIndex (X : Externals) (r : Renderer) (targetPixelRc : Rect) (xEFB yEFB : Nat) :
    Nat :=
  let targetPixelRcWidth : Nat := toU32 (toS32 (targetPixelRc.right - targetPixelRc.left))
  let yData : Nat := OGL.yDataOf X r targetPixelRc yEFB
  let xData : Nat := OGL.xDataOf r targetPixelRc xEFB
  u32 (u32 (yData * targetPixelRcWidth) + xData)

/-- The sample renderer at an EFB scale of 1024, with the matching 655360x540672 target. -/
def hugeScaleRenderer : Renderer :=
  { sampleRenderer with m_efb_scale := 1024, m_target_width := 655360, m_target_height := 540672 }

/-- The sample renderer at an EFB scale of 3, with the matching 1920x1584 target. -/
def tripleRenderer : Renderer :=
  { sampleRenderer with m_efb_scale := 3, m_target_width := 1920, m_target_height := 1584 }

/-! ## Frame-dump shutdown: the main thread and the worker (`RenderBase.cpp`) -/

/-- Modelled from the spec: `Common::Event::Set` fills the single slot of the event. -/
def Common.Event.Set (_slot : Bool) : Bool := true

/-- Modelled from the spec: `Common::Event::Wait` returns once the slot of the event is
filled, and empties it; `none` while the caller is blocked. -/
def Common.Event.Wait (slot : Bool) : Option Bool :=
  if slot = true then some false else none

/-- The end of `Renderer::RunFrameDumps`, after its loop: `StopFrameDumpToAVI` when an AVI dump
was started. -/
def Renderer.RunFrameDumps_exit (w : DumpWorker) : DumpWorker :=
  if w.frame_dump_started = true then
    if w.dump_to_avi = true then
      { w with events := w.events ++ [WorkerEvent.StopFrameDumpToAVI] }
    else w
  else w

/-- The two threads that touch the frame-dump hand-over. -/
inductive ThreadId where
  | main
  | worker
deriving DecidableEq, Repr

/-- Where the main thread stands: outside `Renderer::ShutdownFrameDumping`, or inside it after
`FlushFrameDump()` returned and the worker was found running: before `FinishFrameData()`,
before `m_frame_dump_thread_running.Clear()`, before `m_frame_dump_start.Set()`, before the
`join`, or returned. -/
inductive MainPc where
  | outside
  | FinishFrameData
  | Clear
  | Set
  | join
  | returned
deriving DecidableEq, Repr

/-- Where the worker stands in `Renderer::RunFrameDumps`: at `m_frame_dump_start.Wait()`, at
the test of `m_frame_dump_thread_running`, in the rest of the loop body, after the loop, or
returned. -/
inductive WorkerPc where
  | Wait
  | test
  | body
  | afterLoop
  | returned
deriving DecidableEq, Repr

/-- The renderer with its worker thread: the renderer members (among them the flag
`m_frame_dump_thread_running`, which both threads read), the worker's locals, the two events
and the position of each thread. -/
structure DumpSystem where
  r : Renderer
  mainPc : MainPc
  w : DumpWorker
  workerPc : WorkerPc
  m_frame_dump_start : Bool
  m_frame_dump_done : Bool

/-- One step of one thread; `none` when the thread is blocked or has nothing left to do.
The main thread runs the statements of `ShutdownFrameDumping` after the test of the running
flag; the worker runs `RunFrameDumps`, one loop body at a time. -/
def DumpSystem.step (env : DumpEnv) (s : DumpSystem) : ThreadId → Option DumpSystem
  | ThreadId.main =>
    match s.mainPc with
    | MainPc.outside => none
    | MainPc.FinishFrameData =>
      if ¬ s.r.m_frame_dump_frame_running = true then some { s with mainPc := MainPc.Clear }
      else
        match Common.Event.Wait s.m_frame_dump_done with
        | none => none
        | some slot =>
          some { s with
            m_frame_dump_done := slot, r := s.r.FinishFrameData, mainPc := MainPc.Clear }
    | MainPc.Clear =>
      some { s with r := { s.r with m_frame_dump_thread_running := false }, mainPc := MainPc.Set }
    | MainPc.Set =>
      some { s with
        r := { s.r with trace := s.r.trace ++ [Event.signalStart] }
        m_frame_dump_start := Common.Event.Set s.m_frame_dump_start
        mainPc := MainPc.join }
    | MainPc.join =>
      if s.r.m_frame_dump_thread = true then
        if s.workerPc = WorkerPc.returned then
          some { s with
            r := { s.r with trace := s.r.trace ++ [Event.joinWorker], m_frame_dump_thread := false }
            mainPc := MainPc.returned }
        else none
      else some { s with mainPc := MainPc.returned }
    | MainPc.returned => none
  | ThreadId.worker =>
    match s.workerPc with
    | WorkerPc.Wait =>
      match Common.Event.Wait s.m_frame_dump_start with
      | none => none
      | some slot => some { s with m_frame_dump_start := slot, workerPc := WorkerPc.test }
    | WorkerPc.test =>
      if ¬ s.r.m_frame_dump_thread_running = true then some { s with workerPc := WorkerPc.afterLoop }
      else some { s with workerPc := WorkerPc.body }
    | WorkerPc.body =>
      some { s with
        w := Renderer.RunFrameDumps_iteration env s.w
        m_frame_dump_done := Common.Event.Set s.m_frame_dump_done
        workerPc := WorkerPc.Wait }
    | WorkerPc.afterLoop =>
      some { s with w := Renderer.RunFrameDumps_exit s.w, workerPc := WorkerPc.returned }
    | WorkerPc.returned => none

/-- The states of the renderer and its running worker while the main thread is outside
`ShutdownFrameDumping`: `DumpFrameData` has started the worker and handed it a frame, the
worker takes steps, and `FlushFrameDump` runs its body, which waits for the frame in flight
(`FinishFrameData`) and hands over the next one (`DumpFrameData`) when the readback texture
could be mapped. -/
inductive DumpSystem.Reachable (env : DumpEnv) : DumpSystem → Prop where
  | start (r : Renderer) (state : Nat) (w : DumpWorker)
      (hrun : r.m_frame_dump_thread_running = false)
      (hfr : r.m_frame_dump_frame_running = false) :
      DumpSystem.Reachable env
        { r := r.DumpFrameData state, mainPc := MainPc.outside, w := w, workerPc := WorkerPc.Wait
          m_frame_dump_start := Common.Event.Set false, m_frame_dump_done := false }
  | worker (s s1 : DumpSystem) (h : DumpSystem.Reachable env s)
      (hstep : s.step env ThreadId.worker = some s1) : DumpSystem.Reachable env s1
  | flush (s : DumpSystem) (swapEnv : SwapEnv) (h : DumpSystem.Reachable env s)
      (hwait : s.r.m_frame_dump_frame_running = true → s.m_frame_dump_done = true) :
      DumpSystem.Reachable env
        { s with
          r := s.r.flushBody swapEnv
          m_frame_dump_done := if s.r.m_frame_dump_frame_running = true then false
            else s.m_frame_dump_done
          m_frame_dump_start := if swapEnv.mapSucceeds = true then
            Common.Event.Set s.m_frame_dump_start else s.m_frame_dump_start }

theorem toS32_of_range {n : Int} (h1 : -2 ^ 31 ≤ n) (h2 : n < 2 ^ 31) : toS32 n = n := by
  unfold toS32; omega

theorem toS32_le_self {n : Int} (h : 0 ≤ n) : toS32 n ≤ n := by
  unfold toS32; omega

theorem toS32_decomp (n : Int) : toS32 n = n + 2 ^ 32 * (-((n + 2 ^ 31) / 2 ^ 32)) := by
  unfold toS32; omega

theorem toS32_add_mul (a k : Int) : toS32 (a + 2 ^ 32 * k) = toS32 a := by
  unfold toS32; omega

theorem toS32_mul_toS32 (a b : Int) : toS32 (a * toS32 b) = toS32 (a * b) := by
  rw [toS32_decomp b, mul_add, ← mul_assoc, mul_comm a (2 ^ 32), mul_assoc]
  exact toS32_add_mul _ _

theorem smul_toS32_le (a b : Nat) : smul a (toS32 b) ≤ (a * b : Nat) := by
  unfold smul
  rw [toS32_mul_toS32]
  have h : (0 : Int) ≤ (a : Int) * (b : Int) := by positivity
  have := toS32_le_self h
  push_cast
  exact this

theorem smul_toS32_eq (a b : Nat) (h : a * b < 2 ^ 31) : smul a (toS32 b) = (a * b : Nat) := by
  unfold smul
  rw [toS32_mul_toS32]
  have h0 : (0 : Int) ≤ (a : Int) * (b : Int) := by positivity
  have h1 : ((a * b : Nat) : Int) < 2 ^ 31 := by exact_mod_cast h
  push_cast at h1 ⊢
  exact toS32_of_range (by omega) h1

theorem capScale_le (X : Externals) (max_size scale : Nat)
    (hov : X.EFB_WIDTH * scale < 2 ^ 32) :
    X.EFB_WIDTH * capScale X max_size scale ≤ max_size := by
  unfold capScale u32
  rw [Nat.mod_eq_of_lt hov]
  split
  · exact Nat.mul_div_le _ _
  · omega

theorem CalculateTargetSize_eq (X : Externals) (cfg : VideoConfig) (r : Renderer) :
    r.CalculateTargetSize X cfg =
      (decide (smul X.EFB_WIDTH (toS32 (capScale X cfg.MaxTextureSize (r.selectScale X cfg)))
            ≠ r.m_target_width ∨
          smul X.EFB_HEIGHT (toS32 (capScale X cfg.MaxTextureSize (r.selectScale X cfg)))
            ≠ r.m_target_height),
        { r with
          m_efb_scale := capScale X cfg.MaxTextureSize (r.selectScale X cfg)
          m_target_width :=
            smul X.EFB_WIDTH (toS32 (capScale X cfg.MaxTextureSize (r.selectScale X cfg)))
          m_target_height :=
            smul X.EFB_HEIGHT (toS32 (capScale X cfg.MaxTextureSize (r.selectScale X cfg))) }) := by
  unfold Renderer.CalculateTargetSize Renderer.CalculateTargetScale
  dsimp only
  split
  · rename_i h
    simp only [h, decide_True]
  · rename_i h
    simp only [h, decide_False]
    simp only [not_or, not_not] at h
    rw [h.1, h.2]

/-! ## Coordinate transforms -/

/-- C6: with the EFB scale factor equal to 1, `EFBToScaledX` and `EFBToScaledY` return every
`int` coordinate unchanged, and dividing the scaled coordinate by the scale gives the original
coordinate back. -/
theorem EFBToScaled_scale_one_identity (r : Renderer) (x : Int) (hs : r.m_efb_scale = 1)
    (hlo : -2 ^ 31 ≤ x) (hhi : x < 2 ^ 31) :
    r.EFBToScaledX x = x ∧ r.EFBToScaledY x = x ∧
      sdiv (r.EFBToScaledX x) (toS32 r.m_efb_scale) = x ∧
      sdiv (r.EFBToScaledY x) (toS32 r.m_efb_scale) = x := by
  have h1 : toS32 ((1 : Nat) : Int) = 1 := by decide
  have hx : toS32 x = x := toS32_of_range hlo hhi
  simp only [Renderer.EFBToScaledX, Renderer.EFBToScaledY, smul, sdiv, hs, h1, mul_one, hx,
    Int.tdiv_one, and_self]

theorem EFBToScaled_scale_one_identity_witness :
    Renderer.EFBToScaledX { sampleRenderer with m_efb_scale := 1 } (-37) = -37 ∧
      Renderer.EFBToScaledY { sampleRenderer with m_efb_scale := 1 } (-37) = -37 ∧
      sdiv (Renderer.EFBToScaledX { sampleRenderer with m_efb_scale := 1 } (-37))
        (toS32 (1 : Nat)) = -37 ∧
      sdiv (Renderer.EFBToScaledY { sampleRenderer with m_efb_scale := 1 } (-37))
        (toS32 (1 : Nat)) = -37 :=
  EFBToScaled_scale_one_identity { sampleRenderer with m_efb_scale := 1 } (-37) rfl
    (by decide) (by decide)

/-- C7: for an EFB coordinate `x >= 0` and scale factors `1 <= s1 <= s2` such that `x * s2` is
representable as `int`, `EFBToScaledX` and `EFBToScaledY` at scale `s1` return at most what
they return at scale `s2`. -/
theorem EFBToScaled_monotone_in_scale (r1 r2 : Renderer) (x : Int) (hx : 0 ≤ x)
    (h1 : 1 ≤ r1.m_efb_scale) (h12 : r1.m_efb_scale ≤ r2.m_efb_scale)
    (hrep : x * (r2.m_efb_scale : Int) < 2 ^ 31) :
    r1.EFBToScaledX x ≤ r2.EFBToScaledX x ∧ r1.EFBToScaledY x ≤ r2.EFBToScaledY x := by
  have key : smul x (toS32 r1.m_efb_scale) ≤ smul x (toS32 r2.m_efb_scale) := by
    unfold smul
    rw [toS32_mul_toS32, toS32_mul_toS32]
    have hs1 : (1 : Int) ≤ (r1.m_efb_scale : Int) := by exact_mod_cast h1
    have hs12 : (r1.m_efb_scale : Int) ≤ (r2.m_efb_scale : Int) := by exact_mod_cast h12
    have hm : x * (r1.m_efb_scale : Int) ≤ x * (r2.m_efb_scale : Int) :=
      Int.mul_le_mul_of_nonneg_left hs12 hx
    have h0 : 0 ≤ x * (r1.m_efb_scale : Int) := Int.mul_nonneg hx (by omega)
    rw [toS32_of_range (by omega) (by omega), toS32_of_range (by omega) hrep]
    exact hm
  exact ⟨key, key⟩

theorem EFBToScaled_monotone_in_scale_witness :
    Renderer.EFBToScaledX { sampleRenderer with m_efb_scale := 2 } 100 ≤
        Renderer.EFBToScaledX { sampleRenderer with m_efb_scale := 3 } 100 ∧
      Renderer.EFBToScaledY { sampleRenderer with m_efb_scale := 2 } 100 ≤
        Renderer.EFBToScaledY { sampleRenderer with m_efb_scale := 3 } 100 :=
  EFBToScaled_monotone_in_scale { sampleRenderer with m_efb_scale := 2 }
    { sampleRenderer with m_efb_scale := 3 } 100 (by decide) (by decide) (by decide) (by decide)

/-- C8: at a 1280x720 draw rectangle with a 640x480 XFB in automatic mode, the scale 2 already
covers the window in both dimensions (and 1 does not), yet `CalculateTargetSize` selects 3,
because the height estimate is computed from the rectangle's width. -/
theorem CalculateTargetSize_auto_scale_not_smallest :
    gcExternals.GetWidth sampleRenderer.m_target_rectangle = 1280 ∧
      gcExternals.GetHeight sampleRenderer.m_target_rectangle = 720 ∧
      2 * 640 ≥ 640 * 1280 / 640 ∧ 2 * 528 ≥ 528 * 720 / 480 ∧ ¬ (1 * 640 ≥ 640 * 1280 / 640) ∧
      sampleRenderer.selectScale gcExternals autoConfig = 3 ∧
      (sampleRenderer.CalculateTargetSize gcExternals autoConfig).2.m_efb_scale = 3 := by
  decide

/-- C9: after `CalculateTargetSize`, provided `EFB_HEIGHT <= EFB_WIDTH` and `EFB_WIDTH * scale`
does not overflow `u32` for the selected scale, the target width and height do not exceed
`MaxTextureSize`; they are `EFB_WIDTH * scale` and `EFB_HEIGHT * scale` for the capped scale
whenever that product fits an `int`; and the function returns true exactly when the target
width or height changed. -/
theorem CalculateTargetSize_within_max_texture_size (X : Externals) (cfg : VideoConfig)
    (r : Renderer) (hHW : X.EFB_HEIGHT ≤ X.EFB_WIDTH)
    (hov : X.EFB_WIDTH * r.selectScale X cfg < 2 ^ 32) :
    (r.CalculateTargetSize X cfg).2.m_target_width ≤ (cfg.MaxTextureSize : Int) ∧
      (r.CalculateTargetSize X cfg).2.m_target_height ≤ (cfg.MaxTextureSize : Int) ∧
      (X.EFB_WIDTH * (r.CalculateTargetSize X cfg).2.m_efb_scale < 2 ^ 31 →
        (r.CalculateTargetSize X cfg).2.m_target_width =
            ((X.EFB_WIDTH * (r.CalculateTargetSize X cfg).2.m_efb_scale : Nat) : Int) ∧
          (r.CalculateTargetSize X cfg).2.m_target_height =
            ((X.EFB_HEIGHT * (r.CalculateTargetSize X cfg).2.m_efb_scale : Nat) : Int)) ∧
      ((r.CalculateTargetSize X cfg).1 = true ↔
        ((r.CalculateTargetSize X cfg).2.m_target_width ≠ r.m_target_width ∨
          (r.CalculateTargetSize X cfg).2.m_target_height ≠ r.m_target_height)) := by
  have hcap := capScale_le X cfg.MaxTextureSize (r.selectScale X cfg) hov
  rw [CalculateTargetSize_eq]
  dsimp only
  generalize capScale X cfg.MaxTextureSize (r.selectScale X cfg) = s at hcap ⊢
  have hH : X.EFB_HEIGHT * s ≤ X.EFB_WIDTH * s := Nat.mul_le_mul_right _ hHW
  have hw : smul X.EFB_WIDTH (toS32 s) ≤ (cfg.MaxTextureSize : Int) :=
    le_trans (smul_toS32_le _ _) (by exact_mod_cast hcap)
  have hh : smul X.EFB_HEIGHT (toS32 s) ≤ (cfg.MaxTextureSize : Int) :=
    le_trans (smul_toS32_le _ _) (by exact_mod_cast le_trans hH hcap)
  refine ⟨hw, hh, ?_, ?_⟩
  · intro hlt
    exact ⟨smul_toS32_eq _ _ hlt, smul_toS32_eq _ _ (lt_of_le_of_lt hH hlt)⟩
  · exact decide_eq_true_iff

theorem CalculateTargetSize_within_max_texture_size_witness :
    (sampleRenderer.CalculateTargetSize gcExternals
        { autoConfig with iEFBScale := 40 }).2.m_target_width ≤ (16384 : Int) ∧
      (sampleRenderer.CalculateTargetSize gcExternals
        { autoConfig with iEFBScale := 40 }).2.m_target_height ≤ (16384 : Int) :=
  ⟨(CalculateTargetSize_within_max_texture_size gcExternals { autoConfig with iEFBScale := 40 }
      sampleRenderer (by decide) (by decide)).1,
    (CalculateTargetSize_within_max_texture_size gcExternals { autoConfig with iEFBScale := 40 }
      sampleRenderer (by decide) (by decide)).2.1⟩

/-! ## Draw rectangle -/

theorem ctrunc_intCast (z : Int) : ctrunc (z : ℚ) = z := by
  unfold ctrunc
  split <;> simp

theorem ctrunc_roundDraw (d : ℚ) : ctrunc (roundDraw d) = ⌈d⌉ - Int.tmod ⌈d⌉ 4 := by
  unfold roundDraw
  rw [← Int.cast_sub, ctrunc_intCast]

theorem roundDraw_spec (d : ℚ) (hd : 0 < d) :
    (4 : Int) ∣ ctrunc (roundDraw d) ∧ ctrunc (roundDraw d) ≤ ⌈d⌉ ∧
      ⌈d⌉ < ctrunc (roundDraw d) + 4 := by
  have hc : 0 ≤ ⌈d⌉ := le_of_lt (Int.ceil_pos.mpr hd)
  rw [ctrunc_roundDraw, Int.tmod_eq_emod hc (by decide)]
  omega

theorem CalculateDrawAspectRatio_pos (cfg : VideoConfig) (viAspect : ℚ) (r : Renderer)
    (hw : 0 < r.m_backbuffer_width) (hh : 0 < r.m_backbuffer_height) (ha : 0 < viAspect) :
    0 < r.CalculateDrawAspectRatio cfg viAspect := by
  have hw' : (0 : ℚ) < r.m_backbuffer_width := by exact_mod_cast hw
  have hh' : (0 : ℚ) < r.m_backbuffer_height := by exact_mod_cast hh
  unfold Renderer.CalculateDrawAspectRatio AspectToWidescreen
  split
  · positivity
  · split
    · positivity
    · exact ha

theorem cropSize_pos (cfg : VideoConfig) (viAspect : ℚ) (r : Renderer)
    (hw : 0 < r.m_backbuffer_width) (hh : 0 < r.m_backbuffer_height) (ha : 0 < viAspect) :
    0 < (r.cropSize cfg viAspect).1 ∧ 0 < (r.cropSize cfg viAspect).2 := by
  have hA := CalculateDrawAspectRatio_pos cfg viAspect r hw hh ha
  unfold Renderer.cropSize
  dsimp only
  split_ifs
  · exact ⟨by norm_num, by norm_num⟩
  · exact ⟨hA, by positivity⟩
  · exact ⟨by norm_num, by norm_num⟩
  · exact ⟨hA, by positivity⟩
  · exact ⟨hA, by norm_num⟩

theorem scaledDrawSize_pos (cfg : VideoConfig) (viAspect : ℚ) (r : Renderer)
    (hw : 0 < r.m_backbuffer_width) (hh : 0 < r.m_backbuffer_height) (ha : 0 < viAspect) :
    0 < (r.scaledDrawSize cfg viAspect).1 ∧ 0 < (r.scaledDrawSize cfg viAspect).2 := by
  have hA := CalculateDrawAspectRatio_pos cfg viAspect r hw hh ha
  obtain ⟨hc1, hc2⟩ := cropSize_pos cfg viAspect r hw hh ha
  have hw' : (0 : ℚ) < r.m_backbuffer_width := by exact_mod_cast hw
  have hh' : (0 : ℚ) < r.m_backbuffer_height := by exact_mod_cast hh
  unfold Renderer.scaledDrawSize
  dsimp only
  split
  · exact ⟨by positivity, by positivity⟩
  · exact ⟨by positivity, by positivity⟩

/-- C10 (counterexample): for a 1279x1000 window showing 4:3 content the computed draw height is
3837/4 = 959.25, and the stored rectangle is 960 high, which exceeds the computed height; so the
stored height is not the greatest multiple of 4 below the computed draw height. -/
theorem UpdateDrawRectangle_height_exceeds_draw_height :
    (narrowWindowRenderer.scaledDrawSize analogConfig (4 / 3)).2 = 3837 / 4 ∧
      (narrowWindowRenderer.UpdateDrawRectangle analogConfig (4 / 3)).m_target_rectangle.bottom -
        (narrowWindowRenderer.UpdateDrawRectangle analogConfig (4 / 3)).m_target_rectangle.top
        = 960 ∧
      ¬ ((((narrowWindowRenderer.UpdateDrawRectangle analogConfig
              (4 / 3)).m_target_rectangle.bottom -
            (narrowWindowRenderer.UpdateDrawRectangle analogConfig
              (4 / 3)).m_target_rectangle.top : Int) : ℚ) ≤
          (narrowWindowRenderer.scaledDrawSize analogConfig (4 / 3)).2) := by
  have hd : (narrowWindowRenderer.scaledDrawSize analogConfig (4 / 3)).2 = 3837 / 4 := by
    have e1 : AspectMode.Analog ≠ AspectMode.Stretch := by decide
    have e2 : AspectMode.Analog ≠ AspectMode.AnalogWide := by decide
    norm_num [Renderer.scaledDrawSize, Renderer.cropSize, Renderer.CalculateDrawAspectRatio,
      Renderer.wideSelected, narrowWindowRenderer, analogConfig, autoConfig, sampleRenderer,
      e1, e2]
  have hc : ⌈(3837 / 4 : ℚ)⌉ = 960 := by
    rw [Int.ceil_eq_iff]; norm_num
  have hb : (narrowWindowRenderer.UpdateDrawRectangle analogConfig
        (4 / 3)).m_target_rectangle.bottom -
      (narrowWindowRenderer.UpdateDrawRectangle analogConfig (4 / 3)).m_target_rectangle.top
        = 960 := by
    simp only [Renderer.UpdateDrawRectangle, add_sub_cancel_left, ctrunc_roundDraw, hd, hc]
    decide
  refine ⟨hd, hb, ?_⟩
  rw [hb, hd]
  norm_num

/-- C10 (amended): for every positive window size and positive aspect ratio, the width
`right - left` and the height `bottom - top` of the stored target rectangle are multiples of 4,
and each is the greatest multiple of 4 that does not exceed the ceiling of the computed draw
width, respectively draw height. -/
theorem UpdateDrawRectangle_multiple_of_four (cfg : VideoConfig) (viAspect : ℚ) (r : Renderer)
    (hw : 0 < r.m_backbuffer_width) (hh : 0 < r.m_backbuffer_height) (ha : 0 < viAspect) :
    ((4 : Int) ∣ (r.UpdateDrawRectangle cfg viAspect).m_target_rectangle.right -
        (r.UpdateDrawRectangle cfg viAspect).m_target_rectangle.left ∧
      (r.UpdateDrawRectangle cfg viAspect).m_target_rectangle.right -
        (r.UpdateDrawRectangle cfg viAspect).m_target_rectangle.left ≤
          ⌈(r.scaledDrawSize cfg viAspect).1⌉ ∧
      ⌈(r.scaledDrawSize cfg viAspect).1⌉ <
        (r.UpdateDrawRectangle cfg viAspect).m_target_rectangle.right -
          (r.UpdateDrawRectangle cfg viAspect).m_target_rectangle.left + 4) ∧
    ((4 : Int) ∣ (r.UpdateDrawRectangle cfg viAspect).m_target_rectangle.bottom -
        (r.UpdateDrawRectangle cfg viAspect).m_target_rectangle.top ∧
      (r.UpdateDrawRectangle cfg viAspect).m_target_rectangle.bottom -
        (r.UpdateDrawRectangle cfg viAspect).m_target_rectangle.top ≤
          ⌈(r.scaledDrawSize cfg viAspect).2⌉ ∧
      ⌈(r.scaledDrawSize cfg viAspect).2⌉ <
        (r.UpdateDrawRectangle cfg viAspect).m_target_rectangle.bottom -
          (r.UpdateDrawRectangle cfg viAspect).m_target_rectangle.top + 4) := by
  obtain ⟨h1, h2⟩ := scaledDrawSize_pos cfg viAspect r hw hh ha
  simp only [Renderer.UpdateDrawRectangle, add_sub_cancel_left]
  exact ⟨roundDraw_spec _ h1, roundDraw_spec _ h2⟩

theorem UpdateDrawRectangle_multiple_of_four_witness :
    (4 : Int) ∣ (narrowWindowRenderer.UpdateDrawRectangle analogConfig
          (4 / 3)).m_target_rectangle.right -
        (narrowWindowRenderer.UpdateDrawRectangle analogConfig (4 / 3)).m_target_rectangle.left :=
  (UpdateDrawRectangle_multiple_of_four analogConfig (4 / 3) narrowWindowRenderer
    (by decide) (by decide) (by norm_num)).1.1

/-! ## Loops that fill a tile vector -/

theorem foldl_set_row (g : Nat → Nat) (base : Nat) (w : Nat) (vec : List Nat) :
    ((List.range w).foldl (fun (v : List Nat) (xc : Nat) => v.set (base + xc) (g xc)) vec).length
        = vec.length ∧
      ∀ j, ((List.range w).foldl
          (fun (v : List Nat) (xc : Nat) => v.set (base + xc) (g xc)) vec)[j]? =
        if base ≤ j ∧ j < base + w ∧ j < vec.length then some (g (j - base)) else vec[j]? := by
  induction w with
  | zero =>
    refine ⟨rfl, fun j => ?_⟩
    have : ¬ (base ≤ j ∧ j < base + 0 ∧ j < vec.length) := by omega
    rw [if_neg this]
    rfl
  | succ n ih =>
    obtain ⟨hl, hv⟩ := ih
    rw [List.range_succ, List.foldl_append]
    simp only [List.foldl_cons, List.foldl_nil, List.length_set]
    refine ⟨hl, fun j => ?_⟩
    rw [List.getElem?_set, hl, hv j]
    by_cases hj : base + n = j
    · subst hj
      by_cases hlen : base + n < vec.length
      · have h1 : base ≤ base + n ∧ base + n < base + (n + 1) ∧ base + n < vec.length := by omega
        rw [if_pos rfl, if_pos hlen, if_pos h1]
        simp
      · have h1 : ¬ (base ≤ base + n ∧ base + n < base + (n + 1) ∧ base + n < vec.length) := by
          omega
        rw [if_pos rfl, if_neg hlen, if_neg h1]
        exact (List.getElem?_eq_none (by omega)).symm
    · rw [if_neg hj]
      by_cases h1 : base ≤ j ∧ j < base + n ∧ j < vec.length
      · have h2 : base ≤ j ∧ j < base + (n + 1) ∧ j < vec.length := by omega
        rw [if_pos h1, if_pos h2]
      · have h2 : ¬ (base ≤ j ∧ j < base + (n + 1) ∧ j < vec.length) := by omega
        rw [if_neg h1, if_neg h2]

theorem foldl_set_tile (G : Nat → Nat → Nat) (w : Nat) (hw : w ≤ 64) (h : Nat)
    (vec : List Nat) :
    ((List.range h).foldl (fun (v : List Nat) (yc : Nat) =>
        (List.range w).foldl (fun (v : List Nat) (xc : Nat) => v.set (yc * 64 + xc) (G yc xc)) v)
      vec).length = vec.length ∧
      ∀ j, ((List.range h).foldl (fun (v : List Nat) (yc : Nat) =>
          (List.range w).foldl
            (fun (v : List Nat) (xc : Nat) => v.set (yc * 64 + xc) (G yc xc)) v) vec)[j]? =
        if j / 64 < h ∧ j % 64 < w ∧ j < vec.length then some (G (j / 64) (j % 64))
        else vec[j]? := by
  induction h with
  | zero =>
    refine ⟨rfl, fun j => ?_⟩
    simp
  | succ n ih =>
    obtain ⟨hl, hv⟩ := ih
    rw [List.range_succ, List.foldl_append]
    simp only [List.foldl_cons, List.foldl_nil]
    obtain ⟨rl, rv⟩ := foldl_set_row (G n) (n * 64) w
      ((List.range n).foldl (fun (v : List Nat) (yc : Nat) =>
        (List.range w).foldl (fun (v : List Nat) (xc : Nat) => v.set (yc * 64 + xc) (G yc xc)) v)
      vec)
    refine ⟨rl.trans hl, fun j => ?_⟩
    rw [rv j, hl, hv j]
    by_cases h1 : n * 64 ≤ j ∧ j < n * 64 + w ∧ j < vec.length
    · have h2 : j / 64 < n + 1 ∧ j % 64 < w ∧ j < vec.length := by omega
      have h3 : j - n * 64 = j % 64 := by omega
      have h4 : j / 64 = n := by omega
      rw [if_pos h1, if_pos h2, h3, h4]
    · rw [if_neg h1]
      by_cases h2 : j / 64 < n ∧ j % 64 < w ∧ j < vec.length
      · have h3 : j / 64 < n + 1 ∧ j % 64 < w ∧ j < vec.length := by omega
        rw [if_pos h2, if_pos h3]
      · have h3 : ¬ (j / 64 < n + 1 ∧ j % 64 < w ∧ j < vec.length) := by omega
        rw [if_neg h2, if_neg h3]

/-! ## OGL EFB cache -/

theorem u32_of_lt {n : Nat} (h : n < 2 ^ 32) : u32 n = n := Nat.mod_eq_of_lt h

theorem u32_le (n : Nat) : u32 n ≤ n := Nat.mod_le _ _

theorem foldl_length_of_step {β : Type} (f : List Nat → β → List Nat)
    (hf : ∀ v b, (f v b).length = v.length) (l : List β) (v : List Nat) :
    (l.foldl f v).length = v.length := by
  induction l generalizing v with
  | nil => rfl
  | cons b l ih => rw [List.foldl_cons, ih, hf]

theorem fillTile_length (pixel : Nat → Nat → Nat) (rc : Rect) (vec : List Nat) :
    (OGL.fillTile pixel rc vec).length = vec.length := by
  unfold OGL.fillTile
  apply foldl_length_of_step
  intro v yc
  apply foldl_length_of_step
  intro v xc
  exact List.length_set _ _ _

theorem fillTile_getElem (pixel : Nat → Nat → Nat) (rc : Rect) (vec : List Nat)
    (hw : toU32 (toS32 (rc.right - rc.left)) ≤ 64)
    (hh : toU32 (toS32 (rc.bottom - rc.top)) ≤ 64) (j : Nat) :
    (OGL.fillTile pixel rc vec)[j]? =
      if j / 64 < toU32 (toS32 (rc.bottom - rc.top)) ∧
          j % 64 < toU32 (toS32 (rc.right - rc.left)) ∧ j < vec.length then
        some (pixel (toU32 (rc.left + ((j % 64 : Nat) : Int)))
          (toU32 (rc.top + ((j / 64 : Nat) : Int))))
      else vec[j]? := by
  have key : OGL.fillTile pixel rc vec =
      (List.range (toU32 (toS32 (rc.bottom - rc.top)))).foldl
        (fun (v : List Nat) (yc : Nat) =>
          (List.range (toU32 (toS32 (rc.right - rc.left)))).foldl
            (fun (v : List Nat) (xc : Nat) =>
              v.set (yc * 64 + xc)
                (pixel (toU32 (rc.left + (xc : Int))) (toU32 (rc.top + (yc : Int))))) v)
        vec := by
    unfold OGL.fillTile
    apply List.foldl_ext
    intro v yc hyc
    apply List.foldl_ext
    intro v' xc hxc
    have h1 : yc < 64 := lt_of_lt_of_le (List.mem_range.mp hyc) hh
    have h2 : xc < 64 := lt_of_lt_of_le (List.mem_range.mp hxc) hw
    have h3 : u32 (u32 (yc * OGL.EFB_CACHE_RECT_SIZE) + xc) = yc * 64 + xc := by
      unfold u32 OGL.EFB_CACHE_RECT_SIZE
      omega
    simp only [h3]
  rw [key]
  exact (foldl_set_tile
    (fun yc xc => pixel (toU32 (rc.left + (xc : Int))) (toU32 (rc.top + (yc : Int))))
    _ hw _ vec).2 j

theorem OGL_reachable_invariants (c : OGL.EFBCache) (h : OGL.Reachable c) :
    OGL.ClearedMeansInvalid c ∧
      ∀ t i, (c.s_efbCache t i).length = 0 ∨ (c.s_efbCache t i).length = 64 * 64 := by
  induction h with
  | initial =>
    refine ⟨fun hc => ?_, fun t i => Or.inl rfl⟩
    exact absurd hc (by decide)
  | clear c _ ih =>
    unfold OGL.ClearEFBCache
    split
    · exact ⟨fun _ _ _ => rfl, ih.2⟩
    · exact ih
  | update X clamp asFloat r c type idx rc trc data _ ih =>
    refine ⟨fun hc => ?_, fun t i => ?_⟩
    · exact absurd hc (by simp [OGL.UpdateEFBCache])
    · unfold OGL.UpdateEFBCache
      dsimp only
      generalize (if type = EFBAccessType.PeekZ then 0 else 1) = ct
      by_cases hti : t = ct ∧ i = idx
      · rw [if_pos hti, fillTile_length]
        by_cases hlen : (c.s_efbCache ct idx).length = 0
        · rw [if_pos hlen, List.length_replicate]
          exact Or.inr rfl
        · rw [if_neg hlen]
          exact ih.2 _ _
      · rw [if_neg hti]
        exact ih.2 t i

theorem toS32_natCast {n : Nat} (h : n < 2 ^ 31) : toS32 (n : Int) = (n : Int) := by
  unfold toS32; omega

theorem toU32_natCast {n : Nat} (h : n < 2 ^ 32) : toU32 (n : Int) = n := by
  unfold toU32; omega

theorem OGL_tile_edge_lo (x : Nat) (hx : x < 2 ^ 31) :
    toS32 ((u32 ((x / OGL.EFB_CACHE_RECT_SIZE) * OGL.EFB_CACHE_RECT_SIZE) : Nat) : Int) =
      ((64 * (x / 64) : Nat) : Int) := by
  unfold OGL.EFB_CACHE_RECT_SIZE
  rw [u32_of_lt (by omega), toS32_natCast (by omega), Nat.mul_comm]

theorem OGL_tile_edge_hi (x W : Nat) (hW : W < 2 ^ 31) (hx : x < W) :
    toS32 ((min (toU32 (toS32
        ((u32 ((x / OGL.EFB_CACHE_RECT_SIZE) * OGL.EFB_CACHE_RECT_SIZE) : Nat) : Int) +
          ((OGL.EFB_CACHE_RECT_SIZE : Nat) : Int))) (u32 W) : Nat) : Int) =
      ((min (64 * (x / 64) + 64) W : Nat) : Int) := by
  rw [OGL_tile_edge_lo x (by omega)]
  unfold OGL.EFB_CACHE_RECT_SIZE
  rw [← Nat.cast_add, toU32_natCast (by omega), u32_of_lt (by omega), toS32_natCast (by omega)]

theorem OGL_tile_rect_eq (X : Externals) (x y : Nat) (type : EFBAccessType)
    (htype : type = EFBAccessType.PeekColor ∨ type = EFBAccessType.PeekZ)
    (hW : X.EFB_WIDTH < 2 ^ 31) (hH : X.EFB_HEIGHT < 2 ^ 31)
    (hx : x < X.EFB_WIDTH) (hy : y < X.EFB_HEIGHT) :
    OGL.efbPixelRcOf X type x y =
      { left := ((64 * (x / 64) : Nat) : Int)
        top := ((64 * (y / 64) : Nat) : Int)
        right := ((min (64 * (x / 64) + 64) X.EFB_WIDTH : Nat) : Int)
        bottom := ((min (64 * (y / 64) + 64) X.EFB_HEIGHT : Nat) : Int) } := by
  unfold OGL.efbPixelRcOf
  rw [if_pos htype]
  dsimp only
  rw [OGL_tile_edge_hi x X.EFB_WIDTH hW hx, OGL_tile_edge_hi y X.EFB_HEIGHT hH hy,
    OGL_tile_edge_lo x (by omega), OGL_tile_edge_lo y (by omega)]

theorem toU32_toS32_sub {a b : Nat} (hab : a ≤ b) (hb : b < 2 ^ 31) :
    toU32 (toS32 ((b : Int) - (a : Int))) = b - a := by
  rw [← Nat.cast_sub hab, toS32_natCast (by omega), toU32_natCast (by omega)]

theorem OGL_cache_width_eq (X : Externals) (hW : X.EFB_WIDTH < 2 ^ 31) :
    OGL.EFB_CACHE_WIDTH X = (X.EFB_WIDTH + 63) / 64 := by
  unfold OGL.EFB_CACHE_WIDTH OGL.EFB_CACHE_RECT_SIZE
  rw [u32_of_lt (show X.EFB_WIDTH + 64 < 2 ^ 32 by omega),
    u32_of_lt (show X.EFB_WIDTH + 64 - 1 < 2 ^ 32 by omega),
    u32_of_lt (show (X.EFB_WIDTH + 64 - 1) / 64 < 2 ^ 32 by omega)]
  rfl

theorem OGL_cache_height_eq (X : Externals) (hH : X.EFB_HEIGHT < 2 ^ 31) :
    OGL.EFB_CACHE_HEIGHT X = (X.EFB_HEIGHT + 63) / 64 := by
  unfold OGL.EFB_CACHE_HEIGHT OGL.EFB_CACHE_RECT_SIZE
  rw [u32_of_lt (show X.EFB_HEIGHT + 64 < 2 ^ 32 by omega),
    u32_of_lt (show X.EFB_HEIGHT + 64 - 1 < 2 ^ 32 by omega),
    u32_of_lt (show (X.EFB_HEIGHT + 64 - 1) / 64 < 2 ^ 32 by omega)]
  rfl

theorem OGL_tile_index_lt (X : Externals) (x y : Nat)
    (hW : X.EFB_WIDTH < 2 ^ 31) (hH : X.EFB_HEIGHT < 2 ^ 31)
    (hx : x < X.EFB_WIDTH) (hy : y < X.EFB_HEIGHT) :
    (y / 64) * OGL.EFB_CACHE_WIDTH X + x / 64 <
      OGL.EFB_CACHE_WIDTH X * OGL.EFB_CACHE_HEIGHT X := by
  rw [OGL_cache_width_eq X hW, OGL_cache_height_eq X hH]
  have h1 : x / 64 < (X.EFB_WIDTH + 63) / 64 := by omega
  have h2 : y / 64 + 1 ≤ (X.EFB_HEIGHT + 63) / 64 := by omega
  calc (y / 64) * ((X.EFB_WIDTH + 63) / 64) + x / 64
      < (y / 64) * ((X.EFB_WIDTH + 63) / 64) + (X.EFB_WIDTH + 63) / 64 := by omega
    _ = (y / 64 + 1) * ((X.EFB_WIDTH + 63) / 64) := by ring
    _ ≤ ((X.EFB_HEIGHT + 63) / 64) * ((X.EFB_WIDTH + 63) / 64) := Nat.mul_le_mul_right _ h2
    _ = (X.EFB_WIDTH + 63) / 64 * ((X.EFB_HEIGHT + 63) / 64) := Nat.mul_comm _ _

theorem OGL_tile_index_eq (X : Externals) (x y : Nat)
    (hW : X.EFB_WIDTH < 2 ^ 31) (hH : X.EFB_HEIGHT < 2 ^ 31)
    (hsize : OGL.EFB_CACHE_WIDTH X * OGL.EFB_CACHE_HEIGHT X < 2 ^ 32)
    (hx : x < X.EFB_WIDTH) (hy : y < X.EFB_HEIGHT) :
    OGL.cacheRectIdxOf X x y = (y / 64) * OGL.EFB_CACHE_WIDTH X + x / 64 := by
  have hlt := OGL_tile_index_lt X x y hW hH hx hy
  unfold OGL.cacheRectIdxOf OGL.EFB_CACHE_RECT_SIZE
  rw [u32_of_lt (show y / 64 * OGL.EFB_CACHE_WIDTH X < 2 ^ 32 by omega),
    u32_of_lt (show y / 64 * OGL.EFB_CACHE_WIDTH X + x / 64 < 2 ^ 32 by omega)]

theorem OGL_cache_offset_eq (x y : Nat) : OGL.cacheOffsetOf x y = (y % 64) * 64 + x % 64 := by
  unfold OGL.cacheOffsetOf OGL.EFB_CACHE_RECT_SIZE
  dsimp only
  rw [u32_of_lt (show y % 64 * 64 < 2 ^ 32 by omega),
    u32_of_lt (show y % 64 * 64 + x % 64 < 2 ^ 32 by omega)]

theorem OGL_update_stores_pixel (X : Externals) (x y : Nat) (type : EFBAccessType)
    (htype : type = EFBAccessType.PeekColor ∨ type = EFBAccessType.PeekZ)
    (hW : X.EFB_WIDTH < 2 ^ 31) (hH : X.EFB_HEIGHT < 2 ^ 31)
    (hx : x < X.EFB_WIDTH) (hy : y < X.EFB_HEIGHT)
    (c : OGL.EFBCache) (hc : OGL.Reachable c)
    (clamp : Nat → Nat → Nat → Nat) (asFloat : Nat → ℚ) (r : Renderer) (trc : Rect)
    (data : Nat → Nat) (idx : Nat) :
    ((OGL.UpdateEFBCache X clamp asFloat r c type idx (OGL.efbPixelRcOf X type x y) trc
        data).s_efbCache (if type = EFBAccessType.PeekZ then 0 else 1) idx)[
          (y % 64) * 64 + x % 64]? =
      some (OGL.efbPixelValue X clamp asFloat r type trc data x y) := by
  rw [OGL_tile_rect_eq X x y type htype hW hH hx hy]
  unfold OGL.UpdateEFBCache
  dsimp only
  rw [if_pos ⟨rfl, rfl⟩]
  generalize (if type = EFBAccessType.PeekZ then 0 else 1) = ct
  have hlen : (if (c.s_efbCache ct idx).length = 0 then
        List.replicate (OGL.EFB_CACHE_RECT_SIZE * OGL.EFB_CACHE_RECT_SIZE) 0
      else c.s_efbCache ct idx).length = 64 * 64 := by
    by_cases h0 : (c.s_efbCache ct idx).length = 0
    · rw [if_pos h0, List.length_replicate]
      rfl
    · rw [if_neg h0]
      rcases (OGL_reachable_invariants c hc).2 ct idx with h | h
      · exact absurd h h0
      · exact h
  generalize (if (c.s_efbCache ct idx).length = 0 then
        List.replicate (OGL.EFB_CACHE_RECT_SIZE * OGL.EFB_CACHE_RECT_SIZE) 0
      else c.s_efbCache ct idx) = vec at hlen ⊢
  have hwd : toU32 (toS32 (((min (64 * (x / 64) + 64) X.EFB_WIDTH : Nat) : Int) -
      ((64 * (x / 64) : Nat) : Int))) = min (64 * (x / 64) + 64) X.EFB_WIDTH - 64 * (x / 64) :=
    toU32_toS32_sub (by omega) (by omega)
  have hht : toU32 (toS32 (((min (64 * (y / 64) + 64) X.EFB_HEIGHT : Nat) : Int) -
      ((64 * (y / 64) : Nat) : Int))) = min (64 * (y / 64) + 64) X.EFB_HEIGHT - 64 * (y / 64) :=
    toU32_toS32_sub (by omega) (by omega)
  rw [fillTile_getElem _ _ _ (by dsimp only; rw [hwd]; omega) (by dsimp only; rw [hht]; omega)]
  dsimp only
  rw [hwd, hht, hlen]
  have hj1 : (y % 64 * 64 + x % 64) / 64 = y % 64 := by omega
  have hj2 : (y % 64 * 64 + x % 64) % 64 = x % 64 := by omega
  rw [hj1, hj2]
  have hcond : y % 64 < min (64 * (y / 64) + 64) X.EFB_HEIGHT - 64 * (y / 64) ∧
      x % 64 < min (64 * (x / 64) + 64) X.EFB_WIDTH - 64 * (x / 64) ∧
      y % 64 * 64 + x % 64 < 64 * 64 := by
    refine ⟨?_, ?_, ?_⟩ <;> omega
  rw [if_pos hcond]
  have hxe : toU32 (((64 * (x / 64) : Nat) : Int) + ((x % 64 : Nat) : Int)) = x := by
    rw [← Nat.cast_add, toU32_natCast (by omega)]
    omega
  have hye : toU32 (((64 * (y / 64) : Nat) : Int) + ((y % 64 : Nat) : Int)) = y := by
    rw [← Nat.cast_add, toU32_natCast (by omega)]
    omega
  rw [hxe, hye]

/-- C5: for a peek at `(x, y)` inside the EFB, `AccessEFB` selects the 64x64-aligned tile,
clipped to the EFB, that contains `(x, y)`, with width and height at most 64; the tile index
is `(y / 64) * EFB_CACHE_WIDTH + x / 64` and lies below `EFB_CACHE_WIDTH * EFB_CACHE_HEIGHT`;
and the offset it reads, `(y mod 64) * 64 + (x mod 64)`, is the offset at which
`UpdateEFBCache` stored the value of EFB pixel `(x, y)` for that tile. -/
theorem OGL_peek_tile_geometry (X : Externals) (x y : Nat) (type : EFBAccessType)
    (htype : type = EFBAccessType.PeekColor ∨ type = EFBAccessType.PeekZ)
    (hW : X.EFB_WIDTH < 2 ^ 31) (hH : X.EFB_HEIGHT < 2 ^ 31)
    (hsize : OGL.EFB_CACHE_WIDTH X * OGL.EFB_CACHE_HEIGHT X < 2 ^ 32)
    (hx : x < X.EFB_WIDTH) (hy : y < X.EFB_HEIGHT)
    (c : OGL.EFBCache) (hc : OGL.Reachable c) :
    ((OGL.efbPixelRcOf X type x y).left ≤ x ∧ (x : Int) < (OGL.efbPixelRcOf X type x y).right ∧
        (OGL.efbPixelRcOf X type x y).top ≤ y ∧
        (y : Int) < (OGL.efbPixelRcOf X type x y).bottom) ∧
      ((OGL.efbPixelRcOf X type x y).left = 64 * ((x / 64 : Nat) : Int) ∧
        (OGL.efbPixelRcOf X type x y).top = 64 * ((y / 64 : Nat) : Int) ∧
        (OGL.efbPixelRcOf X type x y).right ≤ X.EFB_WIDTH ∧
        (OGL.efbPixelRcOf X type x y).bottom ≤ X.EFB_HEIGHT ∧
        (OGL.efbPixelRcOf X type x y).right - (OGL.efbPixelRcOf X type x y).left ≤ 64 ∧
        (OGL.efbPixelRcOf X type x y).bottom - (OGL.efbPixelRcOf X type x y).top ≤ 64) ∧
      (OGL.cacheRectIdxOf X x y = (y / 64) * OGL.EFB_CACHE_WIDTH X + x / 64 ∧
        OGL.cacheRectIdxOf X x y < OGL.EFB_CACHE_WIDTH X * OGL.EFB_CACHE_HEIGHT X) ∧
      OGL.cacheOffsetOf x y = (y % 64) * 64 + x % 64 ∧
      ∀ (clamp : Nat → Nat → Nat → Nat) (asFloat : Nat → ℚ) (r : Renderer) (trc : Rect)
        (data : Nat → Nat),
        ((OGL.UpdateEFBCache X clamp asFloat r c type (OGL.cacheRectIdxOf X x y)
            (OGL.efbPixelRcOf X type x y) trc data).s_efbCache
              (if type = EFBAccessType.PeekZ then 0 else 1) (OGL.cacheRectIdxOf X x y))[
                OGL.cacheOffsetOf x y]? =
          some (OGL.efbPixelValue X clamp asFloat r type trc data x y) := by
  have hidx := OGL_tile_index_eq X x y hW hH hsize hx hy
  have hlt := OGL_tile_index_lt X x y hW hH hx hy
  refine ⟨?_, ?_, ⟨hidx, hidx ▸ hlt⟩, OGL_cache_offset_eq x y, ?_⟩
  · rw [OGL_tile_rect_eq X x y type htype hW hH hx hy]
    dsimp only
    refine ⟨?_, ?_, ?_, ?_⟩ <;> omega
  · rw [OGL_tile_rect_eq X x y type htype hW hH hx hy]
    dsimp only
    refine ⟨?_, ?_, ?_, ?_, ?_, ?_⟩ <;> omega
  · intro clamp asFloat r trc data
    rw [OGL_cache_offset_eq]
    exact OGL_update_stores_pixel X x y type htype hW hH hx hy c hc clamp asFloat r trc data _

theorem OGL_peek_tile_geometry_witness :
    OGL.cacheRectIdxOf gcExternals 639 527 =
        (527 / 64) * OGL.EFB_CACHE_WIDTH gcExternals + 639 / 64 ∧
      OGL.cacheRectIdxOf gcExternals 639 527 <
        OGL.EFB_CACHE_WIDTH gcExternals * OGL.EFB_CACHE_HEIGHT gcExternals :=
  (OGL_peek_tile_geometry gcExternals 639 527 EFBAccessType.PeekColor (Or.inl rfl)
    (by decide) (by decide) (by decide) (by decide) (by decide)
    OGL.EFBCache.initial OGL.Reachable.initial).2.2.1

/-! ## Bit-level lemmas -/

theorem testBit_of_ge_32 {m : Nat} (hm : m < 2 ^ 32) {i : Nat} (h : ¬ i < 32) :
    m.testBit i = false :=
  Nat.testBit_lt_two_pow
    (lt_of_lt_of_le hm (Nat.pow_le_pow_right (by norm_num) (not_lt.mp h)))

theorem testBit_FF (i : Nat) : Nat.testBit 0xFF i = decide (i < 8) :=
  Nat.testBit_two_pow_sub_one 8 i

theorem testBit_FF000000 (i : Nat) :
    Nat.testBit 0xFF000000 i = (!decide (i < 24) && decide (i < 32)) := by
  by_cases h : i < 32
  · interval_cases i <;> rfl
  · rw [testBit_of_ge_32 (by norm_num) h]
    simp [h]

theorem testBit_FFFFFF (i : Nat) : Nat.testBit 0xFFFFFF i = decide (i < 24) :=
  Nat.testBit_two_pow_sub_one 24 i

theorem alphaByte_or_FF000000 (v : Nat) : alphaByte (v ||| 0xFF000000) = 0xFF := by
  apply Nat.eq_of_testBit_eq
  intro i
  unfold alphaByte
  simp only [Nat.testBit_land, Nat.testBit_shiftRight, Nat.testBit_lor, testBit_FF000000,
    testBit_FF]
  by_cases h : i < 8
  · have h1 : ¬ 24 + i < 24 := by omega
    have h2 : 24 + i < 32 := by omega
    simp [h, h1, h2]
  · simp [h]

theorem low24_or_FF000000 (v : Nat) : low24 (v ||| 0xFF000000) = low24 v := by
  apply Nat.eq_of_testBit_eq
  intro i
  unfold low24
  simp only [Nat.testBit_land, Nat.testBit_lor, testBit_FF000000, testBit_FFFFFF]
  by_cases h : i < 24
  · simp [h]
  · simp [h]

theorem alphaByte_and_00FFFFFF (v : Nat) : alphaByte (v &&& 0x00FFFFFF) = 0 := by
  apply Nat.eq_of_testBit_eq
  intro i
  unfold alphaByte
  have h1 : ¬ 24 + i < 24 := by omega
  simp [Nat.testBit_land, Nat.testBit_shiftRight, testBit_FFFFFF, h1]

theorem low24_and_00FFFFFF (v : Nat) : low24 (v &&& 0x00FFFFFF) = low24 v := by
  unfold low24
  rw [Nat.land_assoc]
  rfl

theorem alpha_policy_facts (mode v : Nat) :
    (mode = 2 →
        (if mode = 2 then v else if mode = 1 then v ||| 0xFF000000 else v &&& 0x00FFFFFF) = v) ∧
      (mode = 1 →
        alphaByte
            (if mode = 2 then v else if mode = 1 then v ||| 0xFF000000 else v &&& 0x00FFFFFF)
            = 0xFF ∧
          low24 (if mode = 2 then v else if mode = 1 then v ||| 0xFF000000 else v &&& 0x00FFFFFF)
            = low24 v) ∧
      (mode ≠ 2 → mode ≠ 1 →
        alphaByte
            (if mode = 2 then v else if mode = 1 then v ||| 0xFF000000 else v &&& 0x00FFFFFF)
            = 0x00 ∧
          low24 (if mode = 2 then v else if mode = 1 then v ||| 0xFF000000 else v &&& 0x00FFFFFF)
            = low24 v) := by
  refine ⟨fun h => by rw [if_pos h], fun h => ?_, fun h2 h1 => ?_⟩
  · have h2 : mode ≠ 2 := by omega
    rw [if_neg h2, if_pos h]
    exact ⟨alphaByte_or_FF000000 v, low24_or_FF000000 v⟩
  · rw [if_neg h2, if_neg h1]
    exact ⟨alphaByte_and_00FFFFFF v, low24_and_00FFFFFF v⟩

/-- C3: in the D3D, OGL and Vulkan backends the last step of `AccessEFB(PeekColor)` applies the
alpha-read policy to the processed colour `v`: for `ReadMode` 2 the result is `v`; for
`ReadMode` 1 the result has alpha byte 0xFF and the low 24 bits of `v`; for any other
`ReadMode` the result has alpha byte 0x00 and the low 24 bits of `v`. -/
theorem AccessEFB_PeekColor_alpha_read_policy (X : Externals) (pixel_format : PixelFormat)
    (ReadMode : Nat) :
    (∀ val : Nat,
      (ReadMode = 2 → D3D.AccessEFB_PeekColor X pixel_format ReadMode val =
          D3D.peekColorProcessed X pixel_format val) ∧
      (ReadMode = 1 →
        alphaByte (D3D.AccessEFB_PeekColor X pixel_format ReadMode val) = 0xFF ∧
          low24 (D3D.AccessEFB_PeekColor X pixel_format ReadMode val) =
            low24 (D3D.peekColorProcessed X pixel_format val)) ∧
      (ReadMode ≠ 2 → ReadMode ≠ 1 →
        alphaByte (D3D.AccessEFB_PeekColor X pixel_format ReadMode val) = 0x00 ∧
          low24 (D3D.AccessEFB_PeekColor X pixel_format ReadMode val) =
            low24 (D3D.peekColorProcessed X pixel_format val))) ∧
    (∀ (fb : Vulkan.FramebufferManager) (x y : Nat),
      (ReadMode = 2 → Vulkan.AccessEFB_PeekColor X pixel_format ReadMode fb x y =
          Vulkan.peekColorProcessed X pixel_format fb x y) ∧
      (ReadMode = 1 →
        alphaByte (Vulkan.AccessEFB_PeekColor X pixel_format ReadMode fb x y) = 0xFF ∧
          low24 (Vulkan.AccessEFB_PeekColor X pixel_format ReadMode fb x y) =
            low24 (Vulkan.peekColorProcessed X pixel_format fb x y)) ∧
      (ReadMode ≠ 2 → ReadMode ≠ 1 →
        alphaByte (Vulkan.AccessEFB_PeekColor X pixel_format ReadMode fb x y) = 0x00 ∧
          low24 (Vulkan.AccessEFB_PeekColor X pixel_format ReadMode fb x y) =
            low24 (Vulkan.peekColorProcessed X pixel_format fb x y))) ∧
    (∀ (clamp : Nat → Nat → Nat → Nat) (asFloat : Nat → ℚ)
      (glReadPixels : EFBAccessType → Int → Int → Nat → Nat → Nat → Nat) (r : Renderer)
      (c : OGL.EFBCache) (x y : Nat),
      (ReadMode = 2 →
        (OGL.AccessEFB X clamp asFloat glReadPixels pixel_format ReadMode r c
            EFBAccessType.PeekColor x y).1 =
          OGL.peekColorProcessed X pixel_format
            (((OGL.AccessEFB X clamp asFloat glReadPixels pixel_format ReadMode r c
              EFBAccessType.PeekColor x y).2.s_efbCache 1 (OGL.cacheRectIdxOf X x y)).getD
                (OGL.cacheOffsetOf x y) 0)) ∧
      (ReadMode = 1 →
        alphaByte (OGL.AccessEFB X clamp asFloat glReadPixels pixel_format ReadMode r c
            EFBAccessType.PeekColor x y).1 = 0xFF ∧
          low24 (OGL.AccessEFB X clamp asFloat glReadPixels pixel_format ReadMode r c
            EFBAccessType.PeekColor x y).1 =
            low24 (OGL.peekColorProcessed X pixel_format
              (((OGL.AccessEFB X clamp asFloat glReadPixels pixel_format ReadMode r c
                EFBAccessType.PeekColor x y).2.s_efbCache 1 (OGL.cacheRectIdxOf X x y)).getD
                  (OGL.cacheOffsetOf x y) 0))) ∧
      (ReadMode ≠ 2 → ReadMode ≠ 1 →
        alphaByte (OGL.AccessEFB X clamp asFloat glReadPixels pixel_format ReadMode r c
            EFBAccessType.PeekColor x y).1 = 0x00 ∧
          low24 (OGL.AccessEFB X clamp asFloat glReadPixels pixel_format ReadMode r c
            EFBAccessType.PeekColor x y).1 =
            low24 (OGL.peekColorProcessed X pixel_format
              (((OGL.AccessEFB X clamp asFloat glReadPixels pixel_format ReadMode r c
                EFBAccessType.PeekColor x y).2.s_efbCache 1 (OGL.cacheRectIdxOf X x y)).getD
                  (OGL.cacheOffsetOf x y) 0)))) := by
  refine ⟨fun val => ?_, fun fb x y => ?_, fun clamp asFloat gl r c x y => ?_⟩
  · exact alpha_policy_facts ReadMode (D3D.peekColorProcessed X pixel_format val)
  · exact alpha_policy_facts ReadMode (Vulkan.peekColorProcessed X pixel_format fb x y)
  · have hres : OGL.AccessEFB X clamp asFloat gl pixel_format ReadMode r c
          EFBAccessType.PeekColor x y =
        ((if ReadMode = 2 then
            OGL.peekColorProcessed X pixel_format
              (((OGL.AccessEFB X clamp asFloat gl pixel_format ReadMode r c
                EFBAccessType.PeekColor x y).2.s_efbCache 1 (OGL.cacheRectIdxOf X x y)).getD
                  (OGL.cacheOffsetOf x y) 0)
          else if ReadMode = 1 then
            OGL.peekColorProcessed X pixel_format
              (((OGL.AccessEFB X clamp asFloat gl pixel_format ReadMode r c
                EFBAccessType.PeekColor x y).2.s_efbCache 1 (OGL.cacheRectIdxOf X x y)).getD
                  (OGL.cacheOffsetOf x y) 0) ||| 0xFF000000
          else
            OGL.peekColorProcessed X pixel_format
              (((OGL.AccessEFB X clamp asFloat gl pixel_format ReadMode r c
                EFBAccessType.PeekColor x y).2.s_efbCache 1 (OGL.cacheRectIdxOf X x y)).getD
                  (OGL.cacheOffsetOf x y) 0) &&& 0x00FFFFFF),
          (OGL.AccessEFB X clamp asFloat gl pixel_format ReadMode r c
            EFBAccessType.PeekColor x y).2) := by
      unfold OGL.AccessEFB
      dsimp only
      split_ifs <;> rfl
    rw [congrArg Prod.fst hres]
    exact alpha_policy_facts ReadMode _

theorem AccessEFB_PeekColor_alpha_read_policy_witness :
    alphaByte (D3D.AccessEFB_PeekColor gcExternals PixelFormat.RGBA6_Z24 1 0x11223344) = 0xFF ∧
      low24 (D3D.AccessEFB_PeekColor gcExternals PixelFormat.RGBA6_Z24 1 0x11223344) =
        low24 (D3D.peekColorProcessed gcExternals PixelFormat.RGBA6_Z24 0x11223344) :=
  ((AccessEFB_PeekColor_alpha_read_policy gcExternals PixelFormat.RGBA6_Z24 1).1
    0x11223344).2.1 rfl

theorem FinishFrameData_xfbView (r : Renderer) : r.FinishFrameData.xfbView = r.xfbView := by
  unfold Renderer.FinishFrameData
  split
  · rfl
  · simp [Renderer.xfbView, presentations, fpsUpdates, List.countP_append]

theorem DumpFrameData_xfbView (r : Renderer) (state : Nat) :
    (r.DumpFrameData state).xfbView = r.xfbView := by
  unfold Renderer.DumpFrameData
  dsimp only
  split_ifs <;> simp [Renderer.xfbView, presentations, fpsUpdates, List.countP_append]

theorem FlushFrameDump_body_xfbView (env : SwapEnv) (r : Renderer) :
    Renderer.xfbView
        { (if env.mapSucceeds = true then
              Renderer.DumpFrameData
                { r.FinishFrameData with
                  trace := r.FinishFrameData.trace ++ [Event.mapReadback] }
                r.FinishFrameData.m_last_frame_state
            else
              { r.FinishFrameData with
                trace := r.FinishFrameData.trace ++ [Event.mapReadback] }) with
          m_last_frame_exported := false } = r.xfbView := by
  rw [← FinishFrameData_xfbView r]
  split
  · have h := DumpFrameData_xfbView
      { r.FinishFrameData with trace := r.FinishFrameData.trace ++ [Event.mapReadback] }
      r.FinishFrameData.m_last_frame_state
    simp only [Renderer.xfbView] at h ⊢
    rw [h]
    simp [presentations, fpsUpdates, List.countP_append]
  · simp [Renderer.xfbView, presentations, fpsUpdates, List.countP_append]

theorem FlushFrameDump_xfbView (env : SwapEnv) (fuel : Nat) :
    (∀ r r', Renderer.FlushFrameDump env fuel r = some r' → r'.xfbView = r.xfbView) ∧
      (∀ r r', Renderer.ShutdownFrameDumping env fuel r = some r' → r'.xfbView = r.xfbView) := by
  induction fuel with
  | zero =>
    constructor <;> intro r r' h
    · simp [Renderer.FlushFrameDump] at h
    · simp [Renderer.ShutdownFrameDumping] at h
  | succ n ih =>
    constructor
    · intro r r' h
      unfold Renderer.FlushFrameDump at h
      dsimp only at h
      split at h
      · cases h; rfl
      · split at h
        · exact (ih.2 _ _ h).trans (FlushFrameDump_body_xfbView env r)
        · cases h
          exact FlushFrameDump_body_xfbView env r
    · intro r r' h
      unfold Renderer.ShutdownFrameDumping at h
      split at h
      · cases h
      · rename_i r1 hflush
        have h1 := ih.1 _ _ hflush
        dsimp only at h
        split at h
        · cases h; exact h1
        · rw [← h1, ← FinishFrameData_xfbView r1]
          split at h <;> cases h <;>
            simp [Renderer.xfbView, presentations, fpsUpdates, List.countP_append]

theorem FlushFrameDump_not_exported (env : SwapEnv) (fuel : Nat) (r : Renderer)
    (h : r.m_last_frame_exported = false) :
    Renderer.FlushFrameDump env (fuel + 1) r = some r := by
  unfold Renderer.FlushFrameDump
  simp [h]

theorem FinishFrameData_exported (r : Renderer) :
    r.FinishFrameData.m_last_frame_exported = r.m_last_frame_exported := by
  unfold Renderer.FinishFrameData
  split <;> rfl

theorem ShutdownFrameDumping_total (env : SwapEnv) (fuel : Nat) (r : Renderer)
    (h : r.m_last_frame_exported = false) :
    ∃ r', Renderer.ShutdownFrameDumping env (fuel + 2) r = some r' := by
  unfold Renderer.ShutdownFrameDumping
  rw [FlushFrameDump_not_exported env fuel r h]
  dsimp only
  split_ifs <;> exact ⟨_, rfl⟩

theorem FlushFrameDump_total (env : SwapEnv) (fuel : Nat) (hfuel : 3 ≤ fuel) (r : Renderer) :
    ∃ r', Renderer.FlushFrameDump env fuel r = some r' := by
  obtain ⟨n, rfl⟩ : ∃ n, fuel = n + 3 := ⟨fuel - 3, by omega⟩
  unfold Renderer.FlushFrameDump
  dsimp only
  split
  · exact ⟨_, rfl⟩
  · split
    · exact ShutdownFrameDumping_total env n _ rfl
    · exact ⟨_, rfl⟩

theorem presentXFB_xfbView (env : SwapEnv) (r : Renderer) (e : XFBEntry)
    (fbWidth fbStride ticks : Nat) :
    (r.presentXFB env e fbWidth fbStride ticks).m_last_xfb_id = e.id ∧
      presentations (r.presentXFB env e fbWidth fbStride ticks).trace =
        presentations r.trace + 1 ∧
      fpsUpdates (r.presentXFB env e fbWidth fbStride ticks).trace = fpsUpdates r.trace + 1 := by
  unfold Renderer.presentXFB
  dsimp only
  split <;>
    simp [Renderer.DumpCurrentFrame, presentations, fpsUpdates, List.countP_append,
      List.countP_cons]

theorem presentations_snoc_videoCopied (t : List Event) (b : Bool) :
    presentations (t ++ [Event.videoCopiedToXFB b]) = presentations t := by
  simp [presentations, List.countP_append]

theorem fpsUpdates_snoc_videoCopied (t : List Event) (b : Bool) :
    fpsUpdates (t ++ [Event.videoCopiedToXFB b]) = fpsUpdates t := by
  simp [fpsUpdates, List.countP_append]

theorem Swap_core (X : Externals) (env : SwapEnv) (fuel : Nat) (hfuel : 3 ≤ fuel) (r : Renderer)
    (xfbAddr fbWidth fbStride fbHeight ticks : Nat) :
    ∃ r1, r.Swap X env fuel xfbAddr fbWidth fbStride fbHeight ticks = some r1 ∧
      (r.presentsOn env xfbAddr fbWidth fbStride fbHeight →
        presentations r1.trace = presentations r.trace + 1 ∧
          fpsUpdates r1.trace = fpsUpdates r.trace + 1 ∧
          r1.trace.getLast? = some (Event.videoCopiedToXFB true) ∧
          ∃ e, env.GetXFBTexture xfbAddr fbStride fbHeight = some e ∧ r1.m_last_xfb_id = e.id) ∧
      (¬ r.presentsOn env xfbAddr fbWidth fbStride fbHeight →
        presentations r1.trace = presentations r.trace ∧
          fpsUpdates r1.trace = fpsUpdates r.trace ∧
          r1.trace.getLast? = some (Event.videoCopiedToXFB false) ∧
          r1.m_last_xfb_id = r.m_last_xfb_id ∧
          r1.m_last_xfb_texture = r.m_last_xfb_texture ∧
          r1.m_last_xfb_ticks = r.m_last_xfb_ticks ∧
          r1.m_last_xfb_region = r.m_last_xfb_region) := by
  unfold Renderer.Swap
  dsimp only
  generalize hr0 : (if ¬ env.bWii = true then
      if r.m_aspect_wide = true then
        { r with
          m_aspect_wide :=
            !decide (4 * env.flush_count_4_3 >
              3 * (env.flush_count_4_3 + env.flush_count_anamorphic)) }
      else
        { r with
          m_aspect_wide :=
            decide (4 * env.flush_count_anamorphic >
              3 * (env.flush_count_4_3 + env.flush_count_anamorphic)) }
    else r) = r0
  have hv0 : r0.xfbView = r.xfbView := by
    rw [← hr0]
    split_ifs <;> rfl
  obtain ⟨rf, hrf⟩ := FlushFrameDump_total env fuel hfuel r0
  have hvf : rf.xfbView = r.xfbView := ((FlushFrameDump_xfbView env fuel).1 _ _ hrf).trans hv0
  rw [hrf]
  dsimp only
  simp only [Renderer.xfbView, Prod.mk.injEq] at hvf
  obtain ⟨hid, htex, hticks, hreg, hpres, hfps⟩ := hvf
  refine ⟨_, rfl, ?_, ?_⟩
  · rintro ⟨h1, h2, h3, h4, e, he, hne⟩
    rw [if_pos ⟨h1, h2, h3, h4⟩, he]
    dsimp only
    rw [if_pos (by rw [hid]; exact hne)]
    obtain ⟨p1, p2, p3⟩ := presentXFB_xfbView env rf e fbWidth fbStride ticks
    refine ⟨?_, ?_, ?_, e, rfl, ?_⟩
    · show presentations (_ ++ [_]) = _
      rw [presentations_snoc_videoCopied]
      exact p2.trans (by rw [hpres])
    · show fpsUpdates (_ ++ [_]) = _
      rw [fpsUpdates_snoc_videoCopied]
      exact p3.trans (by rw [hfps])
    · simp
    · exact p1
  · intro hnot
    have hkeep : ∀ b : Renderer, b.xfbView = rf.xfbView →
        presentations (b.trace ++ [Event.videoCopiedToXFB false]) = presentations r.trace ∧
          fpsUpdates (b.trace ++ [Event.videoCopiedToXFB false]) = fpsUpdates r.trace ∧
          (b.trace ++ [Event.videoCopiedToXFB false]).getLast? =
            some (Event.videoCopiedToXFB false) ∧
          b.m_last_xfb_id = r.m_last_xfb_id ∧ b.m_last_xfb_texture = r.m_last_xfb_texture ∧
          b.m_last_xfb_ticks = r.m_last_xfb_ticks ∧
          b.m_last_xfb_region = r.m_last_xfb_region := by
      intro b hb
      simp only [Renderer.xfbView, Prod.mk.injEq] at hb
      obtain ⟨b1, b2, b3, b4, b5, b6⟩ := hb
      refine ⟨?_, ?_, by simp, b1.trans hid, b2.trans htex, b3.trans hticks, b4.trans hreg⟩
      · rw [presentations_snoc_videoCopied, b5, hpres]
      · rw [fpsUpdates_snoc_videoCopied, b6, hfps]
    by_cases hz : xfbAddr ≠ 0 ∧ fbWidth ≠ 0 ∧ fbStride ≠ 0 ∧ fbHeight ≠ 0
    · rw [if_pos hz]
      cases he : env.GetXFBTexture xfbAddr fbStride fbHeight with
      | none =>
        dsimp only
        exact hkeep _ rfl
      | some e =>
        dsimp only
        have hsame : ¬ e.id ≠ rf.m_last_xfb_id := by
          intro hne
          exact hnot ⟨hz.1, hz.2.1, hz.2.2.1, hz.2.2.2, e, he, by rw [← hid]; exact hne⟩
        rw [if_neg hsame]
        exact hkeep _ rfl
    · rw [if_neg hz]
      exact hkeep _ rfl

/-- C1 (counterexample): three consecutive Swaps that all resolve to the entry with identifier
5. The first presents; the second and the third, two consecutive Swaps resolving to the same
entry id, present nothing between them (the number of `SwapImpl` calls stays 1), so they do not
present exactly once. -/
theorem Swap_same_xfb_twice_presents_nothing :
    (constantXfbEnv 5).GetXFBTexture 0x1000 640 480 =
        some { id := 5, texture := 1, rect := ⟨0, 0, 640, 480⟩ } ∧
      (swapSameXfb sampleRenderer).map (fun r => presentations r.trace) = some 1 ∧
      ((swapSameXfb sampleRenderer).bind swapSameXfb).map (fun r => presentations r.trace)
        = some 1 ∧
      (((swapSameXfb sampleRenderer).bind swapSameXfb).bind swapSameXfb).map
        (fun r => presentations r.trace) = some 1 := by
  simp [swapSameXfb, Renderer.Swap, constantXfbEnv, Renderer.FlushFrameDump, sampleRenderer,
    presentations, Renderer.presentXFB, Renderer.IsFrameDumping]

/-- C1 (amended): given enough fuel for the frame-dump calls, `Renderer::Swap` returns, and it
presents a frame (one more `SwapImpl` call, one more FPS counter update, and
`update_frame_count = true` reported) if and only if `xfbAddr`, `fbWidth`, `fbStride` and
`fbHeight` are all non-zero, the texture cache returns an entry, and that entry's id differs
from `m_last_xfb_id`. When it presents it sets `m_last_xfb_id` to the entry's id; otherwise
`m_last_xfb_id`, `m_last_xfb_texture`, `m_last_xfb_ticks` and `m_last_xfb_region` are
unchanged. Hence two consecutive Swaps that resolve to the same entry id `k` present at most
once: exactly once when `k` differs from `m_last_xfb_id` before the first Swap, and not at all
otherwise. -/
theorem Swap_presents_iff_new_xfb (X : Externals) (env env2 : SwapEnv) (fuel : Nat)
    (hfuel : 3 ≤ fuel) (r : Renderer) (xfbAddr fbWidth fbStride fbHeight ticks : Nat)
    (xfbAddr2 fbWidth2 fbStride2 fbHeight2 ticks2 : Nat) :
    ∃ r1, r.Swap X env fuel xfbAddr fbWidth fbStride fbHeight ticks = some r1 ∧
      (r.presentsOn env xfbAddr fbWidth fbStride fbHeight ↔
        presentations r1.trace = presentations r.trace + 1) ∧
      (r.presentsOn env xfbAddr fbWidth fbStride fbHeight ↔
        fpsUpdates r1.trace = fpsUpdates r.trace + 1) ∧
      (r.presentsOn env xfbAddr fbWidth fbStride fbHeight ↔
        r1.trace.getLast? = some (Event.videoCopiedToXFB true)) ∧
      (r.presentsOn env xfbAddr fbWidth fbStride fbHeight →
        ∃ e, env.GetXFBTexture xfbAddr fbStride fbHeight = some e ∧ r1.m_last_xfb_id = e.id) ∧
      (¬ r.presentsOn env xfbAddr fbWidth fbStride fbHeight →
        presentations r1.trace = presentations r.trace ∧
          fpsUpdates r1.trace = fpsUpdates r.trace ∧
          r1.trace.getLast? = some (Event.videoCopiedToXFB false) ∧
          r1.m_last_xfb_id = r.m_last_xfb_id ∧
          r1.m_last_xfb_texture = r.m_last_xfb_texture ∧
          r1.m_last_xfb_ticks = r.m_last_xfb_ticks ∧
          r1.m_last_xfb_region = r.m_last_xfb_region) ∧
      (∀ k, env.resolvesTo xfbAddr fbWidth fbStride fbHeight k →
        env2.resolvesTo xfbAddr2 fbWidth2 fbStride2 fbHeight2 k →
        ∃ r2, r1.Swap X env2 fuel xfbAddr2 fbWidth2 fbStride2 fbHeight2 ticks2 = some r2 ∧
          presentations r2.trace =
            presentations r.trace + (if k = r.m_last_xfb_id then 0 else 1)) := by
  obtain ⟨r1, hr1, hyes, hno⟩ :=
    Swap_core X env fuel hfuel r xfbAddr fbWidth fbStride fbHeight ticks
  refine ⟨r1, hr1, ⟨fun h => (hyes h).1, fun h => ?_⟩, ⟨fun h => (hyes h).2.1, fun h => ?_⟩,
    ⟨fun h => (hyes h).2.2.1, fun h => ?_⟩, fun h => (hyes h).2.2.2, hno, ?_⟩
  · by_contra hn
    have := (hno hn).1
    omega
  · by_contra hn
    have := (hno hn).2.1
    omega
  · by_contra hn
    have h2 := (hno hn).2.2.1
    rw [h] at h2
    exact absurd h2 (by decide)
  · rintro k ⟨a1, a2, a3, a4, e, he, hek⟩ ⟨b1, b2, b3, b4, e2, he2, he2k⟩
    obtain ⟨r2, hr2, -, hno2⟩ :=
      Swap_core X env2 fuel hfuel r1 xfbAddr2 fbWidth2 fbStride2 fbHeight2 ticks2
    have hid1 : r1.m_last_xfb_id = k := by
      by_cases hk : k = r.m_last_xfb_id
      · have hn : ¬ r.presentsOn env xfbAddr fbWidth fbStride fbHeight := by
          rintro ⟨_, _, _, _, e', he', hne'⟩
          rw [he] at he'
          cases he'
          exact hne' (hek.trans hk)
        rw [(hno hn).2.2.2.1, hk]
      · have hy : r.presentsOn env xfbAddr fbWidth fbStride fbHeight :=
          ⟨a1, a2, a3, a4, e, he, fun h => hk (hek.symm.trans h)⟩
        obtain ⟨e', he', hid'⟩ := (hyes hy).2.2.2
        rw [he] at he'
        cases he'
        rw [hid', hek]
    have hn2 : ¬ r1.presentsOn env2 xfbAddr2 fbWidth2 fbStride2 fbHeight2 := by
      rintro ⟨_, _, _, _, e', he', hne'⟩
      rw [he2] at he'
      cases he'
      exact hne' (he2k.trans hid1.symm)
    refine ⟨r2, hr2, ?_⟩
    rw [(hno2 hn2).1]
    by_cases hk : k = r.m_last_xfb_id
    · have hn : ¬ r.presentsOn env xfbAddr fbWidth fbStride fbHeight := by
        rintro ⟨_, _, _, _, e', he', hne'⟩
        rw [he] at he'
        cases he'
        exact hne' (hek.trans hk)
      rw [(hno hn).1, if_pos hk]
      rfl
    · have hy : r.presentsOn env xfbAddr fbWidth fbStride fbHeight :=
        ⟨a1, a2, a3, a4, e, he, fun h => hk (hek.symm.trans h)⟩
      rw [(hyes hy).1, if_neg hk]

theorem Swap_presents_iff_new_xfb_witness :
    3 ≤ 3 ∧
      ∃ r1, sampleRenderer.Swap gcExternals (constantXfbEnv 5) 3 0x1000 640 640 480 100 = some r1 ∧
        (sampleRenderer.presentsOn (constantXfbEnv 5) 0x1000 640 640 480 ↔
          presentations r1.trace = presentations sampleRenderer.trace + 1) :=
  ⟨by decide,
    (Swap_presents_iff_new_xfb gcExternals (constantXfbEnv 5) (constantXfbEnv 5) 3 (by decide)
      sampleRenderer 0x1000 640 640 480 100 0x1000 640 640 480 101).imp
      (fun _ h => ⟨h.1, h.2.1⟩)⟩

/-! ## Frame dumping -/

theorem ShutdownFrameDumping_of_flush (env : SwapEnv) (fuel : Nat) (r r1 : Renderer)
    (h : Renderer.FlushFrameDump env fuel r = some r1) :
    Renderer.ShutdownFrameDumping env (fuel + 1) r = some r1.shutdownTail := by
  unfold Renderer.ShutdownFrameDumping
  rw [h]
  unfold Renderer.shutdownTail
  dsimp only
  split_ifs <;> rfl

theorem flushBody_exported (env : SwapEnv) (r : Renderer) :
    (r.flushBody env).m_last_frame_exported = false := rfl

theorem FlushFrameDump_eq (env : SwapEnv) (fuel : Nat) (hfuel : 3 ≤ fuel) (r : Renderer) :
    Renderer.FlushFrameDump env fuel r = some (r.flushResult env) := by
  obtain ⟨n, rfl⟩ : ∃ n, fuel = n + 3 := ⟨fuel - 3, by omega⟩
  unfold Renderer.FlushFrameDump Renderer.flushResult
  dsimp only
  split
  · rfl
  · split
    · exact ShutdownFrameDumping_of_flush env (n + 1) _ _
        (FlushFrameDump_not_exported env n _ rfl)
    · rfl

theorem TraceExt_refl (P : Event → Prop) (r : Renderer) : Renderer.TraceExt P r r :=
  ⟨[], by simp, by simp⟩

theorem TraceExt_trans {P : Event → Prop} {r r1 r2 : Renderer}
    (h1 : Renderer.TraceExt P r r1) (h2 : Renderer.TraceExt P r1 r2) :
    Renderer.TraceExt P r r2 := by
  obtain ⟨s1, e1, p1⟩ := h1
  obtain ⟨s2, e2, p2⟩ := h2
  refine ⟨s1 ++ s2, by rw [e2, e1, List.append_assoc], ?_⟩
  intro e he
  rcases List.mem_append.mp he with h | h
  · exact p1 e h
  · exact p2 e h

theorem TraceExt_mono {P Q : Event → Prop} {r r1 : Renderer} (hPQ : ∀ e, P e → Q e)
    (h : Renderer.TraceExt P r r1) : Renderer.TraceExt Q r r1 := by
  obtain ⟨s, e1, p⟩ := h
  exact ⟨s, e1, fun e he => hPQ e (p e he)⟩

theorem TraceExt_snoc (P : Event → Prop) (r r' : Renderer) (e : Event)
    (h : r'.trace = r.trace ++ [e]) (hP : P e) : Renderer.TraceExt P r r' :=
  ⟨[e], h, by simpa using hP⟩

theorem FinishFrameData_traceExt (r : Renderer) :
    Renderer.TraceExt (fun e => e = Event.waitFrameDumpDone) r r.FinishFrameData := by
  unfold Renderer.FinishFrameData
  split
  · exact TraceExt_refl _ _
  · exact TraceExt_snoc _ _ _ _ rfl rfl

theorem FinishFrameData_fields (r : Renderer) :
    r.FinishFrameData.m_last_frame_state = r.m_last_frame_state ∧
      r.FinishFrameData.m_last_frame_exported = r.m_last_frame_exported ∧
      r.FinishFrameData.m_frame_dump_thread_running = r.m_frame_dump_thread_running ∧
      r.FinishFrameData.m_frame_dump_thread = r.m_frame_dump_thread ∧
      r.FinishFrameData.m_frame_dump_frame_running = false := by
  unfold Renderer.FinishFrameData
  split
  · rename_i h
    exact ⟨rfl, rfl, rfl, rfl, by simpa using h⟩
  · exact ⟨rfl, rfl, rfl, rfl, rfl⟩

theorem DumpFrameData_traceExt (r : Renderer) (state : Nat) :
    Renderer.TraceExt
      (fun e => e = Event.dumpFrameData state ∨ e = Event.joinWorker ∨ e = Event.startWorker ∨
        e = Event.signalStart) r (r.DumpFrameData state) := by
  unfold Renderer.DumpFrameData
  dsimp only
  split_ifs
  · exact ⟨[Event.dumpFrameData state, Event.signalStart], by simp, by simp⟩
  · exact ⟨[Event.dumpFrameData state, Event.joinWorker, Event.startWorker, Event.signalStart],
      by simp, by simp⟩
  · exact ⟨[Event.dumpFrameData state, Event.startWorker, Event.signalStart], by simp, by simp⟩

theorem DumpFrameData_fields (r : Renderer) (state : Nat) :
    (r.DumpFrameData state).m_frame_dump_frame_running = true ∧
      (r.DumpFrameData state).m_last_frame_exported = r.m_last_frame_exported ∧
      (r.DumpFrameData state).m_last_frame_state = r.m_last_frame_state := by
  unfold Renderer.DumpFrameData
  dsimp only
  split_ifs <;> exact ⟨rfl, rfl, rfl⟩

theorem flushBody_traceExt (env : SwapEnv) (r : Renderer) :
    Renderer.TraceExt
      (fun e => e.isFlushEvent = true ∧ ∀ s, e = Event.dumpFrameData s → s = r.m_last_frame_state)
      r (r.flushBody env) := by
  have h1 : Renderer.TraceExt
      (fun e => e.isFlushEvent = true ∧ ∀ s, e = Event.dumpFrameData s → s = r.m_last_frame_state)
      r r.FinishFrameData :=
    TraceExt_mono (fun e he => by subst he; exact ⟨rfl, fun s hs => by cases hs⟩)
      (FinishFrameData_traceExt r)
  have h2 : Renderer.TraceExt
      (fun e => e.isFlushEvent = true ∧ ∀ s, e = Event.dumpFrameData s → s = r.m_last_frame_state)
      r.FinishFrameData
      { r.FinishFrameData with trace := r.FinishFrameData.trace ++ [Event.mapReadback] } :=
    TraceExt_snoc _ _ _ _ rfl ⟨rfl, fun s hs => by cases hs⟩
  unfold Renderer.flushBody
  dsimp only
  split
  · have h3 := DumpFrameData_traceExt
      { r.FinishFrameData with trace := r.FinishFrameData.trace ++ [Event.mapReadback] }
      r.FinishFrameData.m_last_frame_state
    have h3' : Renderer.TraceExt
        (fun e => e.isFlushEvent = true ∧
          ∀ s, e = Event.dumpFrameData s → s = r.m_last_frame_state)
        { r.FinishFrameData with trace := r.FinishFrameData.trace ++ [Event.mapReadback] }
        (Renderer.DumpFrameData
          { r.FinishFrameData with trace := r.FinishFrameData.trace ++ [Event.mapReadback] }
          r.FinishFrameData.m_last_frame_state) := by
      refine TraceExt_mono (fun e he => ?_) h3
      rcases he with h | h | h | h <;> subst h
      · refine ⟨rfl, fun s hs => ?_⟩
        cases hs
        exact (FinishFrameData_fields r).1
      · exact ⟨rfl, fun s hs => by cases hs⟩
      · exact ⟨rfl, fun s hs => by cases hs⟩
      · exact ⟨rfl, fun s hs => by cases hs⟩
    obtain ⟨seg, hseg, hp⟩ := TraceExt_trans (TraceExt_trans h1 h2) h3'
    exact ⟨seg, hseg, hp⟩
  · obtain ⟨seg, hseg, hp⟩ := TraceExt_trans h1 h2
    exact ⟨seg, hseg, hp⟩

theorem shutdownTail_traceExt (r : Renderer) :
    Renderer.TraceExt
      (fun e => e = Event.waitFrameDumpDone ∨ e = Event.signalStart ∨ e = Event.joinWorker)
      r r.shutdownTail := by
  unfold Renderer.shutdownTail
  split
  · exact TraceExt_refl _ _
  · have h1 : Renderer.TraceExt
        (fun e => e = Event.waitFrameDumpDone ∨ e = Event.signalStart ∨ e = Event.joinWorker)
        r r.FinishFrameData :=
      TraceExt_mono (fun e he => Or.inl he) (FinishFrameData_traceExt r)
    dsimp only
    split
    · obtain ⟨seg, hseg, hp⟩ := h1
      refine ⟨seg ++ [Event.signalStart, Event.joinWorker], ?_, ?_⟩
      · show (r.FinishFrameData.trace ++ [Event.signalStart]) ++ [Event.joinWorker] = _
        rw [hseg]
        simp
      · intro e he
        rcases List.mem_append.mp he with h | h
        · exact hp e h
        · simp at h
          rcases h with h | h <;> subst h <;> simp
    · obtain ⟨seg, hseg, hp⟩ := h1
      refine ⟨seg ++ [Event.signalStart], ?_, ?_⟩
      · show r.FinishFrameData.trace ++ [Event.signalStart] = _
        rw [hseg]
        simp
      · intro e he
        rcases List.mem_append.mp he with h | h
        · exact hp e h
        · simp at h
          subst h
          simp

theorem shutdownTail_exported (r : Renderer) :
    r.shutdownTail.m_last_frame_exported = r.m_last_frame_exported := by
  unfold Renderer.shutdownTail
  split
  · rfl
  · dsimp only
    split <;> exact (FinishFrameData_fields r).2.1

theorem flushResult_exported (env : SwapEnv) (r : Renderer) :
    (r.flushResult env).m_last_frame_exported = false := by
  unfold Renderer.flushResult
  split
  · rename_i h
    simpa using h
  · split
    · rw [shutdownTail_exported]
      rfl
    · rfl

theorem flushResult_trace (env : SwapEnv) (r : Renderer) :
    ∃ seg, (r.flushResult env).trace = r.trace ++ seg ∧ r.FlushSegment seg := by
  unfold Renderer.flushResult
  split
  · exact ⟨[], by simp, by simp [Renderer.FlushSegment]⟩
  · rename_i hexp
    have hexp' : r.m_last_frame_exported = true := by simpa using hexp
    have hb : Renderer.TraceExt
        (fun e => e.isFlushEvent = true ∧
          ∀ s, e = Event.dumpFrameData s → r.m_last_frame_exported = true ∧
            s = r.m_last_frame_state) r (r.flushBody env) :=
      TraceExt_mono (fun e he => ⟨he.1, fun s hs => ⟨hexp', he.2 s hs⟩⟩)
        (flushBody_traceExt env r)
    split
    · have ht : Renderer.TraceExt
          (fun e => e.isFlushEvent = true ∧
            ∀ s, e = Event.dumpFrameData s → r.m_last_frame_exported = true ∧
              s = r.m_last_frame_state) (r.flushBody env) (r.flushBody env).shutdownTail := by
        refine TraceExt_mono (fun e he => ?_) (shutdownTail_traceExt _)
        rcases he with h | h | h <;> subst h <;> exact ⟨rfl, fun s hs => by cases hs⟩
      exact TraceExt_trans hb ht
    · exact hb

theorem frameInFlight_snoc (t : List Event) (e : Event) :
    frameInFlight (t ++ [e]) =
      (match frameInFlight t, e with
        | none, _ => none
        | some b, Event.dumpFrameData _ => if b = true then none else some true
        | some _, Event.waitFrameDumpDone => some false
        | some b, _ => some b) := by
  simp only [frameInFlight, List.foldl_append, List.foldl_cons, List.foldl_nil]

theorem frameInFlight_snoc_neutral (t : List Event) (e : Event) (h : e.isNeutral = true) :
    frameInFlight (t ++ [e]) = frameInFlight t := by
  rw [frameInFlight_snoc]
  cases hft : frameInFlight t with
  | none => rfl
  | some b => cases e <;> first | rfl | cases h

theorem frameInFlight_append_neutral (seg : List Event) :
    ∀ t : List Event, (∀ e ∈ seg, e.isNeutral = true) →
      frameInFlight (t ++ seg) = frameInFlight t := by
  induction seg with
  | nil => intro t _; simp
  | cons e seg ih =>
    intro t h
    have h1 : t ++ e :: seg = (t ++ [e]) ++ seg := by simp
    rw [h1, ih (t ++ [e]) (fun x hx => h x (List.mem_cons_of_mem _ hx)),
      frameInFlight_snoc_neutral t e (h e (List.mem_cons_self _ _))]

theorem DumpConsistent_of_neutral (r r' : Renderer) (seg : List Event)
    (ht : r'.trace = r.trace ++ seg) (hn : ∀ e ∈ seg, e.isNeutral = true)
    (hf : r'.m_frame_dump_frame_running = r.m_frame_dump_frame_running)
    (h : r.DumpConsistent) : r'.DumpConsistent := by
  unfold Renderer.DumpConsistent at *
  rw [ht, frameInFlight_append_neutral seg r.trace hn, hf]
  exact h

theorem FinishFrameData_consistent (r : Renderer) (h : r.DumpConsistent) :
    r.FinishFrameData.DumpConsistent := by
  unfold Renderer.FinishFrameData
  split
  · exact h
  · rename_i hrun
    unfold Renderer.DumpConsistent at *
    show frameInFlight (r.trace ++ [Event.waitFrameDumpDone]) = some false
    rw [frameInFlight_snoc, h]

theorem DumpFrameData_consistent (r : Renderer) (state : Nat) (h : r.DumpConsistent)
    (hidle : r.m_frame_dump_frame_running = false) : (r.DumpFrameData state).DumpConsistent := by
  have h0 : frameInFlight (r.trace ++ [Event.dumpFrameData state]) = some true := by
    unfold Renderer.DumpConsistent at h
    rw [frameInFlight_snoc, h, hidle]
    rfl
  unfold Renderer.DumpConsistent
  rw [(DumpFrameData_fields r state).1]
  unfold Renderer.DumpFrameData
  dsimp only
  split_ifs
  · show frameInFlight ((r.trace ++ [Event.dumpFrameData state]) ++ [Event.signalStart]) = _
    rw [frameInFlight_snoc_neutral _ Event.signalStart rfl, h0]
  · show frameInFlight ((((r.trace ++ [Event.dumpFrameData state]) ++ [Event.joinWorker]) ++
        [Event.startWorker]) ++ [Event.signalStart]) = _
    rw [frameInFlight_snoc_neutral _ Event.signalStart rfl,
      frameInFlight_snoc_neutral _ Event.startWorker rfl,
      frameInFlight_snoc_neutral _ Event.joinWorker rfl, h0]
  · show frameInFlight (((r.trace ++ [Event.dumpFrameData state]) ++ [Event.startWorker]) ++
        [Event.signalStart]) = _
    rw [frameInFlight_snoc_neutral _ Event.signalStart rfl,
      frameInFlight_snoc_neutral _ Event.startWorker rfl, h0]

theorem flushBody_consistent (env : SwapEnv) (r : Renderer) (h : r.DumpConsistent) :
    (r.flushBody env).DumpConsistent := by
  have h1 := FinishFrameData_consistent r h
  have h2 : Renderer.DumpConsistent
      { r.FinishFrameData with trace := r.FinishFrameData.trace ++ [Event.mapReadback] } :=
    DumpConsistent_of_neutral r.FinishFrameData _ [Event.mapReadback] rfl (by simp [Event.isNeutral])
      rfl h1
  unfold Renderer.flushBody
  dsimp only
  split
  · have h3 := DumpFrameData_consistent _ r.FinishFrameData.m_last_frame_state h2
      (FinishFrameData_fields r).2.2.2.2
    exact DumpConsistent_of_neutral _ _ [] (by simp) (by simp) rfl h3
  · exact DumpConsistent_of_neutral _ _ [] (by simp) (by simp) rfl h2

theorem shutdownTail_consistent (r : Renderer) (h : r.DumpConsistent) :
    r.shutdownTail.DumpConsistent := by
  have h1 := FinishFrameData_consistent r h
  unfold Renderer.shutdownTail
  split
  · exact h
  · dsimp only
    split
    · exact DumpConsistent_of_neutral r.FinishFrameData _ [Event.signalStart, Event.joinWorker]
        (by simp) (by simp [Event.isNeutral]) rfl h1
    · exact DumpConsistent_of_neutral r.FinishFrameData _ [Event.signalStart]
        (by simp) (by simp [Event.isNeutral]) rfl h1

theorem flushResult_consistent (env : SwapEnv) (r : Renderer) (h : r.DumpConsistent) :
    (r.flushResult env).DumpConsistent := by
  unfold Renderer.flushResult
  split
  · exact h
  · split
    · exact shutdownTail_consistent _ (flushBody_consistent env r h)
    · exact flushBody_consistent env r h

theorem ShutdownFrameDumping_eq (env : SwapEnv) (fuel : Nat) (hfuel : 4 ≤ fuel) (r : Renderer) :
    Renderer.ShutdownFrameDumping env fuel r = some (r.flushResult env).shutdownTail := by
  obtain ⟨n, rfl⟩ : ∃ n, fuel = n + 1 := ⟨fuel - 1, by omega⟩
  exact ShutdownFrameDumping_of_flush env n r _ (FlushFrameDump_eq env n (by omega) r)

theorem presentXFB_dump (env : SwapEnv) (r : Renderer) (e : XFBEntry)
    (fbWidth fbStride ticks : Nat) :
    ∃ R, (r.presentXFB env e fbWidth fbStride ticks).trace =
        r.trace ++ (Event.swapImpl e.texture R ticks :: Event.fpsUpdate ::
          (if Renderer.IsFrameDumping env = true then [Event.dumpCurrentFrame] else [])) ∧
      (r.presentXFB env e fbWidth fbStride ticks).m_last_frame_exported =
        (if Renderer.IsFrameDumping env = true then true else r.m_last_frame_exported) ∧
      (Renderer.IsFrameDumping env = true →
        (r.presentXFB env e fbWidth fbStride ticks).m_last_frame_state = ticks) ∧
      (r.presentXFB env e fbWidth fbStride ticks).m_frame_dump_frame_running =
        r.m_frame_dump_frame_running := by
  refine ⟨{ e.rect with
    right := toS32 (e.rect.right - r.EFBToScaledX (toS32 (toU32 (fbStride - fbWidth)))) }, ?_⟩
  unfold Renderer.presentXFB Renderer.DumpCurrentFrame
  dsimp only
  split
  · rename_i h
    refine ⟨?_, rfl, fun _ => rfl, rfl⟩
    simp only [List.append_assoc, List.singleton_append]
    rfl
  · rename_i h
    refine ⟨?_, rfl, fun h2 => absurd h2 h, rfl⟩
    simp only [List.append_assoc, List.singleton_append, List.append_nil]
    rfl

/-- What a `Swap` with enough fuel does to the frame-dump state: the renderer is flushed (after
the aspect update, which touches neither the trace nor the dump members), then the
presentation events are appended. -/
theorem Swap_dump_core (X : Externals) (env : SwapEnv) (fuel : Nat) (hfuel : 3 ≤ fuel)
    (r : Renderer) (xfbAddr fbWidth fbStride fbHeight ticks : Nat) :
    ∃ r0 : Renderer,
      (r0.trace = r.trace ∧ r0.m_last_frame_exported = r.m_last_frame_exported ∧
        r0.m_last_frame_state = r.m_last_frame_state ∧
        r0.m_frame_dump_frame_running = r.m_frame_dump_frame_running ∧
        Renderer.FlushFrameDump env fuel r0 = some (r0.flushResult env)) ∧
      ∃ r1, r.Swap X env fuel xfbAddr fbWidth fbStride fbHeight ticks = some r1 ∧
        r1.m_frame_dump_frame_running = (r0.flushResult env).m_frame_dump_frame_running ∧
        ∃ seg, r1.trace = (r0.flushResult env).trace ++ seg ∧
          (∀ e ∈ seg, e.isFlushEvent = false ∧ e.isNeutral = true) ∧
          seg.count Event.dumpCurrentFrame ≤ 1 ∧
          (r.presentsOn env xfbAddr fbWidth fbStride fbHeight ∧
              Renderer.IsFrameDumping env = true →
            r1.m_last_frame_exported = true ∧ r1.m_last_frame_state = ticks ∧
              seg.count Event.dumpCurrentFrame = 1) ∧
          (¬ (r.presentsOn env xfbAddr fbWidth fbStride fbHeight ∧
                Renderer.IsFrameDumping env = true) →
            r1.m_last_frame_exported = false ∧ seg.count Event.dumpCurrentFrame = 0) := by
  unfold Renderer.Swap
  dsimp only
  generalize hr0 : (if ¬ env.bWii = true then
      if r.m_aspect_wide = true then
        { r with
          m_aspect_wide :=
            !decide (4 * env.flush_count_4_3 >
              3 * (env.flush_count_4_3 + env.flush_count_anamorphic)) }
      else
        { r with
          m_aspect_wide :=
            decide (4 * env.flush_count_anamorphic >
              3 * (env.flush_count_4_3 + env.flush_count_anamorphic)) }
    else r) = r0
  have hv0 : r0.trace = r.trace ∧ r0.m_last_frame_exported = r.m_last_frame_exported ∧
      r0.m_last_frame_state = r.m_last_frame_state ∧
      r0.m_frame_dump_frame_running = r.m_frame_dump_frame_running ∧
      r0.m_last_xfb_id = r.m_last_xfb_id := by
    rw [← hr0]
    split_ifs <;> exact ⟨rfl, rfl, rfl, rfl, rfl⟩
  have hfl := FlushFrameDump_eq env fuel hfuel r0
  have hid : (r0.flushResult env).m_last_xfb_id = r.m_last_xfb_id := by
    have := (FlushFrameDump_xfbView env fuel).1 _ _ hfl
    simp only [Renderer.xfbView, Prod.mk.injEq] at this
    exact this.1.trans hv0.2.2.2.2
  have hexf := flushResult_exported env r0
  refine ⟨r0, ⟨hv0.1, hv0.2.1, hv0.2.2.1, hv0.2.2.2.1, hfl⟩, ?_⟩
  rw [hfl]
  dsimp only
  generalize r0.flushResult env = rf at hid hexf ⊢
  refine ⟨_, rfl, ?_⟩
  have hkeep : ∀ b : Renderer, b.trace = rf.trace →
      b.m_last_frame_exported = rf.m_last_frame_exported →
      b.m_frame_dump_frame_running = rf.m_frame_dump_frame_running →
      ¬ r.presentsOn env xfbAddr fbWidth fbStride fbHeight →
      b.m_frame_dump_frame_running = rf.m_frame_dump_frame_running ∧
        ∃ seg, b.trace ++ [Event.videoCopiedToXFB false] = rf.trace ++ seg ∧
          (∀ e ∈ seg, e.isFlushEvent = false ∧ e.isNeutral = true) ∧
          seg.count Event.dumpCurrentFrame ≤ 1 ∧
          (r.presentsOn env xfbAddr fbWidth fbStride fbHeight ∧
              Renderer.IsFrameDumping env = true →
            b.m_last_frame_exported = true ∧ b.m_last_frame_state = ticks ∧
              seg.count Event.dumpCurrentFrame = 1) ∧
          (¬ (r.presentsOn env xfbAddr fbWidth fbStride fbHeight ∧
                Renderer.IsFrameDumping env = true) →
            b.m_last_frame_exported = false ∧ seg.count Event.dumpCurrentFrame = 0) := by
    intro b hbt hbe hbr hnot
    refine ⟨hbr, [Event.videoCopiedToXFB false], by rw [hbt], ?_, by decide, ?_, ?_⟩
    · intro e he
      rw [List.mem_singleton] at he
      subst he
      exact ⟨rfl, rfl⟩
    · intro hp
      exact absurd hp.1 hnot
    · intro _
      exact ⟨hbe.trans hexf, by decide⟩
  by_cases hz : xfbAddr ≠ 0 ∧ fbWidth ≠ 0 ∧ fbStride ≠ 0 ∧ fbHeight ≠ 0
  · rw [if_pos hz]
    cases he : env.GetXFBTexture xfbAddr fbStride fbHeight with
    | none =>
      dsimp only
      refine hkeep _ rfl rfl rfl ?_
      rintro ⟨_, _, _, _, e, he2, _⟩
      rw [he] at he2
      cases he2
    | some e =>
      dsimp only
      by_cases hne : e.id ≠ rf.m_last_xfb_id
      · rw [if_pos hne]
        dsimp only
        obtain ⟨R, ptr, pex, pst, prun⟩ := presentXFB_dump env rf e fbWidth fbStride ticks
        have hpres : r.presentsOn env xfbAddr fbWidth fbStride fbHeight :=
          ⟨hz.1, hz.2.1, hz.2.2.1, hz.2.2.2, e, he, by rw [← hid]; exact hne⟩
        refine ⟨prun, ?_⟩
        by_cases hd : Renderer.IsFrameDumping env = true
        · rw [if_pos hd] at ptr pex
          refine ⟨[Event.swapImpl e.texture R ticks, Event.fpsUpdate, Event.dumpCurrentFrame,
            Event.videoCopiedToXFB true], ?_, ?_, by simp [List.count_cons], ?_, ?_⟩
          · show (rf.presentXFB env e fbWidth fbStride ticks).trace ++ _ = _
            rw [ptr]
            simp
          · intro x hx
            simp only [List.mem_cons, List.mem_singleton, List.not_mem_nil, or_false] at hx
            rcases hx with h | h | h | h <;> subst h <;> exact ⟨rfl, rfl⟩
          · intro _
            exact ⟨pex, pst hd, by simp [List.count_cons]⟩
          · intro hn
            exact absurd ⟨hpres, hd⟩ hn
        · rw [if_neg hd] at ptr pex
          refine ⟨[Event.swapImpl e.texture R ticks, Event.fpsUpdate,
            Event.videoCopiedToXFB true], ?_, ?_, by simp [List.count_cons], ?_, ?_⟩
          · show (rf.presentXFB env e fbWidth fbStride ticks).trace ++ _ = _
            rw [ptr]
            simp
          · intro x hx
            simp only [List.mem_cons, List.mem_singleton, List.not_mem_nil, or_false] at hx
            rcases hx with h | h | h <;> subst h <;> exact ⟨rfl, rfl⟩
          · intro hp
            exact absurd hp.2 hd
          · intro _
            exact ⟨pex.trans hexf, by simp [List.count_cons]⟩
      · rw [if_neg hne]
        dsimp only
        refine hkeep _ rfl rfl rfl ?_
        rintro ⟨_, _, _, _, e2, he2, hne2⟩
        rw [he] at he2
        cases he2
        exact hne (by rw [hid]; exact hne2)
  · rw [if_neg hz]
    refine hkeep _ rfl rfl rfl ?_
    rintro ⟨h1, h2, h3, h4, _⟩
    exact hz ⟨h1, h2, h3, h4⟩

theorem DumpFrameData_trace_head (r : Renderer) (state : Nat) :
    ∃ seg, (r.DumpFrameData state).trace = r.trace ++ Event.dumpFrameData state :: seg := by
  unfold Renderer.DumpFrameData
  dsimp only
  split_ifs
  · exact ⟨[Event.signalStart], by simp⟩
  · exact ⟨[Event.joinWorker, Event.startWorker, Event.signalStart], by simp⟩
  · exact ⟨[Event.startWorker, Event.signalStart], by simp⟩

theorem flushBody_dump_mem (env : SwapEnv) (r : Renderer) (hmap : env.mapSucceeds = true) :
    ∃ pre post, (r.flushBody env).trace =
      r.trace ++ (pre ++ Event.dumpFrameData r.m_last_frame_state :: post) := by
  obtain ⟨s1, hs1, -⟩ := FinishFrameData_traceExt r
  obtain ⟨seg, hseg⟩ := DumpFrameData_trace_head
    { r.FinishFrameData with trace := r.FinishFrameData.trace ++ [Event.mapReadback] }
    r.FinishFrameData.m_last_frame_state
  refine ⟨s1 ++ [Event.mapReadback], seg, ?_⟩
  unfold Renderer.flushBody
  dsimp only
  rw [if_pos hmap]
  show (Renderer.DumpFrameData _ _).trace = _
  rw [hseg]
  show (r.FinishFrameData.trace ++ [Event.mapReadback]) ++ _ = _
  rw [hs1, (FinishFrameData_fields r).1]
  simp

theorem flushResult_dump_mem (env : SwapEnv) (r : Renderer)
    (hexp : r.m_last_frame_exported = true) (hmap : env.mapSucceeds = true) :
    ∃ pre post, (r.flushResult env).trace =
      r.trace ++ (pre ++ Event.dumpFrameData r.m_last_frame_state :: post) := by
  obtain ⟨pre, post, hb⟩ := flushBody_dump_mem env r hmap
  unfold Renderer.flushResult
  rw [if_neg (by simpa using hexp)]
  split
  · obtain ⟨s2, hs2, -⟩ := shutdownTail_traceExt (r.flushBody env)
    refine ⟨pre, post ++ s2, ?_⟩
    rw [hs2, hb]
    simp
  · exact ⟨pre, post, hb⟩

/-- C11: frame dumping lags one frame. A `Swap` with enough fuel returns, and its trace is the
old trace, then a flush segment, then a presentation segment. The flush segment holds
frame-dump events only and hands to the encoder only the frame that was queued before this
`Swap` (and does hand it over when one was queued and the readback maps); the presentation
segment holds no frame-dump event, so the frame presented by this `Swap` is not encoded by it.
After the `Swap`, `m_last_frame_exported` is set exactly when a new XFB was presented while
dumping is active, in which case the current frame was queued exactly once with the state of
`ticks`; otherwise nothing was queued. `FlushFrameDump` itself, from any renderer, returns with
`m_last_frame_exported` false after appending such a flush segment. -/
theorem Swap_frame_dump_lags_one_frame (X : Externals) (env : SwapEnv) (fuel : Nat)
    (hfuel : 3 ≤ fuel) (r : Renderer) (xfbAddr fbWidth fbStride fbHeight ticks : Nat) :
    (∃ r1 flushSeg presentSeg,
      r.Swap X env fuel xfbAddr fbWidth fbStride fbHeight ticks = some r1 ∧
      r1.trace = r.trace ++ flushSeg ++ presentSeg ∧
      r.FlushSegment flushSeg ∧
      (r.m_last_frame_exported = true → env.mapSucceeds = true →
        Event.dumpFrameData r.m_last_frame_state ∈ flushSeg) ∧
      (∀ e ∈ presentSeg, e.isFlushEvent = false) ∧
      presentSeg.count Event.dumpCurrentFrame ≤ 1 ∧
      (r1.m_last_frame_exported = true ↔
        r.presentsOn env xfbAddr fbWidth fbStride fbHeight ∧
          Renderer.IsFrameDumping env = true) ∧
      (r1.m_last_frame_exported = true →
        r1.m_last_frame_state = ticks ∧ presentSeg.count Event.dumpCurrentFrame = 1) ∧
      (r1.m_last_frame_exported = false → presentSeg.count Event.dumpCurrentFrame = 0)) ∧
    ∀ r2 : Renderer, ∃ rf, Renderer.FlushFrameDump env fuel r2 = some rf ∧
      rf.m_last_frame_exported = false ∧
      ∃ seg, rf.trace = r2.trace ++ seg ∧ r2.FlushSegment seg := by
  refine ⟨?_, fun r2 => ⟨_, FlushFrameDump_eq env fuel hfuel r2, flushResult_exported env r2,
    flushResult_trace env r2⟩⟩
  obtain ⟨r0, ⟨h0t, h0e, h0s, -, -⟩, r1, hswap, -, pseg, hpt, hpn, hpc, hyes, hno⟩ :=
    Swap_dump_core X env fuel hfuel r xfbAddr fbWidth fbStride fbHeight ticks
  obtain ⟨fseg, hft, hfs⟩ := flushResult_trace env r0
  refine ⟨r1, fseg, pseg, hswap, ?_, ?_, ?_, fun e he => (hpn e he).1, hpc, ?_, ?_, ?_⟩
  · rw [hpt, hft, h0t]
  · intro e he
    obtain ⟨a, b⟩ := hfs e he
    refine ⟨a, fun s hs => ?_⟩
    obtain ⟨c, d⟩ := b s hs
    exact ⟨h0e ▸ c, h0s ▸ d⟩
  · intro hexp hmap
    obtain ⟨pre, post, hm⟩ := flushResult_dump_mem env r0 (h0e.trans hexp) hmap
    rw [hft] at hm
    have := List.append_cancel_left hm
    rw [this, h0s]
    simp
  · constructor
    · intro h
      by_contra hn
      rw [(hno hn).1] at h
      cases h
    · intro h
      exact (hyes h).1
  · intro h
    by_cases hp : r.presentsOn env xfbAddr fbWidth fbStride fbHeight ∧
        Renderer.IsFrameDumping env = true
    · exact ⟨(hyes hp).2.1, (hyes hp).2.2⟩
    · rw [(hno hp).1] at h
      cases h
  · intro h
    by_cases hp : r.presentsOn env xfbAddr fbWidth fbStride fbHeight ∧
        Renderer.IsFrameDumping env = true
    · rw [(hyes hp).1] at h
      cases h
    · exact (hno hp).2

theorem Swap_frame_dump_lags_one_frame_witness :
    3 ≤ 3 ∧
      ∃ r1 flushSeg presentSeg,
        pendingRenderer.Swap gcExternals (dumpingEnv 5) 3 0x1000 640 640 480 100 = some r1 ∧
        r1.trace = pendingRenderer.trace ++ flushSeg ++ presentSeg ∧
        Event.dumpFrameData 7 ∈ flushSeg ∧
        (∀ e ∈ presentSeg, e.isFlushEvent = false) ∧
        r1.m_last_frame_state = 100 :=
  ⟨by decide,
    by
      obtain ⟨r1, fs, ps, h1, h2, -, h4, h5, -, h7, h8, -⟩ :=
        (Swap_frame_dump_lags_one_frame gcExternals (dumpingEnv 5) 3 (by decide) pendingRenderer
          0x1000 640 640 480 100).1
      have hp : pendingRenderer.presentsOn (dumpingEnv 5) 0x1000 640 640 480 ∧
          Renderer.IsFrameDumping (dumpingEnv 5) = true :=
        ⟨⟨by decide, by decide, by decide, by decide, _, rfl, by decide⟩, rfl⟩
      exact ⟨r1, fs, ps, h1, h2, h4 rfl rfl, h5, (h8 (h7.2 hp)).1⟩⟩

/-- C12: no frame is handed to the dump worker while another one is in flight.
`FinishFrameData` always returns with `m_frame_dump_frame_running` false and `DumpFrameData`
with it true. From a renderer whose bookkeeping is consistent (the trace shows no hand-over
during a flight and the flag tells whether a frame is in flight), `FlushFrameDump`,
`ShutdownFrameDumping` and `Swap` return a renderer whose bookkeeping is consistent, so every
hand-over recorded in the trace happened with the flag false. The events that `Swap` appends
after its flush, and those that `ShutdownFrameDumping` appends after its flush, contain no
hand-over: `DumpFrameData` is reached through `FlushFrameDump` only. -/
theorem DumpFrameData_only_when_idle (X : Externals) (env : SwapEnv) (fuel : Nat)
    (hfuel : 3 ≤ fuel) (r : Renderer) (h : r.DumpConsistent)
    (xfbAddr fbWidth fbStride fbHeight ticks : Nat) :
    (∀ r2 : Renderer, r2.FinishFrameData.m_frame_dump_frame_running = false) ∧
    (∀ (r2 : Renderer) (s : Nat), (r2.DumpFrameData s).m_frame_dump_frame_running = true) ∧
    (∃ rf, Renderer.FlushFrameDump env fuel r = some rf ∧ rf.DumpConsistent ∧
      ∃ rs tail, Renderer.ShutdownFrameDumping env (fuel + 1) r = some rs ∧
        rs.DumpConsistent ∧ rs.trace = rf.trace ++ tail ∧
        ∀ e ∈ tail, ∀ s, e ≠ Event.dumpFrameData s) ∧
    (∃ r0 rf r1 seg, r0.trace = r.trace ∧
      r0.m_frame_dump_frame_running = r.m_frame_dump_frame_running ∧
      Renderer.FlushFrameDump env fuel r0 = some rf ∧
      r.Swap X env fuel xfbAddr fbWidth fbStride fbHeight ticks = some r1 ∧
      r1.DumpConsistent ∧ r1.trace = rf.trace ++ seg ∧
      ∀ e ∈ seg, ∀ s, e ≠ Event.dumpFrameData s) := by
  refine ⟨fun r2 => (FinishFrameData_fields r2).2.2.2.2, fun r2 s => (DumpFrameData_fields r2 s).1,
    ?_, ?_⟩
  · refine ⟨_, FlushFrameDump_eq env fuel hfuel r, flushResult_consistent env r h, ?_⟩
    obtain ⟨tail, ht, hp⟩ := shutdownTail_traceExt (r.flushResult env)
    refine ⟨_, tail, ShutdownFrameDumping_of_flush env fuel r _ (FlushFrameDump_eq env fuel hfuel r),
      shutdownTail_consistent _ (flushResult_consistent env r h), ht, ?_⟩
    intro e he s hs
    subst hs
    rcases hp _ he with h1 | h1 | h1 <;> cases h1
  · obtain ⟨r0, ⟨h0t, -, -, h0r, hfl⟩, r1, hswap, hrun, seg, hpt, hpn, -⟩ :=
      Swap_dump_core X env fuel hfuel r xfbAddr fbWidth fbStride fbHeight ticks
    have hc0 : r0.DumpConsistent := by
      unfold Renderer.DumpConsistent at *
      rw [h0t, h0r]
      exact h
    refine ⟨r0, _, r1, seg, h0t, h0r, hfl, hswap, ?_, hpt, ?_⟩
    · exact DumpConsistent_of_neutral _ r1 seg hpt (fun e he => (hpn e he).2) hrun
        (flushResult_consistent env r0 hc0)
    · intro e he s hs
      subst hs
      have := (hpn _ he).1
      cases this

theorem DumpFrameData_only_when_idle_witness :
    3 ≤ 3 ∧ pendingRenderer.DumpConsistent ∧
      ∃ rf, Renderer.FlushFrameDump (dumpingEnv 5) 3 pendingRenderer = some rf ∧
        rf.DumpConsistent :=
  ⟨by decide, rfl,
    (DumpFrameData_only_when_idle gcExternals (dumpingEnv 5) 3 (by decide) pendingRenderer rfl
      0x1000 640 640 480 100).2.2.1.imp (fun _ hx => ⟨hx.1, hx.2.1⟩)⟩
/-! ## Texture copies and loads -/

/-- C14 (counterexample): the D3D and Software `Load` report nothing when level 5 of a
one-level 64x64 texture is loaded with a 3x7 image. -/
theorem D3D_SW_Load_report_nothing :
    5 ≥ sampleTextureConfig.levels ∧
      (D3D.DXTexture.Load sampleTextureConfig 5 3 7 3 84).any LoadCall.isReport = false ∧
      (SW.SWTexture.Load sampleTextureConfig 5 3 7 3 84).any LoadCall.isReport = false := by
  decide

/-- C14 (amended): the OGL `Load`, for a level below 32, reports an error exactly when
`level >= config.levels`, or `width != max(1, config.width >> level)`, or
`height != max(1, config.height >> level)`, and uploads in every case; the D3D and Software
`Load` upload without any check and never report. -/
theorem Load_validation (m_config : TextureConfig) (level width height row_length : Nat)
    (buffer_size : Nat) (_hlevel : level < 32) :
    ((OGL.OGLTexture.Load m_config level width height row_length buffer_size).any
        LoadCall.isReport = true ↔
      (level ≥ m_config.levels ∨ width ≠ max 1 (m_config.width >>> level) ∨
        height ≠ max 1 (m_config.height >>> level))) ∧
    LoadCall.glTexSubImage level width height row_length ∈
      OGL.OGLTexture.Load m_config level width height row_length buffer_size ∧
    D3D.DXTexture.Load m_config level width height row_length buffer_size =
      [LoadCall.UpdateSubresource level row_length] ∧
    SW.SWTexture.Load m_config level width height row_length buffer_size =
      [LoadCall.assign buffer_size] := by
  refine ⟨?_, ?_, rfl, rfl⟩
  · unfold OGL.OGLTexture.Load mipExtent
    dsimp only
    split_ifs with h1 h2 h2 <;> simp [LoadCall.isReport, h1, h2]
  · unfold OGL.OGLTexture.Load
    simp

theorem Load_validation_witness :
    (0 < 32) ∧
      ((OGL.OGLTexture.Load sampleTextureConfig 0 64 64 64 16384).any LoadCall.isReport = true ↔
        (0 ≥ sampleTextureConfig.levels ∨ 64 ≠ max 1 (sampleTextureConfig.width >>> 0) ∨
          64 ≠ max 1 (sampleTextureConfig.height >>> 0))) :=
  ⟨by decide, (Load_validation sampleTextureConfig 0 64 64 64 16384 (by decide)).1⟩
/-! ## D3D texture creation -/

/-- C15 (failing input): with a device whose `CreateTexture2D` fails, `CreateStagingTexture`
returns the null pointer, but `CreateTexture` for a texture that is not a render target
returns an object, wrapping the pointer of the failed allocation. -/
theorem D3D_CreateTexture_wraps_failed_allocation :
    failingDevice.CreateTexture2D
        { format := 0, width := 64, height := 64, arraySize := 1, mipLevels := 1
          shaderResource := true, usage := D3D11_USAGE.DEFAULT, cpuRead := false
          cpuWrite := false } = none ∧
      (D3D.Renderer.CreateStagingTexture failingDevice StagingTextureType.Readback
        sampleTextureConfig).1 = none ∧
      (D3D.Renderer.CreateTexture failingDevice sampleTextureConfig).1 =
        some { m_config := sampleTextureConfig, m_texture := none } := by
  decide

/-! ## Staging textures -/

theorem D3D_Map_mapped (sr : D3D11_MAPPED) (t : D3D.DXStagingTexture)
    (h : t.m_map_pointer ≠ 0) : D3D.DXStagingTexture.Map sr t = (true, t) := by
  unfold D3D.DXStagingTexture.Map
  rw [if_pos h]

theorem D3D_Unmap_unmapped (t : D3D.DXStagingTexture) (h : t.m_map_pointer = 0) :
    D3D.DXStagingTexture.Unmap t = t := by
  unfold D3D.DXStagingTexture.Unmap
  rw [if_pos (by simpa using h)]

theorem OGL_Map_mapped (mapped : Nat) (t : OGL.OGLStagingTexture)
    (h : t.m_map_pointer ≠ 0) : OGL.OGLStagingTexture.Map mapped t = (true, t) := by
  unfold OGL.OGLStagingTexture.Map
  rw [if_pos h]

theorem OGL_Unmap_unmapped (persistent : Bool) (t : OGL.OGLStagingTexture)
    (h : t.m_map_pointer = 0) : OGL.OGLStagingTexture.Unmap persistent t = t := by
  unfold OGL.OGLStagingTexture.Unmap
  rw [if_pos (Or.inl (by simpa using h))]

/-- C16: staging-texture `Map` and `Unmap` are idempotent in the D3D, OGL and Software
backends. `Map` on a mapped texture returns true and leaves the whole object as it is, without
a native map, whatever the native map would answer; `Unmap` on an unmapped texture leaves the
object as it is. `Unmap` after `Unmap` equals `Unmap`. A second `Map` after a `Map` that
returned a non-null mapping changes nothing, and for one and the same native answer the mapped
pointer and stride after `Map`, `Map` are those after `Map`, with the same return value. -/
theorem staging_Map_Unmap_idempotent (sr sr2 : D3D11_MAPPED) (mapped mapped2 : Nat)
    (persistent : Bool) (d : D3D.DXStagingTexture) (o : OGL.OGLStagingTexture)
    (s : SW.SWStagingTexture) :
    ((d.m_map_pointer ≠ 0 → D3D.DXStagingTexture.Map sr d = (true, d)) ∧
      (d.m_map_pointer = 0 → D3D.DXStagingTexture.Unmap d = d) ∧
      D3D.DXStagingTexture.Unmap (D3D.DXStagingTexture.Unmap d) = D3D.DXStagingTexture.Unmap d ∧
      ((D3D.DXStagingTexture.Map sr d).2.m_map_pointer ≠ 0 →
        D3D.DXStagingTexture.Map sr2 (D3D.DXStagingTexture.Map sr d).2 =
          (true, (D3D.DXStagingTexture.Map sr d).2)) ∧
      (D3D.DXStagingTexture.Map sr (D3D.DXStagingTexture.Map sr d).2).1 =
        (D3D.DXStagingTexture.Map sr d).1 ∧
      (D3D.DXStagingTexture.Map sr (D3D.DXStagingTexture.Map sr d).2).2.m_map_pointer =
        (D3D.DXStagingTexture.Map sr d).2.m_map_pointer ∧
      (D3D.DXStagingTexture.Map sr (D3D.DXStagingTexture.Map sr d).2).2.m_map_stride =
        (D3D.DXStagingTexture.Map sr d).2.m_map_stride) ∧
    ((o.m_map_pointer ≠ 0 → OGL.OGLStagingTexture.Map mapped o = (true, o)) ∧
      (o.m_map_pointer = 0 → OGL.OGLStagingTexture.Unmap persistent o = o) ∧
      OGL.OGLStagingTexture.Unmap persistent (OGL.OGLStagingTexture.Unmap persistent o) =
        OGL.OGLStagingTexture.Unmap persistent o ∧
      ((OGL.OGLStagingTexture.Map mapped o).2.m_map_pointer ≠ 0 →
        OGL.OGLStagingTexture.Map mapped2 (OGL.OGLStagingTexture.Map mapped o).2 =
          (true, (OGL.OGLStagingTexture.Map mapped o).2)) ∧
      (OGL.OGLStagingTexture.Map mapped (OGL.OGLStagingTexture.Map mapped o).2).1 =
        (OGL.OGLStagingTexture.Map mapped o).1 ∧
      (OGL.OGLStagingTexture.Map mapped (OGL.OGLStagingTexture.Map mapped o).2).2.m_map_pointer =
        (OGL.OGLStagingTexture.Map mapped o).2.m_map_pointer ∧
      (OGL.OGLStagingTexture.Map mapped (OGL.OGLStagingTexture.Map mapped o).2).2.m_map_stride =
        (OGL.OGLStagingTexture.Map mapped o).2.m_map_stride) ∧
    (SW.SWStagingTexture.Map s = (true, s) ∧ SW.SWStagingTexture.Unmap s = s ∧
      SW.SWStagingTexture.Map (SW.SWStagingTexture.Map s).2 = SW.SWStagingTexture.Map s ∧
      SW.SWStagingTexture.Unmap (SW.SWStagingTexture.Unmap s) = SW.SWStagingTexture.Unmap s) := by
  refine ⟨⟨D3D_Map_mapped sr d, D3D_Unmap_unmapped d, ?_, fun h => D3D_Map_mapped sr2 _ h,
    ?_, ?_, ?_⟩, ⟨OGL_Map_mapped mapped o, OGL_Unmap_unmapped persistent o, ?_,
    fun h => OGL_Map_mapped mapped2 _ h, ?_, ?_, ?_⟩, rfl, rfl, rfl, rfl⟩
  · by_cases h : d.m_map_pointer = 0
    · rw [D3D_Unmap_unmapped d h, D3D_Unmap_unmapped d h]
    · apply D3D_Unmap_unmapped
      unfold D3D.DXStagingTexture.Unmap
      rw [if_neg (by simpa using h)]
  · by_cases h : d.m_map_pointer = 0 <;> by_cases h2 : sr.succeeded = true <;>
      by_cases h3 : sr.pData = 0 <;> simp [D3D.DXStagingTexture.Map, h, h2, h3]
  · by_cases h : d.m_map_pointer = 0 <;> by_cases h2 : sr.succeeded = true <;>
      by_cases h3 : sr.pData = 0 <;> simp [D3D.DXStagingTexture.Map, h, h2, h3]
  · by_cases h : d.m_map_pointer = 0 <;> by_cases h2 : sr.succeeded = true <;>
      by_cases h3 : sr.pData = 0 <;> simp [D3D.DXStagingTexture.Map, h, h2, h3]
  · by_cases h : o.m_map_pointer = 0
    · rw [OGL_Unmap_unmapped persistent o h, OGL_Unmap_unmapped persistent o h]
    · cases persistent
      · apply OGL_Unmap_unmapped
        unfold OGL.OGLStagingTexture.Unmap
        rw [if_neg (by simpa using h)]
      · simp [OGL.OGLStagingTexture.Unmap]
  · by_cases h : o.m_map_pointer = 0 <;> by_cases h3 : mapped = 0 <;>
      simp [OGL.OGLStagingTexture.Map, h, h3]
  · by_cases h : o.m_map_pointer = 0 <;> by_cases h3 : mapped = 0 <;>
      simp [OGL.OGLStagingTexture.Map, h, h3]
  · by_cases h : o.m_map_pointer = 0 <;> by_cases h3 : mapped = 0 <;>
      simp [OGL.OGLStagingTexture.Map, h, h3]

theorem staging_Map_Unmap_idempotent_witness :
    mappedDXStaging.m_map_pointer ≠ 0 ∧
      D3D.DXStagingTexture.Map ⟨true, 8192, 512⟩ mappedDXStaging = (true, mappedDXStaging) ∧
      sampleDXStaging.m_map_pointer = 0 ∧
      D3D.DXStagingTexture.Unmap sampleDXStaging = sampleDXStaging :=
  have h := (staging_Map_Unmap_idempotent ⟨true, 8192, 512⟩ ⟨true, 8192, 512⟩ 0 0 false
    mappedDXStaging
    { m_type := StagingTextureType.Readback, m_config := sampleTextureConfig
      m_buffer_name := 1, m_buffer_size := 16384 }
    { m_type := StagingTextureType.Readback, m_config := sampleTextureConfig
      m_map_pointer := 1, m_map_stride := 256 }).1
  have h2 := (staging_Map_Unmap_idempotent ⟨true, 8192, 512⟩ ⟨true, 8192, 512⟩ 0 0 false
    sampleDXStaging
    { m_type := StagingTextureType.Readback, m_config := sampleTextureConfig
      m_buffer_name := 1, m_buffer_size := 16384 }
    { m_type := StagingTextureType.Readback, m_config := sampleTextureConfig
      m_map_pointer := 1, m_map_stride := 256 }).1
  ⟨by decide, h.1 (by decide), rfl, h2.2.1 rfl⟩
/-! ## Encoding shader cache -/

theorem StartFrameDumpToImage_result (env : DumpEnv) (w : DumpWorker) :
    (Renderer.StartFrameDumpToImage env w).1 = false ↔
      (env.m_DumpFramesSilent = false ∧ env.fileExists = true ∧ env.AskYesNoT = false) := by
  obtain ⟨a, b, c, d, e⟩ := env
  cases c <;> cases d <;> cases e <;> simp [Renderer.StartFrameDumpToImage]

/-- C18: a failed start of the frame dump switches dumping off without blocking the main
thread. In an iteration of the worker loop with `m_DumpFrames` set and the dump not yet
started, if the start function of the chosen kind returns false, then after the iteration
`m_DumpFrames` is off, the dump is still not started, no frame was written, and the last thing
the worker did was to signal `m_frame_dump_done`. Every iteration ends with that signal.
`StartFrameDumpToImage` returns false exactly when the silent flag is off, the first image
file exists and the user declines to overwrite it. -/
theorem RunFrameDumps_failed_start (env : DumpEnv) (w : DumpWorker)
    (hdump : w.m_DumpFrames = true) (hnot : w.frame_dump_started = false)
    (hfail : (if w.dump_to_avi = true then Renderer.StartFrameDumpToAVI env
      else (Renderer.StartFrameDumpToImage env w).1) = false) :
    (Renderer.RunFrameDumps_iteration env w).m_DumpFrames = false ∧
      (Renderer.RunFrameDumps_iteration env w).frame_dump_started = false ∧
      (∃ seg, (Renderer.RunFrameDumps_iteration env w).events =
          w.events ++ seg ++ [WorkerEvent.frameDumpDone] ∧
        ∀ e ∈ seg, e.writesFrame = false) ∧
      (∀ w2 : DumpWorker, (Renderer.RunFrameDumps_iteration env w2).events.getLast? =
        some WorkerEvent.frameDumpDone) ∧
      (∀ w2 : DumpWorker, (Renderer.StartFrameDumpToImage env w2).1 = false ↔
        (env.m_DumpFramesSilent = false ∧ env.fileExists = true ∧ env.AskYesNoT = false)) := by
  refine ⟨?_, ?_, ?_, ?_, StartFrameDumpToImage_result env⟩
  · obtain ⟨avi, st, df, sr, cnt, ev⟩ := w
    obtain ⟨a, b, c, d, e⟩ := env
    simp only at hdump hnot
    subst hdump hnot
    cases avi <;> cases sr <;> cases a <;> cases b <;> cases c <;> cases d <;> cases e <;>
      simp [Renderer.StartFrameDumpToAVI, Renderer.StartFrameDumpToImage] at hfail <;>
      simp [Renderer.RunFrameDumps_iteration, Renderer.StartFrameDumpToAVI,
        Renderer.StartFrameDumpToImage]
  · obtain ⟨avi, st, df, sr, cnt, ev⟩ := w
    obtain ⟨a, b, c, d, e⟩ := env
    simp only at hdump hnot
    subst hdump hnot
    cases avi <;> cases sr <;> cases a <;> cases b <;> cases c <;> cases d <;> cases e <;>
      simp [Renderer.StartFrameDumpToAVI, Renderer.StartFrameDumpToImage] at hfail <;>
      simp [Renderer.RunFrameDumps_iteration, Renderer.StartFrameDumpToAVI,
        Renderer.StartFrameDumpToImage]
  · refine ⟨(if w.m_screenshot_request = true then
        [WorkerEvent.TextureToPng, WorkerEvent.screenshotCompleted] else []) ++
      (if w.dump_to_avi = false ∧ env.m_DumpFramesSilent = false ∧ env.fileExists = true then
        [WorkerEvent.AskYesNoT] else []), ?_, ?_⟩
    · obtain ⟨avi, st, df, sr, cnt, ev⟩ := w
      obtain ⟨a, b, c, d, e⟩ := env
      simp only at hdump hnot
      subst hdump hnot
      cases avi <;> cases sr <;> cases a <;> cases b <;> cases c <;> cases d <;> cases e <;>
        simp [Renderer.StartFrameDumpToAVI, Renderer.StartFrameDumpToImage] at hfail <;>
        simp [Renderer.RunFrameDumps_iteration, Renderer.StartFrameDumpToAVI,
          Renderer.StartFrameDumpToImage]
    · intro e he
      rw [List.mem_append] at he
      rcases he with he | he
      · split_ifs at he
        · simp only [List.mem_cons, List.mem_singleton, List.not_mem_nil, or_false] at he
          rcases he with he | he <;> subst he <;> rfl
        · cases he
      · split_ifs at he
        · rw [List.mem_singleton] at he
          subst he
          rfl
        · cases he
  · intro w2
    unfold Renderer.RunFrameDumps_iteration
    simp

theorem RunFrameDumps_failed_start_witness :
    (Renderer.RunFrameDumps_init decliningEnv true true).m_DumpFrames = true ∧
      (Renderer.RunFrameDumps_iteration decliningEnv
        (Renderer.RunFrameDumps_init decliningEnv true true)).m_DumpFrames = false ∧
      (Renderer.RunFrameDumps_iteration decliningEnv
        (Renderer.RunFrameDumps_init decliningEnv true true)).events =
          [WorkerEvent.AskYesNoT, WorkerEvent.frameDumpDone] :=
  ⟨rfl,
    (RunFrameDumps_failed_start decliningEnv (Renderer.RunFrameDumps_init decliningEnv true true)
      rfl rfl rfl).1, rfl⟩

/-! ## D3D EFB targets -/

/-- C19: `SwapReinterpretTexture` exchanges the live and temp colour targets together with
their integer render-target views and leaves every other member of the EFB state as it is;
the views stay paired with their textures exactly when they were before; and two successive
swaps give back the original state. -/
theorem SwapReinterpretTexture_exchanges (textureOf : Nat → Nat) (m_efb : D3D.Efb) :
    D3D.FramebufferManager.SwapReinterpretTexture m_efb =
        { m_efb with
          color_tex := m_efb.color_temp_tex
          color_temp_tex := m_efb.color_tex
          color_int_rtv := m_efb.color_temp_int_rtv
          color_temp_int_rtv := m_efb.color_int_rtv } ∧
      ((D3D.FramebufferManager.SwapReinterpretTexture m_efb).Paired textureOf ↔
        m_efb.Paired textureOf) ∧
      D3D.FramebufferManager.SwapReinterpretTexture
        (D3D.FramebufferManager.SwapReinterpretTexture m_efb) = m_efb := by
  refine ⟨rfl, ?_, rfl⟩
  unfold D3D.Efb.Paired D3D.FramebufferManager.SwapReinterpretTexture
  exact ⟨fun h => ⟨h.2, h.1⟩, fun h => ⟨h.2, h.1⟩⟩

/-! ## Texture cache references -/

theorem CreateReference_mem (refs : References) (a b x y : Nat) :
    y ∈ TCacheEntry.CreateReference refs a b x ↔
      (y ∈ refs x ∨ (x = a ∧ y = b) ∨ (x = b ∧ y = a)) := by
  unfold TCacheEntry.CreateReference
  simp only [Function.update_apply]
  by_cases hab : a = b
  · subst hab
    by_cases hxa : x = a
    · subst hxa
      simp [Finset.mem_insert]
      tauto
    · simp [hxa, Finset.mem_insert]
  · have hba : ¬ b = a := fun h => hab h.symm
    by_cases hxb : x = b
    · subst hxb
      simp [hab, hba, Finset.mem_insert]
      tauto
    · by_cases hxa : x = a
      · subst hxa
        simp [hab, hba, hxb, Finset.mem_insert]
        tauto
      · simp [hxa, hxb]

/-- C20: `CreateReference` keeps the reference relation symmetric. After
`a.CreateReference(b)`, `b` is in `a.references` and `a` is in `b.references`; a relation that
was symmetric before the call is symmetric after it; the reference sets of all entries other
than `a` and `b` are unchanged and no reference is lost; and repeating the call changes
nothing. -/
theorem CreateReference_symmetric (refs : References) (a b : Nat) :
    b ∈ TCacheEntry.CreateReference refs a b a ∧
      a ∈ TCacheEntry.CreateReference refs a b b ∧
      (refs.Symmetric → (TCacheEntry.CreateReference refs a b).Symmetric) ∧
      (∀ x, x ≠ a → x ≠ b → TCacheEntry.CreateReference refs a b x = refs x) ∧
      (∀ x, refs x ⊆ TCacheEntry.CreateReference refs a b x) ∧
      TCacheEntry.CreateReference (TCacheEntry.CreateReference refs a b) a b =
        TCacheEntry.CreateReference refs a b := by
  refine ⟨?_, ?_, ?_, ?_, ?_, ?_⟩
  · rw [CreateReference_mem]
    exact Or.inr (Or.inl ⟨rfl, rfl⟩)
  · rw [CreateReference_mem]
    exact Or.inr (Or.inr ⟨rfl, rfl⟩)
  · intro hs x y
    rw [CreateReference_mem, CreateReference_mem, hs x y]
    tauto
  · intro x hxa hxb
    ext y
    rw [CreateReference_mem]
    tauto
  · intro x y hy
    rw [CreateReference_mem]
    exact Or.inl hy
  · funext x
    ext y
    rw [CreateReference_mem, CreateReference_mem]
    tauto

theorem CreateReference_symmetric_witness :
    noReferences.Symmetric ∧ (TCacheEntry.CreateReference noReferences 1 2).Symmetric :=
  have hs : noReferences.Symmetric := fun x y => by simp [noReferences]
  ⟨hs, (CreateReference_symmetric noReferences 1 2).2.2.1 hs⟩

/-! ## Frame dumping: termination -/

theorem dumpCalls_append (t seg : List Event) :
    dumpCalls (t ++ seg) = dumpCalls t + dumpCalls seg := by
  unfold dumpCalls
  rw [List.countP_append]

theorem dumpCalls_of_traceExt (r r1 : Renderer)
    (h : Renderer.TraceExt (fun e => ∀ s, e ≠ Event.dumpFrameData s) r r1) :
    dumpCalls r1.trace = dumpCalls r.trace := by
  obtain ⟨seg, hseg, hp⟩ := h
  rw [hseg, dumpCalls_append]
  have : dumpCalls seg = 0 := by
    unfold dumpCalls
    rw [List.countP_eq_zero]
    intro e he
    cases e <;> simp
    exact hp _ he _ rfl
  omega

theorem dumpCalls_FinishFrameData (r : Renderer) :
    dumpCalls r.FinishFrameData.trace = dumpCalls r.trace := by
  apply dumpCalls_of_traceExt
  refine TraceExt_mono (fun e he s hs => ?_) (FinishFrameData_traceExt r)
  subst he
  cases hs

theorem dumpCalls_DumpFrameData (r : Renderer) (state : Nat) :
    dumpCalls (r.DumpFrameData state).trace = dumpCalls r.trace + 1 := by
  unfold Renderer.DumpFrameData
  dsimp only
  split_ifs <;> simp [dumpCalls, List.countP_append, List.countP_cons]

theorem dumpCalls_shutdownTail (r : Renderer) :
    dumpCalls r.shutdownTail.trace = dumpCalls r.trace := by
  apply dumpCalls_of_traceExt
  refine TraceExt_mono (fun e he s hs => ?_) (shutdownTail_traceExt r)
  subst hs
  rcases he with h | h | h <;> cases h

theorem dumpCalls_flushBody (env : SwapEnv) (r : Renderer) :
    dumpCalls (r.flushBody env).trace =
      dumpCalls r.trace + (if env.mapSucceeds = true then 1 else 0) := by
  unfold Renderer.flushBody
  dsimp only
  split
  · show dumpCalls (Renderer.DumpFrameData _ _).trace = _
    rw [dumpCalls_DumpFrameData]
    show dumpCalls (r.FinishFrameData.trace ++ [Event.mapReadback]) + 1 = _
    rw [dumpCalls_append, dumpCalls_FinishFrameData]
    simp [dumpCalls]
  · show dumpCalls (r.FinishFrameData.trace ++ [Event.mapReadback]) = _
    rw [dumpCalls_append, dumpCalls_FinishFrameData]
    simp [dumpCalls]

theorem dumpCalls_flushResult (env : SwapEnv) (r : Renderer) :
    dumpCalls (r.flushResult env).trace =
      dumpCalls r.trace +
        (if r.m_last_frame_exported = true ∧ env.mapSucceeds = true then 1 else 0) := by
  unfold Renderer.flushResult
  by_cases hexp : r.m_last_frame_exported = true
  · rw [if_neg (by simpa using hexp)]
    split
    · rw [dumpCalls_shutdownTail, dumpCalls_flushBody]
      simp [hexp]
    · rw [dumpCalls_flushBody]
      simp [hexp]
  · rw [if_pos hexp]
    simp [hexp]

/-- C30: the mutual recursion of `FlushFrameDump` and `ShutdownFrameDumping` terminates from
every state. A call depth of three, `FlushFrameDump`, `ShutdownFrameDumping`, `FlushFrameDump`,
is enough for `FlushFrameDump` to return, and four for `ShutdownFrameDumping`; more depth gives
the same result. When `FlushFrameDump` gets past its early return it has cleared
`m_last_frame_exported` before it calls `ShutdownFrameDumping`, so the nested `FlushFrameDump`
returns at once without a further call and without touching the renderer. `DumpFrameData` is
called at most once in an outermost call of either function. -/
theorem FlushFrameDump_terminates (env : SwapEnv) (r : Renderer) :
    (∃ rf, (∀ fuel, 3 ≤ fuel → Renderer.FlushFrameDump env fuel r = some rf) ∧
      dumpCalls rf.trace ≤ dumpCalls r.trace + 1) ∧
    (∃ rs, (∀ fuel, 4 ≤ fuel → Renderer.ShutdownFrameDumping env fuel r = some rs) ∧
      dumpCalls rs.trace ≤ dumpCalls r.trace + 1) ∧
    (r.flushBody env).m_last_frame_exported = false ∧
    Renderer.FlushFrameDump env 1 (r.flushBody env) = some (r.flushBody env) := by
  refine ⟨⟨r.flushResult env, fun fuel hfuel => FlushFrameDump_eq env fuel hfuel r, ?_⟩,
    ⟨(r.flushResult env).shutdownTail, fun fuel hfuel => ShutdownFrameDumping_eq env fuel hfuel r,
      ?_⟩, rfl, FlushFrameDump_not_exported env 0 _ rfl⟩
  · rw [dumpCalls_flushResult]
    split <;> omega
  · rw [dumpCalls_shutdownTail, dumpCalls_flushResult]
    split <;> omega
/-! ## Swap: the widescreen flag and the last XFB size -/

theorem FinishFrameData_geometry (r : Renderer) : r.FinishFrameData.geometry = r.geometry := by
  unfold Renderer.FinishFrameData
  split <;> rfl

theorem DumpFrameData_geometry (r : Renderer) (state : Nat) :
    (r.DumpFrameData state).geometry = r.geometry := by
  unfold Renderer.DumpFrameData
  dsimp only
  split_ifs <;> rfl

theorem flushBody_geometry (env : SwapEnv) (r : Renderer) :
    (r.flushBody env).geometry = r.geometry := by
  unfold Renderer.flushBody
  dsimp only
  split
  · show (Renderer.DumpFrameData _ _).geometry = _
    rw [DumpFrameData_geometry]
    exact FinishFrameData_geometry r
  · exact FinishFrameData_geometry r

theorem shutdownTail_geometry (r : Renderer) : r.shutdownTail.geometry = r.geometry := by
  unfold Renderer.shutdownTail
  split
  · rfl
  · dsimp only
    split <;> exact FinishFrameData_geometry r

theorem flushResult_geometry (env : SwapEnv) (r : Renderer) :
    (r.flushResult env).geometry = r.geometry := by
  unfold Renderer.flushResult
  split
  · rfl
  · split
    · rw [shutdownTail_geometry, flushBody_geometry]
    · exact flushBody_geometry env r

/-- Whatever the call depth allowed, a `FlushFrameDump` that returns gives the result of the
unlimited one. -/
theorem FlushFrameDump_some_eq (env : SwapEnv) (fuel : Nat) (r rf : Renderer)
    (h : Renderer.FlushFrameDump env fuel r = some rf) : rf = r.flushResult env := by
  by_cases hfuel : 3 ≤ fuel
  · rw [FlushFrameDump_eq env fuel hfuel r] at h
    exact (Option.some.inj h).symm
  · by_cases hexp : r.m_last_frame_exported = true
    · by_cases hd : Renderer.IsFrameDumping env = true
      · -- the body runs without a nested call
        obtain ⟨n, rfl⟩ : ∃ n, fuel = n + 1 := by
          cases fuel with
          | zero => simp [Renderer.FlushFrameDump] at h
          | succ n => exact ⟨n, rfl⟩
        unfold Renderer.FlushFrameDump at h
        rw [if_neg (by simpa using hexp)] at h
        dsimp only at h
        rw [if_neg (by simpa using hd)] at h
        unfold Renderer.flushResult
        rw [if_neg (by simpa using hexp), if_neg (by simpa using hd)]
        exact (Option.some.inj h).symm
      · -- the nested calls need a depth of three
        exfalso
        have h2 : fuel = 0 ∨ fuel = 1 ∨ fuel = 2 := by omega
        rcases h2 with rfl | rfl | rfl
        · simp [Renderer.FlushFrameDump] at h
        · unfold Renderer.FlushFrameDump at h
          rw [if_neg (by simpa using hexp)] at h
          dsimp only at h
          rw [if_pos hd] at h
          simp [Renderer.ShutdownFrameDumping] at h
        · unfold Renderer.FlushFrameDump at h
          rw [if_neg (by simpa using hexp)] at h
          dsimp only at h
          rw [if_pos hd] at h
          simp [Renderer.ShutdownFrameDumping, Renderer.FlushFrameDump] at h
    · obtain ⟨n, rfl⟩ : ∃ n, fuel = n + 1 := by
        cases fuel with
        | zero => simp [Renderer.FlushFrameDump] at h
        | succ n => exact ⟨n, rfl⟩
      rw [FlushFrameDump_not_exported env n r (by simpa using hexp)] at h
      unfold Renderer.flushResult
      rw [if_pos hexp]
      exact (Option.some.inj h).symm

theorem presentXFB_kept (env : SwapEnv) (r : Renderer) (e : XFBEntry)
    (fbWidth fbStride ticks : Nat) :
    (r.presentXFB env e fbWidth fbStride ticks).m_aspect_wide = r.m_aspect_wide ∧
      (r.presentXFB env e fbWidth fbStride ticks).m_last_xfb_width = r.m_last_xfb_width ∧
      (r.presentXFB env e fbWidth fbStride ticks).m_last_xfb_height = r.m_last_xfb_height := by
  unfold Renderer.presentXFB Renderer.DumpCurrentFrame
  dsimp only
  split <;> exact ⟨rfl, rfl, rfl⟩

/-- What a `Swap` that returns leaves in the widescreen flag and in the last XFB size. -/
theorem Swap_fields (X : Externals) (env : SwapEnv) (fuel : Nat) (r r1 : Renderer)
    (xfbAddr fbWidth fbStride fbHeight ticks : Nat)
    (h : r.Swap X env fuel xfbAddr fbWidth fbStride fbHeight ticks = some r1) :
    r1.m_aspect_wide = r.aspectAfterSwap env ∧
      r1.m_last_xfb_width =
        (if xfbAddr ≠ 0 ∧ fbWidth ≠ 0 ∧ fbStride ≠ 0 ∧ fbHeight ≠ 0 then
          (if fbStride < 1 ∨ fbStride > X.MAX_XFB_WIDTH then X.MAX_XFB_WIDTH else fbStride)
        else r.m_last_xfb_width) ∧
      r1.m_last_xfb_height =
        (if xfbAddr ≠ 0 ∧ fbWidth ≠ 0 ∧ fbStride ≠ 0 ∧ fbHeight ≠ 0 then
          (if fbHeight < 1 ∨ fbHeight > X.MAX_XFB_HEIGHT then X.MAX_XFB_HEIGHT else fbHeight)
        else r.m_last_xfb_height) := by
  unfold Renderer.Swap at h
  dsimp only at h
  generalize hr0 : (if ¬ env.bWii = true then
      if r.m_aspect_wide = true then
        { r with
          m_aspect_wide :=
            !decide (4 * env.flush_count_4_3 >
              3 * (env.flush_count_4_3 + env.flush_count_anamorphic)) }
      else
        { r with
          m_aspect_wide :=
            decide (4 * env.flush_count_anamorphic >
              3 * (env.flush_count_4_3 + env.flush_count_anamorphic)) }
    else r) = r0 at h
  have hv0 : r0.m_aspect_wide = r.aspectAfterSwap env ∧
      r0.m_last_xfb_width = r.m_last_xfb_width ∧
      r0.m_last_xfb_height = r.m_last_xfb_height := by
    rw [← hr0]
    unfold Renderer.aspectAfterSwap
    split_ifs <;> exact ⟨rfl, rfl, rfl⟩
  cases hfl : Renderer.FlushFrameDump env fuel r0 with
  | none =>
    rw [hfl] at h
    cases h
  | some rf =>
    rw [hfl] at h
    dsimp only at h
    have hg : rf.geometry = r0.geometry := by
      rw [FlushFrameDump_some_eq env fuel r0 rf hfl]
      exact flushResult_geometry env r0
    simp only [Renderer.geometry, Prod.mk.injEq] at hg
    obtain ⟨g1, g2, g3, -⟩ := hg
    have h1 := (Option.some.inj h).symm
    subst h1
    by_cases hz : xfbAddr ≠ 0 ∧ fbWidth ≠ 0 ∧ fbStride ≠ 0 ∧ fbHeight ≠ 0
    · rw [if_pos hz, if_pos hz, if_pos hz]
      cases he : env.GetXFBTexture xfbAddr fbStride fbHeight with
      | none =>
        dsimp only
        exact ⟨g1.trans hv0.1, rfl, rfl⟩
      | some e =>
        dsimp only
        by_cases hne : e.id ≠ rf.m_last_xfb_id
        · rw [if_pos hne]
          dsimp only
          exact ⟨((presentXFB_kept env rf e fbWidth fbStride ticks).1.trans g1).trans hv0.1,
            rfl, rfl⟩
        · rw [if_neg hne]
          dsimp only
          exact ⟨g1.trans hv0.1, rfl, rfl⟩
    · rw [if_neg hz, if_neg hz, if_neg hz]
      exact ⟨g1.trans hv0.1, g2.trans hv0.2.1, g3.trans hv0.2.2⟩

/-- C24: on a title that is not a Wii title `Swap` updates `m_aspect_wide` with hysteresis at
75% of the counted flushes: a clear flag becomes set exactly when the anamorphic count is more
than 75% of the total, a set flag is cleared exactly when the 4:3 count is more than 75% of the
total, and with no counted flush the flag keeps its value. On a Wii title the flag keeps its
value. The comparison with `0.75 * flush_total` is taken exactly. -/
theorem Swap_aspect_hysteresis (X : Externals) (env : SwapEnv) (fuel : Nat)
    (hfuel : 3 ≤ fuel) (r : Renderer) (xfbAddr fbWidth fbStride fbHeight ticks : Nat) :
    ∃ r1, r.Swap X env fuel xfbAddr fbWidth fbStride fbHeight ticks = some r1 ∧
      (env.bWii = true → r1.m_aspect_wide = r.m_aspect_wide) ∧
      (env.bWii = false → r.m_aspect_wide = false →
        (r1.m_aspect_wide = true ↔
          (env.flush_count_anamorphic : ℚ) >
            3 / 4 * ((env.flush_count_4_3 + env.flush_count_anamorphic : Nat) : ℚ))) ∧
      (env.bWii = false → r.m_aspect_wide = true →
        (r1.m_aspect_wide = false ↔
          (env.flush_count_4_3 : ℚ) >
            3 / 4 * ((env.flush_count_4_3 + env.flush_count_anamorphic : Nat) : ℚ))) ∧
      (env.flush_count_4_3 + env.flush_count_anamorphic = 0 →
        r1.m_aspect_wide = r.m_aspect_wide) := by
  obtain ⟨r1, hr1, -⟩ := Swap_core X env fuel hfuel r xfbAddr fbWidth fbStride fbHeight ticks
  have hq : ∀ c t : Nat, (4 * c > 3 * t) ↔ ((c : ℚ) > 3 / 4 * (t : ℚ)) := by
    intro c t
    constructor
    · intro h
      have h2 : ((3 * t : Nat) : ℚ) < ((4 * c : Nat) : ℚ) := by exact_mod_cast h
      push_cast at h2
      linarith
    · intro h
      have h2 : ((3 * t : Nat) : ℚ) < ((4 * c : Nat) : ℚ) := by
        push_cast
        linarith
      exact_mod_cast h2
  obtain ⟨ha, -, -⟩ := Swap_fields X env fuel r r1 xfbAddr fbWidth fbStride fbHeight ticks hr1
  refine ⟨r1, hr1, ?_, ?_, ?_, ?_⟩
  · intro hw
    rw [ha]
    unfold Renderer.aspectAfterSwap
    rw [if_neg (by simpa using hw)]
  · intro hw hclear
    rw [ha, ← hq]
    unfold Renderer.aspectAfterSwap
    rw [if_pos (by simpa using hw), if_neg (by simpa using hclear)]
    simp
  · intro hw hset
    rw [ha, ← hq]
    unfold Renderer.aspectAfterSwap
    rw [if_pos (by simpa using hw), if_pos hset]
    simp
  · intro hzero
    rw [ha]
    unfold Renderer.aspectAfterSwap
    have h1 : env.flush_count_4_3 = 0 := by omega
    have h2 : env.flush_count_anamorphic = 0 := by omega
    rw [h1, h2]
    cases hb : r.m_aspect_wide <;> simp

theorem Swap_aspect_hysteresis_witness :
    3 ≤ 3 ∧
      ∃ r1, freshRenderer.Swap gcExternals anamorphicEnv 3 0x1000 640 640 480 100 = some r1 ∧
        (anamorphicEnv.bWii = true → r1.m_aspect_wide = freshRenderer.m_aspect_wide) :=
  ⟨by decide,
    (Swap_aspect_hysteresis gcExternals anamorphicEnv 3 (by decide) freshRenderer
      0x1000 640 640 480 100).imp (fun _ hx => ⟨hx.1, hx.2.1⟩)⟩

theorem Renderer_scale_update_last_xfb (c : Bool) (s : Nat) (a b : Int) (r : Renderer) :
    ((c, { r with m_efb_scale := s, m_target_width := a, m_target_height := b }) :
        Bool × Renderer).2.m_last_xfb_width = r.m_last_xfb_width ∧
      ((c, { r with m_efb_scale := s, m_target_width := a, m_target_height := b }) :
        Bool × Renderer).2.m_last_xfb_height = r.m_last_xfb_height :=
  ⟨rfl, rfl⟩

theorem CalculateTargetSize_last_xfb (X : Externals) (cfg : VideoConfig) (r : Renderer) :
    (r.CalculateTargetSize X cfg).2.m_last_xfb_width = r.m_last_xfb_width ∧
      (r.CalculateTargetSize X cfg).2.m_last_xfb_height = r.m_last_xfb_height := by
  have h2 := CalculateTargetSize_eq X cfg r
  have hw := congrArg (fun p : Bool × Renderer => p.2.m_last_xfb_width) h2
  have hh := congrArg (fun p : Bool × Renderer => p.2.m_last_xfb_height) h2
  exact ⟨hw.trans (Renderer_scale_update_last_xfb _ _ _ _ r).1,
    hh.trans (Renderer_scale_update_last_xfb _ _ _ _ r).2⟩

/-- C27: in every state reached through `Swap` and `CalculateTargetSize`, `m_last_xfb_width`
lies in `[1, MAX_XFB_WIDTH]` and `m_last_xfb_height` in `[1, MAX_XFB_HEIGHT]` (both maxima
being at least 1), so the two divisors of the automatic-scale branch of `CalculateTargetSize`
are not zero. A `Swap` with four non-zero arguments stores the given stride and height when
they lie in these ranges and the maxima otherwise; any other `Swap`, and
`CalculateTargetSize`, leave the two members as they are. -/
theorem last_xfb_size_in_range (X : Externals) (hW : 1 ≤ X.MAX_XFB_WIDTH)
    (hH : 1 ≤ X.MAX_XFB_HEIGHT) (r : Renderer) (h : Renderer.Reachable X r) :
    (1 ≤ r.m_last_xfb_width ∧ r.m_last_xfb_width ≤ X.MAX_XFB_WIDTH ∧
      1 ≤ r.m_last_xfb_height ∧ r.m_last_xfb_height ≤ X.MAX_XFB_HEIGHT ∧
      r.m_last_xfb_width ≠ 0 ∧ r.m_last_xfb_height ≠ 0) ∧
    (∀ (env : SwapEnv) (fuel : Nat) (r1 : Renderer)
        (xfbAddr fbWidth fbStride fbHeight ticks : Nat),
      r.Swap X env fuel xfbAddr fbWidth fbStride fbHeight ticks = some r1 →
      r1.m_last_xfb_width =
          (if xfbAddr ≠ 0 ∧ fbWidth ≠ 0 ∧ fbStride ≠ 0 ∧ fbHeight ≠ 0 then
            (if fbStride < 1 ∨ fbStride > X.MAX_XFB_WIDTH then X.MAX_XFB_WIDTH else fbStride)
          else r.m_last_xfb_width) ∧
        r1.m_last_xfb_height =
          (if xfbAddr ≠ 0 ∧ fbWidth ≠ 0 ∧ fbStride ≠ 0 ∧ fbHeight ≠ 0 then
            (if fbHeight < 1 ∨ fbHeight > X.MAX_XFB_HEIGHT then X.MAX_XFB_HEIGHT else fbHeight)
          else r.m_last_xfb_height)) ∧
    (∀ cfg : VideoConfig,
      (r.CalculateTargetSize X cfg).2.m_last_xfb_width = r.m_last_xfb_width ∧
        (r.CalculateTargetSize X cfg).2.m_last_xfb_height = r.m_last_xfb_height) := by
  have hcalc : ∀ (cfg : VideoConfig) (r : Renderer),
      (r.CalculateTargetSize X cfg).2.m_last_xfb_width = r.m_last_xfb_width ∧
        (r.CalculateTargetSize X cfg).2.m_last_xfb_height = r.m_last_xfb_height :=
    fun cfg r => CalculateTargetSize_last_xfb X cfg r
  refine ⟨?_, fun env fuel r1 a b c d t hs => (Swap_fields X env fuel r r1 a b c d t hs).2,
    fun cfg => hcalc cfg r⟩
  have hrange : 1 ≤ r.m_last_xfb_width ∧ r.m_last_xfb_width ≤ X.MAX_XFB_WIDTH ∧
      1 ≤ r.m_last_xfb_height ∧ r.m_last_xfb_height ≤ X.MAX_XFB_HEIGHT := by
    induction h with
    | initial r hw hh =>
      rw [hw, hh]
      exact ⟨hW, le_refl _, hH, le_refl _⟩
    | swap env fuel r r1 xfbAddr fbWidth fbStride fbHeight ticks _ hs ih =>
      obtain ⟨-, hw1, hh1⟩ := Swap_fields X env fuel r r1 xfbAddr fbWidth fbStride fbHeight ticks hs
      rw [hw1, hh1]
      split_ifs <;> omega
    | calculateTargetSize cfg r _ ih =>
      rw [(hcalc cfg r).1, (hcalc cfg r).2]
      exact ih
  exact ⟨hrange.1, hrange.2.1, hrange.2.2.1, hrange.2.2.2, by omega, by omega⟩

theorem last_xfb_size_in_range_witness :
    1 ≤ gcExternals.MAX_XFB_WIDTH ∧ 1 ≤ gcExternals.MAX_XFB_HEIGHT ∧
      Renderer.Reachable gcExternals freshRenderer ∧
      1 ≤ freshRenderer.m_last_xfb_width ∧ freshRenderer.m_last_xfb_width ≤ 720 :=
  have hr : Renderer.Reachable gcExternals freshRenderer :=
    Renderer.Reachable.initial freshRenderer rfl rfl
  have h := (last_xfb_size_in_range gcExternals (by decide) (by decide) freshRenderer hr).1
  ⟨by decide, by decide, hr, h.1, h.2.1⟩
/-! ## Draw rectangle inside the backbuffer -/

theorem cround_half (n : Int) (hn : 0 ≤ n) : cround ((n : ℚ) / 2) = (n + 1) / 2 := by
  have hq : (0 : ℚ) ≤ (n : ℚ) / 2 := by
    have : (0 : ℚ) ≤ (n : ℚ) := by exact_mod_cast hn
    positivity
  unfold cround
  rw [if_pos hq, Int.floor_eq_iff]
  have h1 : 2 * ((n + 1) / 2) ≤ n + 1 := by omega
  have h2 : n + 1 < 2 * ((n + 1) / 2) + 2 := by omega
  have h1q : (2 : ℚ) * (((n + 1) / 2 : Int) : ℚ) ≤ (n : ℚ) + 1 := by exact_mod_cast h1
  have h2q : (n : ℚ) + 1 < 2 * (((n + 1) / 2 : Int) : ℚ) + 2 := by exact_mod_cast h2
  constructor <;> linarith

/-- The centring step of `UpdateDrawRectangle` for one axis: a draw extent `d` that is positive
and at most the window extent `N` gives an offset and an end inside `[0, N]`. -/
theorem centred_inside (d : ℚ) (N : Int) (hd : 0 < d) (hN : d ≤ (N : ℚ)) :
    0 ≤ cround ((N : ℚ) / 2 - roundDraw d / 2) ∧
      cround ((N : ℚ) / 2 - roundDraw d / 2) ≤
        cround ((N : ℚ) / 2 - roundDraw d / 2) + ctrunc (roundDraw d) ∧
      cround ((N : ℚ) / 2 - roundDraw d / 2) + ctrunc (roundDraw d) ≤ N := by
  obtain ⟨hdvd, hle, hlt⟩ := roundDraw_spec d hd
  have hceil : ⌈d⌉ ≤ N := Int.ceil_le.mpr hN
  have hcpos : 0 < ⌈d⌉ := Int.ceil_pos.mpr hd
  have hw0 : 0 ≤ ctrunc (roundDraw d) := by omega
  have hrd : roundDraw d = ((⌈d⌉ - Int.tmod ⌈d⌉ 4 : Int) : ℚ) := by
    unfold roundDraw
    push_cast
    rfl
  rw [ctrunc_roundDraw] at hdvd hle hlt hw0 ⊢
  rw [hrd]
  generalize ⌈d⌉ - Int.tmod ⌈d⌉ 4 = w at hdvd hle hlt hw0 ⊢
  have hq : (N : ℚ) / 2 - (w : ℚ) / 2 = ((N - w : Int) : ℚ) / 2 := by
    push_cast
    ring
  rw [hq, cround_half _ (by omega)]
  omega

theorem scaledDrawSize_no_crop_le (cfg : VideoConfig) (viAspect : ℚ) (r : Renderer)
    (hw : 0 < r.m_backbuffer_width) (hh : 0 < r.m_backbuffer_height) (ha : 0 < viAspect)
    (hcrop : cfg.bCrop = false ∨ cfg.aspect_mode = AspectMode.Stretch) :
    (r.scaledDrawSize cfg viAspect).1 ≤ (r.m_backbuffer_width : ℚ) ∧
      (r.scaledDrawSize cfg viAspect).2 ≤ (r.m_backbuffer_height : ℚ) := by
  have hA := CalculateDrawAspectRatio_pos cfg viAspect r hw hh ha
  have hw' : (0 : ℚ) < r.m_backbuffer_width := by exact_mod_cast hw
  have hh' : (0 : ℚ) < r.m_backbuffer_height := by exact_mod_cast hh
  have hnc : ¬ (cfg.bCrop = true ∧ cfg.aspect_mode ≠ AspectMode.Stretch) := by
    rintro ⟨h1, h2⟩
    rcases hcrop with h | h
    · rw [h] at h1
      cases h1
    · exact h2 h
  unfold Renderer.scaledDrawSize Renderer.cropSize
  dsimp only
  rw [if_neg hnc]
  dsimp only
  generalize r.CalculateDrawAspectRatio cfg viAspect = A at hA
  generalize (r.m_backbuffer_width : ℚ) = W at hw'
  generalize (r.m_backbuffer_height : ℚ) = H at hh'
  split
  · rename_i hge
    rw [div_one] at hge
    have h1 : A * H ≤ W := by
      have := (le_div_iff₀ hh').mp hge
      linarith
    dsimp only
    rw [div_one]
    constructor
    · exact h1
    · linarith
  · rename_i hlt
    rw [div_one] at hlt
    have hlt2 : W / H < A := lt_of_not_ge hlt
    have h1 : W < A * H := (div_lt_iff₀ hh').mp hlt2
    dsimp only
    constructor
    · rw [mul_div_cancel₀ W (ne_of_gt hA)]
    · rw [one_mul, div_le_iff₀ hA]
      linarith

/-- C29: when cropping does not apply (`bCrop` off, or stretch mode), the target rectangle
that `UpdateDrawRectangle` computes lies inside the backbuffer, for every backbuffer of at
least 1x1 and every positive aspect ratio: `0 <= left <= right <= m_backbuffer_width` and
`0 <= top <= bottom <= m_backbuffer_height`, with the arithmetic taken over exact
rationals. -/
theorem UpdateDrawRectangle_inside_backbuffer (cfg : VideoConfig) (viAspect : ℚ) (r : Renderer)
    (hw : 0 < r.m_backbuffer_width) (hh : 0 < r.m_backbuffer_height) (ha : 0 < viAspect)
    (hcrop : cfg.bCrop = false ∨ cfg.aspect_mode = AspectMode.Stretch) :
    0 ≤ (r.UpdateDrawRectangle cfg viAspect).m_target_rectangle.left ∧
      (r.UpdateDrawRectangle cfg viAspect).m_target_rectangle.left ≤
        (r.UpdateDrawRectangle cfg viAspect).m_target_rectangle.right ∧
      (r.UpdateDrawRectangle cfg viAspect).m_target_rectangle.right ≤ r.m_backbuffer_width ∧
      0 ≤ (r.UpdateDrawRectangle cfg viAspect).m_target_rectangle.top ∧
      (r.UpdateDrawRectangle cfg viAspect).m_target_rectangle.top ≤
        (r.UpdateDrawRectangle cfg viAspect).m_target_rectangle.bottom ∧
      (r.UpdateDrawRectangle cfg viAspect).m_target_rectangle.bottom ≤
        r.m_backbuffer_height := by
  obtain ⟨p1, p2⟩ := scaledDrawSize_pos cfg viAspect r hw hh ha
  obtain ⟨l1, l2⟩ := scaledDrawSize_no_crop_le cfg viAspect r hw hh ha hcrop
  obtain ⟨a1, a2, a3⟩ := centred_inside _ r.m_backbuffer_width p1 l1
  obtain ⟨b1, b2, b3⟩ := centred_inside _ r.m_backbuffer_height p2 l2
  simp only [Renderer.UpdateDrawRectangle]
  exact ⟨a1, a2, a3, b1, b2, b3⟩

theorem UpdateDrawRectangle_inside_backbuffer_witness :
    0 ≤ (narrowWindowRenderer.UpdateDrawRectangle analogConfig
        (4 / 3)).m_target_rectangle.left ∧
      (narrowWindowRenderer.UpdateDrawRectangle analogConfig (4 / 3)).m_target_rectangle.right ≤
        narrowWindowRenderer.m_backbuffer_width :=
  have h := UpdateDrawRectangle_inside_backbuffer analogConfig (4 / 3) narrowWindowRenderer
    (by decide) (by decide) (by norm_num) (Or.inl rfl)
  ⟨h.1, h.2.2.1⟩

/-! ## Frame-dump render texture -/

/-- C23 (failing input): with a 640x480 render texture and a 640x528 target, the allocation
step of `RenderFrameDump` keeps the existing texture, whose height is not the target height;
with a 640x528 texture and the same target it creates a new texture although both dimensions
match. -/
theorem RenderFrameDump_allocate_keeps_wrong_height :
    Renderer.RenderFrameDump_allocate 4 createTexture2 (some dumpTexture480) 640 528 =
        some dumpTexture480 ∧
      dumpTexture480.config.height ≠ 528 ∧
      Renderer.RenderFrameDump_allocate 4 createTexture2 (some dumpTexture528) 640 528 =
        some { config := dumpTexture528.config, id := 2 } := by
  decide
/-! ## Bounding box -/

theorem abs_mul_bound {a s E : Int} (hs : 1 ≤ s) (hE : 0 < E) {B : Int} (ha : |a| ≤ B)
    (hb : B * (s * E) < 2 ^ 31) :
    |a| < 2 ^ 31 ∧ |a * s| < 2 ^ 31 ∧ |a * (s * E)| < 2 ^ 31 := by
  have hsE : 1 ≤ s * E := by nlinarith
  have h0 : 0 ≤ |a| := abs_nonneg a
  have h3 : |a * (s * E)| ≤ B * (s * E) := by
    rw [abs_mul, abs_of_pos (by omega : (0 : Int) < s * E)]
    exact Int.mul_le_mul_of_nonneg_right ha (by omega)
  have h2 : |a * s| ≤ |a * (s * E)| := by
    rw [abs_mul, abs_mul, abs_of_pos (by omega : (0 : Int) < s),
      abs_of_pos (by omega : (0 : Int) < s * E)]
    have : s ≤ s * E := by nlinarith
    exact Int.mul_le_mul_of_nonneg_left this h0
  have h1 : |a| ≤ |a * s| := by
    rw [abs_mul, abs_of_pos (by omega : (0 : Int) < s)]
    nlinarith
  omega

/-- Scaling a value with `value * target / EFB` and back with `value * EFB / target` gives
the value again when the target extent is an exact multiple of the EFB extent and the
products fit an `int`. -/
theorem scale_round_trip (a s E : Int) (hs : 1 ≤ s) (hE : 0 < E) {B : Int} (ha : |a| ≤ B)
    (hb : B * (s * E) < 2 ^ 31) :
    sdiv (smul (sdiv (smul a (s * E)) E) E) (s * E) = a := by
  obtain ⟨h1, h2, h3⟩ := abs_mul_bound hs hE ha hb
  have r1 : toS32 a = a := toS32_of_range (by have := abs_lt.mp h1; omega) (abs_lt.mp h1).2
  have r2 : toS32 (a * s) = a * s :=
    toS32_of_range (by have := abs_lt.mp h2; omega) (abs_lt.mp h2).2
  have r3 : toS32 (a * (s * E)) = a * (s * E) :=
    toS32_of_range (by have := abs_lt.mp h3; omega) (abs_lt.mp h3).2
  have e1 : sdiv (smul a (s * E)) E = a * s := by
    unfold sdiv smul
    rw [r3, ← mul_assoc, Int.mul_tdiv_cancel _ (by omega), r2]
  rw [e1]
  unfold sdiv smul
  rw [mul_assoc, r3, Int.mul_tdiv_cancel _ (by nlinarith), r1]

theorem toU16_of_range {n : Int} (h0 : 0 ≤ n) (h1 : n < 2 ^ 16) : toU16 n = n.toNat := by
  unfold toU16
  rw [Int.emod_eq_of_lt h0 h1]

/-- The D3D and Vulkan write followed by the read, for one index. -/
theorem BBox_round_trip_plain (X : Externals) (r : Renderer) (index v : Nat) (s : Int)
    (hi : index < 4) (hv : v < 2 ^ 16) (hs : 1 ≤ s)
    (hEW : 0 < X.EFB_WIDTH) (hEH : 0 < X.EFB_HEIGHT)
    (htw : r.m_target_width = s * X.EFB_WIDTH) (hth : r.m_target_height = s * X.EFB_HEIGHT)
    (hovw : (65536 : Int) * (s * X.EFB_WIDTH) < 2 ^ 31)
    (hovh : (65536 : Int) * (s * X.EFB_HEIGHT) < 2 ^ 31) :
    (let value : Int :=
      (let value : Int := (v : Int)
       let value : Int := if index &&& 1 ≠ 0 then toS32 (value - 1) else value
       if index < 2 then sdiv (smul value r.m_target_width) X.EFB_WIDTH
       else sdiv (smul value r.m_target_height) X.EFB_HEIGHT)
     let value : Int :=
      if index < 2 then sdiv (smul value X.EFB_WIDTH) r.m_target_width
      else sdiv (smul value X.EFB_HEIGHT) r.m_target_height
     let value : Int := if index &&& 1 ≠ 0 then toS32 (value + 1) else value
     toU16 value) = v := by
  have hvi : ((v : Nat) : Int) < 2 ^ 16 := by exact_mod_cast hv
  have hv0 : (0 : Int) ≤ (v : Int) := Int.natCast_nonneg v
  have hEW' : (0 : Int) < (X.EFB_WIDTH : Int) := by exact_mod_cast hEW
  have hEH' : (0 : Int) < (X.EFB_HEIGHT : Int) := by exact_mod_cast hEH
  have hpre : toS32 ((v : Int) - 1) = (v : Int) - 1 := toS32_of_range (by omega) (by omega)
  have hpost : toS32 ((v : Int) - 1 + 1) = (v : Int) := by
    rw [sub_add_cancel]
    exact toS32_of_range (by omega) (by omega)
  have hu : toU16 (v : Int) = v := by
    rw [toU16_of_range hv0 hvi]
    exact Int.toNat_natCast v
  have ha0 : |(v : Int)| ≤ 65536 := by
    rw [abs_of_nonneg hv0]
    omega
  have ha1 : |(v : Int) - 1| ≤ 65536 := by
    rw [abs_le]
    omega
  have w0 := scale_round_trip (v : Int) s X.EFB_WIDTH hs hEW' ha0 hovw
  have w1 := scale_round_trip ((v : Int) - 1) s X.EFB_WIDTH hs hEW' ha1 hovw
  have g0 := scale_round_trip (v : Int) s X.EFB_HEIGHT hs hEH' ha0 hovh
  have g1 := scale_round_trip ((v : Int) - 1) s X.EFB_HEIGHT hs hEH' ha1 hovh
  rw [htw, hth]
  have hcases : index = 0 ∨ index = 1 ∨ index = 2 ∨ index = 3 := by omega
  rcases hcases with rfl | rfl | rfl | rfl
  · have e : ¬ ((0 : Nat) &&& 1 ≠ 0) := by decide
    have e2 : (0 : Nat) < 2 := by decide
    simp only [if_neg e, if_pos e2, w0, hu]
  · have e : ((1 : Nat) &&& 1 ≠ 0) := by decide
    have e2 : (1 : Nat) < 2 := by decide
    simp only [if_pos e, if_pos e2, hpre, w1, hpost, hu]
  · have e : ¬ ((2 : Nat) &&& 1 ≠ 0) := by decide
    have e2 : ¬ ((2 : Nat) < 2) := by decide
    simp only [if_neg e, if_neg e2, g0, hu]
  · have e : ((3 : Nat) &&& 1 ≠ 0) := by decide
    have e2 : ¬ ((3 : Nat) < 2) := by decide
    simp only [if_pos e, if_neg e2, hpre, g1, hpost, hu]

/-- The OGL write followed by the read, for one index. -/
theorem BBox_round_trip_OGL (X : Externals) (r : Renderer) (store : BBoxStore) (index v : Nat)
    (s : Int) (hi : index < 4) (hv : v < 2 ^ 16) (hs : 1 ≤ s)
    (hEW : 0 < X.EFB_WIDTH) (hEH : 0 < X.EFB_HEIGHT)
    (htw : r.m_target_width = s * X.EFB_WIDTH) (hth : r.m_target_height = s * X.EFB_HEIGHT)
    (hovw : (65536 : Int) * (s * X.EFB_WIDTH) < 2 ^ 31)
    (hovh : ((65536 : Int) + X.EFB_HEIGHT) * (s * X.EFB_HEIGHT) < 2 ^ 31) :
    OGL.Renderer.BBoxRead X r (OGL.Renderer.BBoxWrite X r store index v) index = v := by
  have hvi : ((v : Nat) : Int) < 2 ^ 16 := by exact_mod_cast hv
  have hv0 : (0 : Int) ≤ (v : Int) := Int.natCast_nonneg v
  have hEW' : (0 : Int) < (X.EFB_WIDTH : Int) := by exact_mod_cast hEW
  have hEH' : (0 : Int) < (X.EFB_HEIGHT : Int) := by exact_mod_cast hEH
  have hsE : 1 ≤ s * (X.EFB_HEIGHT : Int) := by nlinarith
  have hEHlt : (65536 : Int) + X.EFB_HEIGHT < 2 ^ 31 := by nlinarith
  have hpre : toS32 ((v : Int) - 1) = (v : Int) - 1 := toS32_of_range (by omega) (by omega)
  have hpost : toS32 ((v : Int) - 1 + 1) = (v : Int) := by
    rw [sub_add_cancel]
    exact toS32_of_range (by omega) (by omega)
  have hu : toU16 (v : Int) = v := by
    rw [toU16_of_range hv0 hvi]
    exact Int.toNat_natCast v
  have ha0 : |(v : Int)| ≤ 65536 := by
    rw [abs_of_nonneg hv0]
    omega
  have ha1 : |(v : Int) - 1| ≤ 65536 := by
    rw [abs_le]
    omega
  -- the vertical flip and its inverse, for the value `v` and for `v - 1`
  have hflip : ∀ a : Int, -1 ≤ a → a < 2 ^ 16 →
      toS32 (toS32 ((X.EFB_HEIGHT : Int) - a) - 1) = (X.EFB_HEIGHT : Int) - a - 1 ∧
        toS32 (toS32 ((X.EFB_HEIGHT : Int) - ((X.EFB_HEIGHT : Int) - a - 1)) - 1) = a ∧
        |(X.EFB_HEIGHT : Int) - a - 1| ≤ 65536 + (X.EFB_HEIGHT : Int) := by
    intro a h1 h2
    have e1 : toS32 ((X.EFB_HEIGHT : Int) - a) = (X.EFB_HEIGHT : Int) - a :=
      toS32_of_range (by omega) (by omega)
    have e2 : toS32 ((X.EFB_HEIGHT : Int) - ((X.EFB_HEIGHT : Int) - a - 1)) = a + 1 := by
      rw [show (X.EFB_HEIGHT : Int) - ((X.EFB_HEIGHT : Int) - a - 1) = a + 1 by ring]
      exact toS32_of_range (by omega) (by omega)
    refine ⟨?_, ?_, ?_⟩
    · rw [e1]
      exact toS32_of_range (by omega) (by omega)
    · rw [e2, add_sub_cancel_right]
      exact toS32_of_range (by omega) (by omega)
    · rw [abs_le]
      omega
  obtain ⟨f0a, f0b, f0c⟩ := hflip (v : Int) (by omega) hvi
  obtain ⟨f1a, f1b, f1c⟩ := hflip ((v : Int) - 1) (by omega) (by omega)
  have w0 := scale_round_trip (v : Int) s X.EFB_WIDTH hs hEW' ha0 hovw
  have w1 := scale_round_trip ((v : Int) - 1) s X.EFB_WIDTH hs hEW' ha1 hovw
  have g0 := scale_round_trip ((X.EFB_HEIGHT : Int) - (v : Int) - 1) s X.EFB_HEIGHT hs hEH'
    f0c hovh
  have g1 := scale_round_trip ((X.EFB_HEIGHT : Int) - ((v : Int) - 1) - 1) s X.EFB_HEIGHT hs hEH'
    f1c hovh
  unfold OGL.Renderer.BBoxRead OGL.Renderer.BBoxWrite
  rw [htw, hth]
  have hcases : index = 0 ∨ index = 1 ∨ index = 2 ∨ index = 3 := by omega
  rcases hcases with rfl | rfl | rfl | rfl
  · have e : ¬ ((0 : Nat) &&& 1 ≠ 0) := by decide
    have e2 : (0 : Nat) < 2 := by decide
    have e3 : ¬ ((0 : Nat) ≥ 2) := by decide
    simp only [if_neg e, if_pos e2, if_neg e3, Function.update_same, w0, hu]
  · have e : ((1 : Nat) &&& 1 ≠ 0) := by decide
    have e2 : (1 : Nat) < 2 := by decide
    have e3 : ¬ ((1 : Nat) ≥ 2) := by decide
    simp only [if_pos e, if_pos e2, if_neg e3, Function.update_same, hpre, w1, hpost, hu]
  · have e : ¬ ((2 : Nat) &&& 1 ≠ 0) := by decide
    have e2 : ¬ ((2 : Nat) < 2) := by decide
    have e3 : (2 : Nat) ≥ 2 := by decide
    simp only [if_neg e, if_neg e2, if_pos e3, Function.update_same, f0a, g0, f0b, hu]
  · have e : ((3 : Nat) &&& 1 ≠ 0) := by decide
    have e2 : ¬ ((3 : Nat) < 2) := by decide
    have e3 : (3 : Nat) ≥ 2 := by decide
    simp only [if_pos e, if_neg e2, if_pos e3, Function.update_same, hpre, f1a, g1, f1b,
      hpost, hu]

/-- C26: bounding-box write/read round trip. For each index 0 to 3 and every 16-bit value
`v`, `BBoxRead(i)` right after `BBoxWrite(i, v)` returns `v` in the D3D, Vulkan and OGL
backends (OGL with its swap of the indices 2 and 3 and its vertical flip), when the store gives
the value last set for an index, the target size is `s` times the EFB size with `s >= 1`, and
the products fit an `int`. -/
theorem BBox_write_read_round_trip (X : Externals) (r : Renderer) (store : BBoxStore)
    (index v : Nat) (s : Int) (hi : index < 4) (hv : v < 2 ^ 16) (hs : 1 ≤ s)
    (hEW : 0 < X.EFB_WIDTH) (hEH : 0 < X.EFB_HEIGHT)
    (htw : r.m_target_width = s * X.EFB_WIDTH) (hth : r.m_target_height = s * X.EFB_HEIGHT)
    (hovw : (65536 : Int) * (s * X.EFB_WIDTH) < 2 ^ 31)
    (hovh : ((65536 : Int) + X.EFB_HEIGHT) * (s * X.EFB_HEIGHT) < 2 ^ 31) :
    D3D.Renderer.BBoxRead X r (D3D.Renderer.BBoxWrite X r store index v) index = v ∧
      Vulkan.Renderer.BBoxRead X r (Vulkan.Renderer.BBoxWrite X r store index v) index = v ∧
      OGL.Renderer.BBoxRead X r (OGL.Renderer.BBoxWrite X r store index v) index = v := by
  have hEH' : (0 : Int) < (X.EFB_HEIGHT : Int) := by exact_mod_cast hEH
  have hsE : 0 < s * (X.EFB_HEIGHT : Int) := by nlinarith
  have hovh2 : (65536 : Int) * (s * X.EFB_HEIGHT) < 2 ^ 31 := by nlinarith
  have hp := BBox_round_trip_plain X r index v s hi hv hs hEW hEH htw hth hovw hovh2
  refine ⟨?_, ?_, BBox_round_trip_OGL X r store index v s hi hv hs hEW hEH htw hth hovw hovh⟩
  · unfold D3D.Renderer.BBoxRead D3D.Renderer.BBoxWrite
    simp only [Function.update_same]
    exact hp
  · unfold Vulkan.Renderer.BBoxRead Vulkan.Renderer.BBoxWrite
    simp only [Function.update_same]
    exact hp

theorem BBox_write_read_round_trip_witness :
    OGL.Renderer.BBoxRead gcExternals doubleRenderer
      (OGL.Renderer.BBoxWrite gcExternals doubleRenderer (fun _ => 0) 3 100) 3 = 100 :=
  (BBox_write_read_round_trip gcExternals doubleRenderer (fun _ => 0) 3 100 2 (by decide)
    (by decide) (by decide) (by decide) (by decide) (by decide) (by decide) (by decide)
    (by decide)).2.2
/-! ## Depth peeks -/

theorem Clamp_le (val min max : Nat) (h : min ≤ max) : MathUtil.Clamp val min max ≤ max := by
  unfold MathUtil.Clamp
  omega

theorem foldl_set_all (P : Nat → Prop) {β : Type} (idx : β → Nat) (val : β → Nat)
    (hval : ∀ b, P (val b)) (l : List β) :
    ∀ vec : List Nat, (∀ v ∈ vec, P v) →
      ∀ v ∈ l.foldl (fun (vec : List Nat) (b : β) => vec.set (idx b) (val b)) vec, P v := by
  induction l with
  | nil => intro vec h; exact h
  | cons b l ih =>
    intro vec h
    apply ih
    intro v hv
    rcases List.mem_or_eq_of_mem_set hv with h1 | h1
    · exact h v h1
    · rw [h1]
      exact hval b

theorem fillTile_all (P : Nat → Prop) (pixel : Nat → Nat → Nat) (hp : ∀ x y, P (pixel x y))
    (rc : Rect) (vec : List Nat) (hvec : ∀ v ∈ vec, P v) :
    ∀ v ∈ OGL.fillTile pixel rc vec, P v := by
  unfold OGL.fillTile
  dsimp only
  generalize (List.range (toU32 (toS32 (rc.bottom - rc.top)))) = rows
  induction rows generalizing vec with
  | nil => exact hvec
  | cons yc rows ih =>
    rw [List.foldl_cons]
    apply ih
    exact foldl_set_all P _ _ (fun xc => hp _ _) _ vec hvec

theorem efbPixelValue_depth_le (X : Externals) (asFloat : Nat → ℚ) (r : Renderer)
    (trc : Rect) (data : Nat → Nat) (x y : Nat) :
    OGL.efbPixelValue X MathUtil.Clamp asFloat r EFBAccessType.PeekZ trc data x y ≤ 0xFFFFFF := by
  unfold OGL.efbPixelValue
  dsimp only
  rw [if_pos rfl]
  exact Clamp_le _ _ _ (by decide)

theorem UpdateEFBCache_depthBounded (X : Externals) (asFloat : Nat → ℚ) (r : Renderer)
    (c : OGL.EFBCache) (type : EFBAccessType) (idx : Nat) (rc trc : Rect) (data : Nat → Nat)
    (hc : OGL.DepthCacheBounded c) :
    OGL.DepthCacheBounded (OGL.UpdateEFBCache X MathUtil.Clamp asFloat r c type idx rc trc data) := by
  intro i v hv
  unfold OGL.UpdateEFBCache at hv
  dsimp only at hv
  by_cases htype : type = EFBAccessType.PeekZ
  · subst htype
    rw [if_pos rfl] at hv
    split_ifs at hv with h1 h2
    · exact fillTile_all (fun v => v ≤ 0xFFFFFF) _
        (efbPixelValue_depth_le X asFloat r trc data) rc _
        (fun w hw => by rw [List.eq_of_mem_replicate hw]; decide) v hv
    · exact fillTile_all (fun v => v ≤ 0xFFFFFF) _
        (efbPixelValue_depth_le X asFloat r trc data) rc _ (hc idx) v hv
    · exact hc i v hv
  · rw [if_neg htype] at hv
    rw [if_neg (by rintro ⟨h, -⟩; cases h)] at hv
    exact hc i v hv

theorem ClearEFBCache_depthBounded (c : OGL.EFBCache) (hc : OGL.DepthCacheBounded c) :
    OGL.DepthCacheBounded (OGL.ClearEFBCache c) := by
  unfold OGL.ClearEFBCache
  split
  · exact hc
  · exact hc

theorem shiftRight_8_le (z : Nat) (h : z ≤ 0xFFFFFF) : z >>> 8 ≤ 0xFFFF := by
  rw [Nat.shiftRight_eq_div_pow]
  omega

theorem getD_le_of_all (l : List Nat) (n B : Nat) (h : ∀ v ∈ l, v ≤ B) : l.getD n 0 ≤ B := by
  rw [List.getD_eq_getElem?_getD]
  cases hn : l[n]? with
  | none => simp
  | some v =>
    simp only [Option.getD_some]
    exact h v (List.getElem?_mem hn)

theorem peekZ_word_le (c : OGL.EFBCache) (hc : OGL.DepthCacheBounded c)
    (pixel_format : PixelFormat) (idx off : Nat) :
    (if pixel_format = PixelFormat.RGB565_Z16 then ((c.s_efbCache 0 idx).getD off 0) >>> 8
      else (c.s_efbCache 0 idx).getD off 0) ≤ depthLimit pixel_format := by
  unfold depthLimit
  have h := getD_le_of_all (c.s_efbCache 0 idx) off 0xFFFFFF (hc idx)
  by_cases hf : pixel_format = PixelFormat.RGB565_Z16
  · rw [if_pos hf, if_pos hf]
    exact shiftRight_8_le _ h
  · rw [if_neg hf, if_neg hf]
    exact h

/-- C25: `AccessEFB(PeekZ)` returns a 16-bit value when the EFB pixel format is `RGB565_Z16`
and a 24-bit value otherwise, for every depth value read back. In the D3D and Vulkan backends
the result is the clamped conversion of the depth; in the OGL backend it is a word of the peek
cache, shifted right by 8 bits for `RGB565_Z16`, and the depth half of the cache holds 24-bit
words only: this holds for the initial cache and is kept by `ClearEFBCache`, `UpdateEFBCache`
and `AccessEFB`. -/
theorem AccessEFB_PeekZ_within_depth_limit (X : Externals) (asFloat : Nat → ℚ)
    (glReadPixels : EFBAccessType → Int → Int → Nat → Nat → Nat → Nat)
    (pixel_format : PixelFormat) (ReadMode : Nat) (r : Renderer) (c : OGL.EFBCache)
    (val : ℚ) (x y : Nat) (hc : OGL.DepthCacheBounded c) :
    D3D.AccessEFB_PeekZ pixel_format val ≤ depthLimit pixel_format ∧
      Vulkan.AccessEFB_PeekZ pixel_format val ≤ depthLimit pixel_format ∧
      (OGL.AccessEFB X MathUtil.Clamp asFloat glReadPixels pixel_format ReadMode r c
        EFBAccessType.PeekZ x y).1 ≤ depthLimit pixel_format ∧
      OGL.DepthCacheBounded
        (OGL.AccessEFB X MathUtil.Clamp asFloat glReadPixels pixel_format ReadMode r c
          EFBAccessType.PeekZ x y).2 ∧
      OGL.DepthCacheBounded OGL.EFBCache.initial ∧
      OGL.DepthCacheBounded (OGL.ClearEFBCache c) ∧
      (∀ (type : EFBAccessType) (idx : Nat) (rc trc : Rect) (data : Nat → Nat),
        OGL.DepthCacheBounded
          (OGL.UpdateEFBCache X MathUtil.Clamp asFloat r c type idx rc trc data)) := by
  refine ⟨?_, ?_, ?_, ?_, ?_, ClearEFBCache_depthBounded c hc,
    fun type idx rc trc data => UpdateEFBCache_depthBounded X asFloat r c type idx rc trc data hc⟩
  · unfold D3D.AccessEFB_PeekZ depthLimit
    dsimp only
    split
    · exact Clamp_le _ _ _ (by decide)
    · exact Clamp_le _ _ _ (by decide)
  · unfold Vulkan.AccessEFB_PeekZ depthLimit
    dsimp only
    split
    · exact Clamp_le _ _ _ (by decide)
    · exact Clamp_le _ _ _ (by decide)
  · unfold OGL.AccessEFB
    dsimp only
    by_cases hvalid : c.s_efbCacheValid 0 (OGL.cacheRectIdxOf X x y) = true
    · rw [if_neg (not_not.mpr hvalid)]
      exact peekZ_word_le c hc pixel_format _ _
    · rw [if_pos hvalid]
      exact peekZ_word_le _ (UpdateEFBCache_depthBounded X asFloat r c _ _ _ _ _ hc)
        pixel_format _ _
  · unfold OGL.AccessEFB
    dsimp only
    split
    · exact UpdateEFBCache_depthBounded X asFloat r c _ _ _ _ _ hc
    · exact hc
  · intro i v hv
    simp [OGL.EFBCache.initial] at hv

theorem AccessEFB_PeekZ_within_depth_limit_witness :
    OGL.DepthCacheBounded OGL.EFBCache.initial ∧
      D3D.AccessEFB_PeekZ PixelFormat.RGB565_Z16 0 ≤ depthLimit PixelFormat.RGB565_Z16 :=
  have hinit : OGL.DepthCacheBounded OGL.EFBCache.initial := fun i v hv => by
    simp [OGL.EFBCache.initial] at hv
  ⟨hinit,
    (AccessEFB_PeekZ_within_depth_limit gcExternals (fun _ => 0) (fun _ _ _ _ _ _ => 0)
      PixelFormat.RGB565_Z16 0 sampleRenderer OGL.EFBCache.initial 0 0 0 hinit).1⟩

/-! ## OGL peek cache: sampling inside the readback buffer -/

theorem EFBToScaledX_natCast (r : Renderer) (n : Nat) (h : n * r.m_efb_scale < 2 ^ 31) :
    r.EFBToScaledX (n : Int) = ((n * r.m_efb_scale : Nat) : Int) := by
  unfold Renderer.EFBToScaledX
  exact smul_toS32_eq n r.m_efb_scale h

theorem EFBToScaledY_natCast (r : Renderer) (n : Nat) (h : n * r.m_efb_scale < 2 ^ 31) :
    r.EFBToScaledY (n : Int) = ((n * r.m_efb_scale : Nat) : Int) := by
  unfold Renderer.EFBToScaledY
  exact smul_toS32_eq n r.m_efb_scale h

theorem midpoint_natCast (a b : Nat) (h : a + b < 2 ^ 31) :
    toU32 (sdiv (toS32 ((a : Int) + (b : Int))) 2) = (a + b) / 2 := by
  rw [← Nat.cast_add, toS32_natCast h]
  unfold sdiv
  have h2 : Int.tdiv ((a + b : Nat) : Int) 2 = (((a + b) / 2 : Nat) : Int) := by
    rw [Int.tdiv_eq_ediv (Int.natCast_nonneg _) (by decide)]
    rfl
  rw [h2, toS32_natCast (by omega), toU32_natCast (by omega)]

/-- The column sampled for the EFB column `xE` of a tile that starts at column `L`. -/
theorem OGL_xData_eq (r : Renderer) (trc : Rect) (L xE : Nat)
    (htrc : trc.left = ((L * r.m_efb_scale : Nat) : Int)) (hL : L ≤ xE)
    (hov : xE * r.m_efb_scale + (xE + 1) * r.m_efb_scale < 2 ^ 31) (hxE : xE + 1 < 2 ^ 31) :
    OGL.xDataOf r trc xE =
      (xE * r.m_efb_scale + (xE + 1) * r.m_efb_scale) / 2 - L * r.m_efb_scale := by
  unfold OGL.xDataOf
  dsimp only
  rw [toS32_natCast (show xE < 2 ^ 31 by omega), u32_of_lt (show xE + 1 < 2 ^ 32 by omega),
    toS32_natCast hxE, EFBToScaledX_natCast r xE (by omega),
    EFBToScaledX_natCast r (xE + 1) (by omega), midpoint_natCast _ _ hov, htrc]
  have hLs : L * r.m_efb_scale ≤ xE * r.m_efb_scale := Nat.mul_le_mul_right _ hL
  have hle : L * r.m_efb_scale ≤ (xE * r.m_efb_scale + (xE + 1) * r.m_efb_scale) / 2 := by
    have : xE * r.m_efb_scale ≤ (xE + 1) * r.m_efb_scale := Nat.mul_le_mul_right _ (by omega)
    omega
  rw [← Nat.cast_sub hle, toU32_natCast (by omega)]

/-- The row sampled for the EFB row `yE` of a tile that ends at row `B`. -/
theorem OGL_yData_eq (X : Externals) (r : Renderer) (trc : Rect) (B yE : Nat)
    (htrc : trc.bottom = (((X.EFB_HEIGHT - B) * r.m_efb_scale : Nat) : Int))
    (hyB : yE < B) (hB : B ≤ X.EFB_HEIGHT)
    (hov : (X.EFB_HEIGHT - yE) * r.m_efb_scale + (X.EFB_HEIGHT - yE - 1) * r.m_efb_scale <
      2 ^ 31)
    (hEH : X.EFB_HEIGHT < 2 ^ 31) :
    OGL.yDataOf X r trc yE =
      ((X.EFB_HEIGHT - yE) * r.m_efb_scale + (X.EFB_HEIGHT - yE - 1) * r.m_efb_scale) / 2 -
        (X.EFB_HEIGHT - B) * r.m_efb_scale := by
  unfold OGL.yDataOf
  dsimp only
  have e1 : ((X.EFB_HEIGHT : Int) - (yE : Int)) = ((X.EFB_HEIGHT - yE : Nat) : Int) := by
    rw [Nat.cast_sub (by omega)]
  have e2 : ((X.EFB_HEIGHT : Int) - (yE : Int) - 1) = ((X.EFB_HEIGHT - yE - 1 : Nat) : Int) := by
    rw [Nat.cast_sub (by omega), Nat.cast_sub (by omega)]
    rfl
  rw [e2, e1, toU32_natCast (show X.EFB_HEIGHT - yE < 2 ^ 32 by omega),
    toU32_natCast (show X.EFB_HEIGHT - yE - 1 < 2 ^ 32 by omega),
    toS32_natCast (show X.EFB_HEIGHT - yE < 2 ^ 31 by omega),
    toS32_natCast (show X.EFB_HEIGHT - yE - 1 < 2 ^ 31 by omega),
    EFBToScaledY_natCast r _ (by omega), EFBToScaledY_natCast r _ (by omega),
    midpoint_natCast _ _ hov, htrc]
  have h1 : (X.EFB_HEIGHT - B) * r.m_efb_scale ≤ (X.EFB_HEIGHT - yE - 1) * r.m_efb_scale :=
    Nat.mul_le_mul_right _ (by omega)
  have h2 : (X.EFB_HEIGHT - yE - 1) * r.m_efb_scale ≤ (X.EFB_HEIGHT - yE) * r.m_efb_scale :=
    Nat.mul_le_mul_right _ (by omega)
  rw [← Nat.cast_sub (by omega), toU32_natCast (by omega)]

theorem OGL_target_rect_eq (X : Externals) (r : Renderer) (L T R Bo : Nat)
    (hLR : L ≤ R) (hTB : T ≤ Bo) (hBo : Bo ≤ X.EFB_HEIGHT)
    (hR : R * r.m_efb_scale < 2 ^ 31) (hEH : X.EFB_HEIGHT < 2 ^ 31)
    (hEHs : X.EFB_HEIGHT * r.m_efb_scale < 2 ^ 31) :
    OGL.ConvertEFBRectangle X r
        { left := (L : Int), top := (T : Int), right := (R : Int), bottom := (Bo : Int) } =
      { left := ((L * r.m_efb_scale : Nat) : Int)
        top := (((X.EFB_HEIGHT - T) * r.m_efb_scale : Nat) : Int)
        right := ((R * r.m_efb_scale : Nat) : Int)
        bottom := (((X.EFB_HEIGHT - Bo) * r.m_efb_scale : Nat) : Int) } := by
  unfold OGL.ConvertEFBRectangle
  dsimp only
  have hLs : L * r.m_efb_scale ≤ R * r.m_efb_scale := Nat.mul_le_mul_right _ hLR
  have hTs : (X.EFB_HEIGHT - T) * r.m_efb_scale ≤ X.EFB_HEIGHT * r.m_efb_scale :=
    Nat.mul_le_mul_right _ (by omega)
  have hBs : (X.EFB_HEIGHT - Bo) * r.m_efb_scale ≤ X.EFB_HEIGHT * r.m_efb_scale :=
    Nat.mul_le_mul_right _ (by omega)
  rw [← Nat.cast_sub (show T ≤ X.EFB_HEIGHT by omega), ← Nat.cast_sub hBo,
    toS32_natCast (show X.EFB_HEIGHT - T < 2 ^ 31 by omega),
    toS32_natCast (show X.EFB_HEIGHT - Bo < 2 ^ 31 by omega),
    EFBToScaledX_natCast r L (by omega), EFBToScaledX_natCast r R hR,
    EFBToScaledY_natCast r _ (by omega), EFBToScaledY_natCast r _ (by omega)]

theorem readback_index_lt (xD yD W H : Nat) (hx : xD < W) (hy : yD < H)
    (hWH : W * H < 2 ^ 32) : u32 (u32 (yD * W) + xD) < u32 (W * H) := by
  have h1 : yD * W + xD < W * H := by
    calc yD * W + xD < yD * W + W := by omega
      _ = (yD + 1) * W := by ring
      _ ≤ H * W := Nat.mul_le_mul_right _ hy
      _ = W * H := Nat.mul_comm _ _
  rw [u32_of_lt (show yD * W < 2 ^ 32 by omega), u32_of_lt (show yD * W + xD < 2 ^ 32 by omega),
    u32_of_lt hWH]
  exact h1

/-- The sampling facts for one pixel of a tile `[L, R) x [T, Bo)` inside the EFB. -/
theorem OGL_tile_sampling (X : Externals) (r : Renderer) (L T R Bo xCache yCache : Nat)
    (hs : 1 ≤ r.m_efb_scale) (hR : R ≤ X.EFB_WIDTH) (hBo : Bo ≤ X.EFB_HEIGHT)
    (hx : L + xCache < R) (hy : T + yCache < Bo)
    (hovw : 2 * (r.m_efb_scale * X.EFB_WIDTH) < 2 ^ 31)
    (hovh : 2 * (r.m_efb_scale * X.EFB_HEIGHT) < 2 ^ 31) :
    OGL.xDataOf r (OGL.ConvertEFBRectangle X r
        { left := (L : Int), top := (T : Int), right := (R : Int), bottom := (Bo : Int) })
        (L + xCache) < R * r.m_efb_scale - L * r.m_efb_scale ∧
      OGL.yDataOf X r (OGL.ConvertEFBRectangle X r
        { left := (L : Int), top := (T : Int), right := (R : Int), bottom := (Bo : Int) })
        (T + yCache) <
          (X.EFB_HEIGHT - T) * r.m_efb_scale - (X.EFB_HEIGHT - Bo) * r.m_efb_scale ∧
      toU32 (toS32 ((OGL.ConvertEFBRectangle X r
        { left := (L : Int), top := (T : Int), right := (R : Int), bottom := (Bo : Int) }).right -
        (OGL.ConvertEFBRectangle X r
        { left := (L : Int), top := (T : Int), right := (R : Int), bottom := (Bo : Int) }).left)) =
          R * r.m_efb_scale - L * r.m_efb_scale ∧
      toU32 (toS32 ((OGL.ConvertEFBRectangle X r
        { left := (L : Int), top := (T : Int), right := (R : Int), bottom := (Bo : Int) }).top -
        (OGL.ConvertEFBRectangle X r
        { left := (L : Int), top := (T : Int), right := (R : Int), bottom := (Bo : Int) }).bottom)) =
          (X.EFB_HEIGHT - T) * r.m_efb_scale - (X.EFB_HEIGHT - Bo) * r.m_efb_scale := by
  have hWs : X.EFB_WIDTH ≤ r.m_efb_scale * X.EFB_WIDTH := Nat.le_mul_of_pos_left _ hs
  have hHs : X.EFB_HEIGHT ≤ r.m_efb_scale * X.EFB_HEIGHT := Nat.le_mul_of_pos_left _ hs
  have hcw : X.EFB_WIDTH * r.m_efb_scale = r.m_efb_scale * X.EFB_WIDTH := Nat.mul_comm _ _
  have hch : X.EFB_HEIGHT * r.m_efb_scale = r.m_efb_scale * X.EFB_HEIGHT := Nat.mul_comm _ _
  have hRs : R * r.m_efb_scale ≤ X.EFB_WIDTH * r.m_efb_scale := Nat.mul_le_mul_right _ hR
  have hx1 : (L + xCache + 1) * r.m_efb_scale ≤ R * r.m_efb_scale :=
    Nat.mul_le_mul_right _ (by omega)
  have hx2 : (L + xCache + 1) * r.m_efb_scale =
      (L + xCache) * r.m_efb_scale + r.m_efb_scale := by ring
  have hx3 : L * r.m_efb_scale ≤ (L + xCache) * r.m_efb_scale :=
    Nat.mul_le_mul_right _ (by omega)
  have hy0 : X.EFB_HEIGHT - (T + yCache) = (X.EFB_HEIGHT - (T + yCache) - 1) + 1 := by omega
  have hy1 : (X.EFB_HEIGHT - (T + yCache)) * r.m_efb_scale =
      (X.EFB_HEIGHT - (T + yCache) - 1) * r.m_efb_scale + r.m_efb_scale := by
    conv_lhs => rw [hy0]
    ring
  have hy2 : (X.EFB_HEIGHT - (T + yCache)) * r.m_efb_scale ≤
      (X.EFB_HEIGHT - T) * r.m_efb_scale := Nat.mul_le_mul_right _ (by omega)
  have hy3 : (X.EFB_HEIGHT - Bo) * r.m_efb_scale ≤
      (X.EFB_HEIGHT - (T + yCache) - 1) * r.m_efb_scale := Nat.mul_le_mul_right _ (by omega)
  have hy4 : (X.EFB_HEIGHT - T) * r.m_efb_scale ≤ X.EFB_HEIGHT * r.m_efb_scale :=
    Nat.mul_le_mul_right _ (by omega)
  rw [OGL_target_rect_eq X r L T R Bo (by omega) (by omega) hBo (by omega) (by omega) (by omega)]
  refine ⟨?_, ?_, ?_, ?_⟩
  · rw [OGL_xData_eq r _ L (L + xCache) rfl (by omega) (by omega) (by omega)]
    omega
  · rw [OGL_yData_eq X r _ Bo (T + yCache) rfl (by omega) hBo (by omega) (by omega)]
    omega
  · exact toU32_toS32_sub (by omega) (by omega)
  · exact toU32_toS32_sub (by omega) (by omega)

/-- C28 (counterexample): at an EFB scale of 1024 the tile of a depth peek at `(0, 0)` is
65536 target pixels wide and high, the `u32` product that sizes the readback buffer wraps to
0, and the first pixel of the tile is read at index 4261413376. -/
theorem OGL_readback_index_outside_at_scale_1024 :
    1 ≤ hugeScaleRenderer.m_efb_scale ∧
      0 < toU32 (toS32 ((OGL.efbPixelRcOf gcExternals EFBAccessType.PeekZ 0 0).right -
        (OGL.efbPixelRcOf gcExternals EFBAccessType.PeekZ 0 0).left)) ∧
      0 < toU32 (toS32 ((OGL.efbPixelRcOf gcExternals EFBAccessType.PeekZ 0 0).bottom -
        (OGL.efbPixelRcOf gcExternals EFBAccessType.PeekZ 0 0).top)) ∧
      OGL.readbackLength (OGL.ConvertEFBRectangle gcExternals hugeScaleRenderer
        (OGL.efbPixelRcOf gcExternals EFBAccessType.PeekZ 0 0)) = 0 ∧
      OGL.readbackIndex gcExternals hugeScaleRenderer
        (OGL.ConvertEFBRectangle gcExternals hugeScaleRenderer
          (OGL.efbPixelRcOf gcExternals EFBAccessType.PeekZ 0 0)) 0 0 = 4261413376 := by
  decide

/-- C28 (amended): for a peek at `(x, y)` inside the EFB, an EFB scale `s >= 1`, and no signed
overflow in the scaled coordinates (`2 * s * EFB_WIDTH` and `2 * s * EFB_HEIGHT` below `2^31`),
every pixel `(xCache, yCache)` of the tile chosen by `AccessEFB` is sampled by `UpdateEFBCache`
at a column `xData < targetPixelRcWidth` and a row `yData < targetPixelRcHeight`; the value it
stores is read from the readback buffer at `yData * targetPixelRcWidth + xData`; and when the
`u32` product that sizes the buffer cannot wrap (`(64 * s) * (64 * s) < 2^32`, that is
`s <= 1023`) this index is below the buffer length `targetPixelRcWidth * targetPixelRcHeight`. -/
theorem OGL_UpdateEFBCache_samples_inside_readback (X : Externals) (r : Renderer)
    (type : EFBAccessType) (x y xCache yCache : Nat) (rc trc : Rect)
    (htype : type = EFBAccessType.PeekColor ∨ type = EFBAccessType.PeekZ)
    (hx : x < X.EFB_WIDTH) (hy : y < X.EFB_HEIGHT) (hs : 1 ≤ r.m_efb_scale)
    (hovw : 2 * (r.m_efb_scale * X.EFB_WIDTH) < 2 ^ 31)
    (hovh : 2 * (r.m_efb_scale * X.EFB_HEIGHT) < 2 ^ 31)
    (hrc : rc = OGL.efbPixelRcOf X type x y)
    (htrc : trc = OGL.ConvertEFBRectangle X r rc)
    (hxc : xCache < toU32 (toS32 (rc.right - rc.left)))
    (hyc : yCache < toU32 (toS32 (rc.bottom - rc.top))) :
    (OGL.xDataOf r trc (toU32 (rc.left + (xCache : Int))) <
        toU32 (toS32 (trc.right - trc.left)) ∧
      OGL.yDataOf X r trc (toU32 (rc.top + (yCache : Int))) <
        toU32 (toS32 (trc.top - trc.bottom))) ∧
      (∀ (clamp : Nat → Nat → Nat → Nat) (asFloat : Nat → ℚ) (data : Nat → Nat),
        OGL.efbPixelValue X clamp asFloat r type trc data (toU32 (rc.left + (xCache : Int)))
            (toU32 (rc.top + (yCache : Int))) =
          if type = EFBAccessType.PeekZ then
            clamp (toU32 (ctrunc (asFloat (data (OGL.readbackIndex X r trc
              (toU32 (rc.left + (xCache : Int))) (toU32 (rc.top + (yCache : Int))))) *
                16777216))) 0 0xFFFFFF
          else
            data (OGL.readbackIndex X r trc (toU32 (rc.left + (xCache : Int)))
              (toU32 (rc.top + (yCache : Int))))) ∧
      ((64 * r.m_efb_scale) * (64 * r.m_efb_scale) < 2 ^ 32 →
        OGL.readbackIndex X r trc (toU32 (rc.left + (xCache : Int)))
            (toU32 (rc.top + (yCache : Int))) < OGL.readbackLength trc) := by
  have hWs : X.EFB_WIDTH ≤ r.m_efb_scale * X.EFB_WIDTH := Nat.le_mul_of_pos_left _ hs
  have hHs : X.EFB_HEIGHT ≤ r.m_efb_scale * X.EFB_HEIGHT := Nat.le_mul_of_pos_left _ hs
  have hrect := OGL_tile_rect_eq X x y type htype (by omega) (by omega) hx hy
  rw [hrect] at hrc
  subst hrc
  subst htrc
  dsimp only at hxc hyc ⊢
  rw [toU32_toS32_sub (by omega) (by omega)] at hxc hyc
  have hxe : toU32 (((64 * (x / 64) : Nat) : Int) + (xCache : Int)) = 64 * (x / 64) + xCache := by
    rw [← Nat.cast_add, toU32_natCast (by omega)]
  have hye : toU32 (((64 * (y / 64) : Nat) : Int) + (yCache : Int)) = 64 * (y / 64) + yCache := by
    rw [← Nat.cast_add, toU32_natCast (by omega)]
  rw [hxe, hye]
  obtain ⟨h1, h2, h3, h4⟩ := OGL_tile_sampling X r (64 * (x / 64)) (64 * (y / 64))
    (min (64 * (x / 64) + 64) X.EFB_WIDTH) (min (64 * (y / 64) + 64) X.EFB_HEIGHT)
    xCache yCache hs (by omega) (by omega) (by omega) (by omega) hovw hovh
  refine ⟨⟨?_, ?_⟩, ?_, ?_⟩
  · rw [h3]
    exact h1
  · rw [h4]
    exact h2
  · intro clamp asFloat data
    rfl
  · intro hbuf
    unfold OGL.readbackIndex OGL.readbackLength
    dsimp only
    rw [h3, h4]
    refine readback_index_lt _ _ _ _ h1 h2 ?_
    have hw : min (64 * (x / 64) + 64) X.EFB_WIDTH * r.m_efb_scale -
        64 * (x / 64) * r.m_efb_scale ≤ 64 * r.m_efb_scale := by
      rw [← Nat.sub_mul]
      exact Nat.mul_le_mul_right _ (by omega)
    have hh : (X.EFB_HEIGHT - 64 * (y / 64)) * r.m_efb_scale -
        (X.EFB_HEIGHT - min (64 * (y / 64) + 64) X.EFB_HEIGHT) * r.m_efb_scale ≤
          64 * r.m_efb_scale := by
      rw [← Nat.sub_mul]
      exact Nat.mul_le_mul_right _ (by omega)
    exact lt_of_le_of_lt (Nat.mul_le_mul hw hh) hbuf

theorem OGL_UpdateEFBCache_samples_inside_readback_witness :
    (OGL.xDataOf tripleRenderer (OGL.ConvertEFBRectangle gcExternals tripleRenderer
          (OGL.efbPixelRcOf gcExternals EFBAccessType.PeekZ 639 527))
          (toU32 ((OGL.efbPixelRcOf gcExternals EFBAccessType.PeekZ 639 527).left + ((63 : Nat) : Int))) <
        toU32 (toS32 ((OGL.ConvertEFBRectangle gcExternals tripleRenderer
          (OGL.efbPixelRcOf gcExternals EFBAccessType.PeekZ 639 527)).right -
          (OGL.ConvertEFBRectangle gcExternals tripleRenderer
          (OGL.efbPixelRcOf gcExternals EFBAccessType.PeekZ 639 527)).left)) ∧
      OGL.yDataOf gcExternals tripleRenderer (OGL.ConvertEFBRectangle gcExternals tripleRenderer
          (OGL.efbPixelRcOf gcExternals EFBAccessType.PeekZ 639 527))
          (toU32 ((OGL.efbPixelRcOf gcExternals EFBAccessType.PeekZ 639 527).top + ((15 : Nat) : Int))) <
        toU32 (toS32 ((OGL.ConvertEFBRectangle gcExternals tripleRenderer
          (OGL.efbPixelRcOf gcExternals EFBAccessType.PeekZ 639 527)).top -
          (OGL.ConvertEFBRectangle gcExternals tripleRenderer
          (OGL.efbPixelRcOf gcExternals EFBAccessType.PeekZ 639 527)).bottom))) ∧
      OGL.readbackIndex gcExternals tripleRenderer
          (OGL.ConvertEFBRectangle gcExternals tripleRenderer
            (OGL.efbPixelRcOf gcExternals EFBAccessType.PeekZ 639 527))
          (toU32 ((OGL.efbPixelRcOf gcExternals EFBAccessType.PeekZ 639 527).left + ((63 : Nat) : Int)))
          (toU32 ((OGL.efbPixelRcOf gcExternals EFBAccessType.PeekZ 639 527).top + ((15 : Nat) : Int))) <
        OGL.readbackLength (OGL.ConvertEFBRectangle gcExternals tripleRenderer
          (OGL.efbPixelRcOf gcExternals EFBAccessType.PeekZ 639 527)) :=
  have h := OGL_UpdateEFBCache_samples_inside_readback gcExternals tripleRenderer
    EFBAccessType.PeekZ 639 527 63 15 _ _ (Or.inr rfl) (by decide) (by decide) (by decide)
    (by decide) (by decide) rfl rfl (by decide) (by decide)
  ⟨h.1, h.2.2 (by decide)⟩

/-! ## Ordering of the copy parameters -/

end Dolphin
